import Mathlib

/-!
# Verification of the Kef_Ocr document classification / extraction-repair pipeline

Shallow embedding of the pipeline's core (script router, response parser,
validation dispatcher, income-certificate cleanup, SSC and CBSE marksheet
validators) together with proofs about the embedded functions.

Modelling conventions, used uniformly below:
* Python strings are embedded as `String` / `List Char`; `str.strip()` is
  `stripL` over the six ASCII whitespace characters Python strips for the
  texts at hand; `str.lower()`/`str.upper()` are character-wise ASCII case
  maps (the Devanagari characters these texts contain are case-less).
* Regular-expression word characters (`\w`, `\b`) are embedded over the
  ASCII alphabet `[A-Za-z0-9_]`, and `\d` as the ASCII digits, the ranges
  the matched fields use.
* Python `float` values reaching the validators (percentages) are embedded
  as rationals `ℚ`; `dict`s with a statically known key set are embedded as
  structures whose fields are `Option`-typed (`none` = key absent or null
  where the code does not distinguish the two, and `Option (Option _)`
  where it does); open-ended `dict`s (the parsed model response) are
  embedded as association lists `Record`.
* The external JSON parser (`json.loads`) is a parameter
  `jsonLoads : String → Except String Value` of the response parser.
* Numeric model-output fields are embedded at their schema type
  (`Option Int`), on which the source's `int(float(str(x)))` coercion is
  the identity.
-/

namespace KefOcr

/-! ## Basic Python-style string operations -/

/-- The whitespace characters stripped by Python's `str.strip()` /
matched by `\s` for the character repertoire of these documents. -/
def pyWs (c : Char) : Bool :=
  c == ' ' || c == '\t' || c == '\n' || c == '\r' || c == '\x0b' || c == '\x0c'

/-- `str.strip()` on a character list. -/
def stripL (cs : List Char) : List Char :=
  ((cs.dropWhile pyWs).reverse.dropWhile pyWs).reverse

/-- `str.strip()`. -/
def pyStrip (s : String) : String := ⟨stripL s.data⟩

/-- Character-wise `str.lower()`. -/
def pyLower (s : String) : String := ⟨s.data.map Char.toLower⟩

/-- Character-wise `str.upper()`. -/
def pyUpper (s : String) : String := ⟨s.data.map Char.toUpper⟩

/-- Substring occurrence check (`needle in hay`) on character lists. -/
def occursSub (needle hay : List Char) : Bool :=
  (List.range (hay.length + 1)).any (fun j => needle.isPrefixOf (hay.drop j))

/-- `needle in hay` for Python strings. -/
def pyIn (needle hay : String) : Bool := occursSub needle.data hay.data

/-- Single-pass worker for `splitRuns`; `acc` holds the current run in
reverse. -/
def splitRunsGo (p : Char → Bool) : List Char → List Char → List (List Char)
  | [], acc => if acc.isEmpty then [] else [acc.reverse]
  | c :: cs, acc =>
    if p c then splitRunsGo p cs (c :: acc)
    else if acc.isEmpty then splitRunsGo p cs []
    else acc.reverse :: splitRunsGo p cs []

/-- Maximal runs of characters satisfying `p` (the matches of `p+` as a
regular expression over the text). -/
def splitRuns (p : Char → Bool) (cs : List Char) : List (List Char) :=
  splitRunsGo p cs []

/-- `str.split()`: split on whitespace runs, dropping empty pieces. -/
def pySplit (s : String) : List String :=
  (splitRuns (fun c => !pyWs c) s.data).map String.mk

/-- Regex word character (`\w`), embedded over ASCII. -/
def wordChar (c : Char) : Bool := c.isAlpha || c.isDigit || c == '_'

/-- A character of the Devanagari Unicode block `[ऀ-ॿ]`. -/
def isDevanagari (c : Char) : Bool := 0x900 ≤ c.toNat && c.toNat ≤ 0x97F

/-! ## `routing/script_router.py` -/

/-- `MARKSHEET_KEYWORDS` (a Python `set`; all members are distinct). -/
def MARKSHEET_KEYWORDS : List String :=
  ["statement of marks", "secondary school certificate", "certificate examination",
   "seat no", "centre no", "month & year of exam", "subject name", "marks obtained",
   "marks in figures", "marks in words", "mathematics", "science", "english",
   "marathi", "hindi", "social sciences", "ssc", "hsc"]

/-- `FINANCIAL_KEYWORDS`. -/
def FINANCIAL_KEYWORDS : List String :=
  ["bank", "account", "name", "address", "branch", "code", "number",
   "customer", "date", "mobile", "email", "ifsc", "micr", "nominee",
   "occupation", "student", "manager", "details", "contact", "mumbai",
   "maharashtra", "india", "canara", "opened", "building", "floor"]

/-- `COMMON_WORDS`.  The source literal lacks a comma between
`'Subject Name'` and `'do'`, so Python concatenates them into the single
element `"Subject Namedo"`; the element `"do"` is absent. -/
def COMMON_WORDS : List String :=
  ["the", "is", "are", "was", "were", "be", "been", "being", "have", "has", "had",
   "Marks", "Subject Namedo", "does", "did", "will", "would", "should", "could",
   "may", "might", "must", "can", "this", "that", "these", "those", "and", "or",
   "but", "if", "because", "of", "at", "by", "for", "with", "about", "to", "from",
   "in", "on", "off", "Mothers Name", "MOTHER'S NAME", "MATHEMATICS"]

/-- `DEVANAGARI_OCR_ARTIFACTS` (a Python `set`: duplicates in the literal
collapse, so counting iterates over the distinct members). -/
def DEVANAGARI_OCR_ARTIFACTS : List String :=
  ["THIOT", "REUIR", "foleel", "Ridle", "mocal", "HGRIa", "JUCR", "HPIFT",
   "fholdd", "gyfa", "Vobdet", "chFIG4aiCI", "yuda", "yiarra", "aypfias",
   "VIUITT", "prIdt", "gradt", "3TET", "3TEIRIGR", "gefle", "asardo",
   "shHich", "gAo", "dethes", "CRUIIT", "geitldleryald", "fucerferprta",
   "Meeldsiferbr", "pRloe", "Rasooce", "Saat", "Rasta", "Guruji", "chooece",
   "GrTgqut", "HGRAT", "GrGOT", "chFIG", "yarda", "prIdt"]

/-- Number of marksheet keywords occurring in `text.lower()`. -/
def marksheetHits (text : String) : Nat :=
  (MARKSHEET_KEYWORDS.filter (fun kw => pyIn kw (pyLower text))).length

/-- `is_marksheet`. -/
def is_marksheet (text : String) : Bool := 3 ≤ marksheetHits text

/-- Matches of `\b[a-zA-Z]{3,}\b`: maximal word-character runs that are
entirely alphabetic with length at least 3. -/
def englishWords (cs : List Char) : List (List Char) :=
  (splitRuns wordChar cs).filter (fun r => 3 ≤ r.length && r.all Char.isAlpha)

/-- Matches of `\b(?:[0-9]+[a-zA-Z]+|[a-zA-Z]+[0-9]+)\b`: maximal
word-character runs of the exact shape digits-then-letters or
letters-then-digits. -/
def mixedTokenRun (r : List Char) : Bool :=
  (r.takeWhile Char.isDigit ≠ [] && (r.dropWhile Char.isDigit).all Char.isAlpha
     && r.dropWhile Char.isDigit ≠ [])
  || (r.takeWhile Char.isAlpha ≠ [] && (r.dropWhile Char.isAlpha).all Char.isDigit
     && r.dropWhile Char.isAlpha ≠ [])

/-- Longest run of consecutive (lower-case, after `word.lower()`) consonants
in a word — the quantity the source computes with its per-character loop. -/
def maxConsonantRun (w : List Char) : Nat :=
  ((splitRuns (fun c => "bcdfghjklmnpqrstvwxyz".data.contains c)
      (w.map Char.toLower)).map List.length).foldr max 0

/-- `is_gibberish_or_devanagari`. -/
def is_gibberish_or_devanagari (text : String) : Bool :=
  if text.data = [] || (stripL text.data).length < 50 then
    if text.data ≠ [] && is_marksheet text then false else true
  else
    let cs := stripL text.data
    let total := cs.length
    if is_marksheet ⟨cs⟩ then false
    else
    -- 1. Devanagari ratio > 5%
    let dev := (cs.filter isDevanagari).length
    if 20 * dev > total then true
    else
    -- 2. extracted words
    let words := englishWords cs
    if words.length < 20 then true
    else
    let word_list := words.map (fun w => w.map Char.toLower)
    -- 3. Devanagari OCR artifacts
    let artifacts :=
      (DEVANAGARI_OCR_ARTIFACTS.dedup.filter (fun a => occursSub a.data cs)).length
    if 3 ≤ artifacts then true
    else
    -- 4. digit-letter mixed tokens, ratio of whitespace-split tokens
    let tokens := max (splitRuns (fun c => !pyWs c) cs).length 1
    let mixed := ((splitRuns wordChar cs).filter mixedTokenRun).length
    if 4 * mixed > tokens then true
    else
    -- 5. financial keywords
    let financial :=
      (FINANCIAL_KEYWORDS.filter (fun f => word_list.contains f.data)).length
    if 3 ≤ financial then false
    else
    -- 6. common English words
    let common := (COMMON_WORDS.filter (fun w => word_list.contains w.data)).length
    if common < 5 && !is_marksheet ⟨cs⟩ then true
    else
    -- 7. unusual ALL-CAPS words
    let allCaps := (splitRuns wordChar cs).filter
      (fun r => r ≠ [] && r.all (fun c => 'A' ≤ c && c ≤ 'Z'))
    let unusual := allCaps.filter (fun w => 4 < w.length
      && !(COMMON_WORDS ++ FINANCIAL_KEYWORDS).contains ⟨w.map Char.toLower⟩)
    if 5 * unusual.length > words.length then true
    else
    -- 8. impossible consonant clusters
    let badClusters := (words.filter (fun w => 5 ≤ maxConsonantRun w)).length
    if 10 * badClusters > 3 * words.length then true
    else
    -- 9. single-letter tokens
    let singles := ((splitRuns wordChar cs).filter
      (fun r => r.length = 1 && r.all Char.isAlpha)).length
    if 20 * singles > 3 * tokens then true
    else
    -- 10. average word length < 2.5 or > 12
    let lensum := (words.map List.length).sum
    if 2 * lensum < 5 * words.length || lensum > 12 * words.length then true
    else false

/-! ### Claim C9 -/

/-- C9: every text whose stripped form has length ≥ 50, fewer than 3
marksheet-keyword hits, and a Devanagari character ratio above 5%, is
classified as needing the alternate OCR (`is_gibberish_or_devanagari`
returns `true`, the Devanagari predicate being the first to fire). -/
theorem C9_devanagari_ratio_forces_alternate_ocr (text : String)
    (h50 : 50 ≤ (stripL text.data).length)
    (hmk : marksheetHits ⟨stripL text.data⟩ < 3)
    (hdev : (stripL text.data).length
      < 20 * ((stripL text.data).filter isDevanagari).length) :
    is_gibberish_or_devanagari text = true := by
  have hne : ¬ (text.data = [] ∨ (stripL text.data).length < 50) := by
    rintro (h | h)
    · rw [show text = ⟨[]⟩ from congrArg String.mk h.symm ▸ rfl] at h50
      · simp [stripL] at h50
    · omega
  have hmk' : is_marksheet ⟨stripL text.data⟩ = false := by
    simp [is_marksheet]; omega
  unfold is_gibberish_or_devanagari
  simp only [Bool.or_eq_true, decide_eq_true_eq]
  rw [if_neg hne, if_neg (by simp [hmk']), if_pos (by omega)]

/-- Witness for C9 at a concrete 54-character text with 4 Devanagari
characters and no marksheet keywords. -/
theorem C9_devanagari_ratio_witness :
    is_gibberish_or_devanagari
      "कखगघ random receipt paper qwerty asdfgh zxcvbn one two" = true :=
  C9_devanagari_ratio_forces_alternate_ocr
    "कखगघ random receipt paper qwerty asdfgh zxcvbn one two"
    (by decide) (by decide) (by decide)

/-! ## A bounded backtracking regular-expression engine

Patterns are abstract syntax trees; repetition is explicitly bounded.  At
every use below the bound passed for an unbounded `+`/`*`/`*?` is the
length of the subject text, which is exact because every repeated body in
the encoded patterns consumes at least one character per iteration.
Results are listed in backtracking priority order (first alternative
first, greedy longest-first, lazy shortest-first), so the head of the
result list is the match Python's `re` returns. -/

inductive RE where
  /-- matches the empty string -/
  | eps : RE
  /-- a single character satisfying the class predicate -/
  | cls (p : Char → Bool) : RE
  | seq (a b : RE) : RE
  /-- ordered alternation `a|b` -/
  | alt (a b : RE) : RE
  /-- `a{lo,hi}` / `a{lo,hi}?` (lazyQ selects the non-greedy variant) -/
  | rep (lo hi : Nat) (lazyQ : Bool) (a : RE) : RE
  /-- capturing group -/
  | grp (a : RE) : RE
  /-- word boundary `\b` over the ASCII word characters -/
  | bnd : RE
  /-- single-character negative lookahead `(?!c through p)` -/
  | nla (p : Char → Bool) : RE
  /-- single-character negative lookbehind -/
  | nlb (p : Char → Bool) : RE
  /-- `$` without MULTILINE: end of subject, or just before a final newline -/
  | eos : RE

/-- `\b` test: positions where exactly one neighbour is a word character. -/
def isBoundaryAt (cs : List Char) (i : Nat) : Bool :=
  let l := match i with
    | 0 => false
    | j + 1 => match cs[j]? with | some c => wordChar c | none => false
  let r := match cs[i]? with | some c => wordChar c | none => false
  l != r

/-- Match states: end position plus captured group spans in group order. -/
abbrev MatchRes := Nat × List (Nat × Nat)

/-- Iterate a body matcher between `lo` and `hi` times from position `i`,
listing resulting end positions in greedy or lazy priority order. -/
def repAll (m : Nat → List MatchRes) : Nat → Nat → Bool → Nat → List MatchRes
  | 0, 0, _, i => [(i, [])]
  | _ + 1, 0, _, _ => []
  | 0, hi + 1, lz, i =>
    let more := (m i).flatMap (fun r => repAll m 0 hi lz r.1)
    if lz then (i, []) :: more else more ++ [(i, [])]
  | lo + 1, hi + 1, lz, i => (m i).flatMap (fun r => repAll m lo hi lz r.1)

/-- All ways `re` can match starting at position `i` of `cs`, in
backtracking priority order. -/
def reAll : RE → List Char → Nat → List MatchRes
  | .eps, _, i => [(i, [])]
  | .cls p, cs, i =>
    match cs[i]? with
    | some c => if p c then [(i + 1, [])] else []
    | none => []
  | .seq a b, cs, i =>
    (reAll a cs i).flatMap fun ra =>
      (reAll b cs ra.1).map fun rb => (rb.1, ra.2 ++ rb.2)
  | .alt a b, cs, i => reAll a cs i ++ reAll b cs i
  | .rep lo hi lz a, cs, i => repAll (fun j => reAll a cs j) lo hi lz i
  | .grp a, cs, i => (reAll a cs i).map fun r => (r.1, (i, r.1) :: r.2)
  | .bnd, cs, i => if isBoundaryAt cs i then [(i, [])] else []
  | .nla p, cs, i =>
    match cs[i]? with
    | some c => if p c then [] else [(i, [])]
    | none => [(i, [])]
  | .nlb p, cs, i =>
    match i with
    | 0 => [(0, [])]
    | j + 1 =>
      match cs[j]? with
      | some c => if p c then [] else [(j + 1, [])]
      | none => [(j + 1, [])]
  | .eos, cs, i =>
    if i = cs.length || (i + 1 = cs.length && cs[i]? = some '\n') then [(i, [])]
    else []

/-- `re.search` from position `start`: the leftmost match, returned as
(start index, end index, group spans). -/
def reSearchFrom (re : RE) (cs : List Char) (start : Nat) :
    Option (Nat × Nat × List (Nat × Nat)) :=
  (List.range (cs.length + 1)).findSome? fun i =>
    if i < start then none
    else
      match reAll re cs i with
      | [] => none
      | r :: _ => some (i, r.1, r.2)

/-- `re.search`. -/
def reSearch (re : RE) (cs : List Char) : Option (Nat × Nat × List (Nat × Nat)) :=
  reSearchFrom re cs 0

/-- `re.fullmatch`: a match of the whole subject. -/
def reFullmatch (re : RE) (cs : List Char) : Bool :=
  (reAll re cs 0).any (fun r => r.1 = cs.length)

/-- `re.finditer` driver (fuel-bounded; `cs.length + 1` steps suffice as
positions strictly increase). -/
def reFindIterAux (re : RE) (cs : List Char) :
    Nat → Nat → List (Nat × Nat × List (Nat × Nat))
  | 0, _ => []
  | fuel + 1, pos =>
    match reSearchFrom re cs pos with
    | none => []
    | some (s, e, g) =>
      (s, e, g) :: reFindIterAux re cs fuel (if s < e then e else e + 1)

/-- `re.finditer`: all non-overlapping matches, left to right. -/
def reFindIter (re : RE) (cs : List Char) : List (Nat × Nat × List (Nat × Nat)) :=
  reFindIterAux re cs (cs.length + 1) 0

/-- Concatenation of a pattern list. -/
def reCat (rs : List RE) : RE := rs.foldr .seq .eps

/-- Case-sensitive literal. -/
def reLit (s : String) : RE := reCat (s.data.map (fun c => .cls (fun x => x == c)))

/-- Case-insensitive literal (ASCII case folding). -/
def reLitCI (s : String) : RE :=
  reCat (s.data.map (fun c => .cls (fun x => x.toUpper == c.toUpper)))

/-- `\s+` (greedy), bounded by the subject length `n`. -/
def reWs1 (n : Nat) : RE := .rep 1 n false (.cls pyWs)

/-- `\s*` (greedy). -/
def reWs0 (n : Nat) : RE := .rep 0 n false (.cls pyWs)

/-- `.` without DOTALL / the class `[^\n]`. -/
def reDot : RE := .cls (fun c => c != '\n')

/-- `X?` (greedy). -/
def reOpt (r : RE) : RE := .rep 0 1 false r

/-- Python slice `cs[a:b]`. -/
def sliceL (cs : List Char) (a b : Nat) : List Char := (cs.take b).drop a

/-! ## JSON-ish values and open records (parsed model responses) -/

/-- The values a parsed model response can hold. -/
inductive Value where
  | null : Value
  | bool (b : Bool) : Value
  | int (n : Int) : Value
  | num (q : ℚ) : Value
  | str (s : String) : Value
  | arr (xs : List Value) : Value
  | obj (fields : List (String × Value)) : Value

/-- A Python `dict` with string keys in insertion order. -/
abbrev Record := List (String × Value)

/-- `data.get(k)`: `Value.null` plays Python's `None` (the source never
distinguishes a missing key from an explicit `None` through `.get`). -/
def getR (data : Record) (k : String) : Value := (List.lookup k data).getD .null

/-- `k in data`. -/
def hasKey (data : Record) (k : String) : Bool := (List.lookup k data).isSome

/-- `data[k] = v`: replace in place, else append. -/
def setR : Record → String → Value → Record
  | [], k, v => [(k, v)]
  | (k', v') :: r, k, v =>
    if k' = k then (k, v) :: r else (k', v') :: setR r k v

/-- `del data[k]` / `data.pop(k)` (keys are unique in a `dict`). -/
def delR : Record → String → Record
  | [], _ => []
  | (k', v') :: r, k => if k' = k then r else (k', v') :: delR r k

/-- Python truthiness of a value. -/
def pyTruthy : Value → Bool
  | .null => false
  | .bool b => b
  | .int n => n != 0
  | .num q => q != 0
  | .str s => s != ""
  | .arr xs => !xs.isEmpty
  | .obj f => !f.isEmpty

/-- `str(v)` for the value shapes the validators meet (the container
renderings are placeholders: the source only ever calls `str` on scalars). -/
def pyStr : Value → String
  | .str s => s
  | .null => "None"
  | .bool true => "True"
  | .bool false => "False"
  | .int n => toString n
  | .num q => toString q
  | .arr _ => "[...]"
  | .obj _ => "\x7b...\x7d"

/-- `v == s` for a Python comparison of a record value with a string
literal (non-strings never equal a string). -/
def isStrV (v : Value) (s : String) : Bool :=
  match v with
  | .str t => t == s
  | _ => false

/-! ## `extraction/prompts.py` — `get_schema_for_doc_type` -/

/-- Per-document-type extraction schema: field names in declared order with
their shape descriptions (only the key order is consumed by the parser). -/
def get_schema_for_doc_type (doc_type : String) : List (String × String) :=
  if doc_type = "pass_book" then
    [("account_holder_name", "string or null"), ("account_number", "string or null"),
     ("parent_name", "string or null"), ("address", "string or null")]
  else if doc_type = "aadhaar" then
    [("document_type", "aadhaar"), ("aadhaar_number", "string or null"),
     ("name", "string or null"), ("father_name", "string or null"),
     ("mother_name", "string or null"), ("date_of_birth", "string or null"),
     ("gender", "string or null"), ("address", "string or null")]
  else if doc_type = "pan" then
    [("document_type", "pan"), ("pan_number", "string or null"),
     ("name", "string or null"), ("father_name", "string or null"),
     ("date_of_birth", "string or null")]
  else if doc_type = "income_certificate" then
    [("document_type", "income_certificate"), ("parent_name", "string or null"),
     ("student_name", "string or null"), ("income_years", "array of objects"),
     ("address", "string or null"), ("validity_date", "string or null")]
  else if doc_type = "marksheet" then
    [("document_type", "marksheet"), ("student_name", "string or null"),
     ("mother_name", "string or null"), ("fathers_name", "string or null"),
     ("exam_year", "string or null"), ("subjects", "array of subject objects"),
     ("total_marks_obtained", "number or null"), ("total_max_marks", "number or null"),
     ("percentage", "number or null"), ("result", "string or null")]
  else
    [("document_type", doc_type), ("extracted_data", "object")]

/-! ## `extraction/llama_json_extractor.py` — income-certificate cleanup -/

/-- Devanagari-to-ASCII digit translation
(`str.maketrans('०१२३४५६७८९', '0123456789')`). -/
def dev2eng (c : Char) : Char :=
  if c = '०' then '0' else if c = '१' then '1' else if c = '२' then '2'
  else if c = '३' then '3' else if c = '४' then '4' else if c = '५' then '5'
  else if c = '६' then '6' else if c = '७' then '7' else if c = '८' then '8'
  else if c = '९' then '9' else c

/-- `.replace(',', '').replace('.', '').replace(' ', '')`. -/
def stripSeps (cs : List Char) : List Char :=
  cs.filter (fun c => !(c == ',' || c == '.' || c == ' '))

/-- `re.sub(r'^(a\s*|b\s*)', '', cs)` for literal alternatives tried in
order: strip one leading alternative and the following whitespace. -/
def stripNamePre (alts : List String) (cs : List Char) : List Char :=
  match alts.find? (fun a => a.data.isPrefixOf cs) with
  | some a => (cs.drop a.data.length).dropWhile pyWs
  | none => cs

/-- `re.sub(r'\s*(w₁|…|wₖ)$', '', cs)`: truncate at the leftmost position
from which optional whitespace followed by one of the words ends the
string. -/
def stripNameSuf (words : List String) (cs : List Char) : List Char :=
  match (List.range (cs.length + 1)).find?
      (fun i => words.any (fun w => (cs.drop i).dropWhile pyWs == w.data)) with
  | some i => cs.take i
  | none => cs

/-- `re.sub(r'\s+(यांचा|यांची|यांना|राहणार).*$', '', ·)`.  Without
MULTILINE the `$` anchors at the end of the subject, so at most one
substitution can occur. -/
def subTrailRelPattern (n : Nat) : RE :=
  reCat [reWs1 n,
    .alt (reLit "यांचा") (.alt (reLit "यांची") (.alt (reLit "यांना") (reLit "राहणार"))),
    .rep 0 n false reDot, .eos]

def subTrailRel (cs : List Char) : List Char :=
  match reSearch (subTrailRelPattern cs.length) cs with
  | some (s, e, _) => cs.take s ++ cs.drop e
  | none => cs

/-- `re.search(r'[0-9०-९]{5,}', ·)`. -/
def hasLongDigitRun (cs : List Char) : Bool :=
  (splitRuns (fun c => c.isDigit || ('०' ≤ c && c ≤ '९')) cs).any
    (fun r => 5 ≤ r.length)

/-- The termination alternation `(?:\s+यांना|\s+शैक्षणिक|$)`. -/
def reTermA (n : Nat) : RE :=
  .alt (reCat [reWs1 n, reLit "यांना"])
    (.alt (reCat [reWs1 n, reLit "शैक्षणिक"]) .eos)

/-- The termination alternation `(?:\s+यांना|\s+(?:यांच|शैक्षणिक))`. -/
def reTermB (n : Nat) : RE :=
  .alt (reCat [reWs1 n, reLit "यांना"])
    (reCat [reWs1 n, .alt (reLit "यांच") (reLit "शैक्षणिक")])

/-- The ordered student-name recovery patterns (source order, including the
duplicated fifth entry). -/
def recoveryPatterns (n : Nat) : List RE :=
  [reCat [reLit "यांची", reWs1 n, reLit "मुलगी", reWs1 n, reLit "कुमारी", reWs1 n,
     .grp (.rep 3 80 false reDot), .eos],
   reCat [reLit "यांचा", reWs1 n, reLit "मुलगा", reWs1 n, reLit "कुमार", reWs1 n,
     .grp (.rep 3 80 false reDot), .eos],
   reCat [reLit "कुमारी", reWs1 n, .grp (.rep 3 80 true reDot), reTermA n],
   reCat [reLit "कुमार", reWs1 n, .grp (.rep 3 80 true reDot), reTermA n],
   reCat [reLit "यांचा", reWs1 n, reLit "मुलगा", reWs1 n, reLit "कुमार", reWs1 n,
     .grp (.rep 3 80 true reDot), reWs1 n, reLit "यांना"],
   reCat [reLit "यांचा", reWs1 n, reLit "मुलगा", reWs1 n, reLit "कुमार", reWs1 n,
     .grp (.rep 3 80 true reDot), reWs1 n, reLit "यांना"],
   reCat [reLit "यांची", reWs1 n, reLit "मुलगी", reWs1 n, reLit "कुमारी", reWs1 n,
     .grp (.rep 3 80 true reDot), reWs1 n, reLit "यांना"],
   reCat [reLit "यांचा", reWs1 n, reLit "मुलगा", reWs1 n, reLit "कुमार", reWs1 n,
     .grp (.rep 3 100 true reDot), reWs1 n, reLit "यांना"],
   reCat [reLit "यांची", reWs1 n, reLit "मुलगी", reWs1 n, reLit "कुमारी", reWs1 n,
     .grp (.rep 3 100 true reDot), reWs1 n, reLit "यांना"],
   reCat [.cls (fun c => c == 'ा' || c == 'ी'), reLit "चा", reWs1 n, reLit "मुलगा",
     reWs1 n, reLit "कुमार", reWs1 n, .grp (.rep 3 100 true reDot), reWs1 n,
     reLit "यांना"],
   reCat [.cls (fun c => c == 'ा' || c == 'ी'), reLit "ची", reWs1 n, reLit "मुलगी",
     reWs1 n, reLit "कुमारी", reWs1 n, .grp (.rep 3 100 true reDot), reWs1 n,
     reLit "यांना"],
   reCat [reLit "मुलगा", reWs1 n, reLit "कुमार", reWs1 n,
     .grp (.rep 3 100 true reDot), reWs1 n, reLit "यांना"],
   reCat [reLit "मुलगी", reWs1 n, reLit "कुमारी", reWs1 n,
     .grp (.rep 3 100 true reDot), reWs1 n, reLit "यांना"],
   reCat [reLit "यांची", reWs1 n, reLit "मुलगी", reWs1 n, reLit "कुमारी", reWs1 n,
     .grp (.rep 3 80 true reDot), reTermB n],
   reCat [reLit "यांचा", reWs1 n, reLit "मुलगा", reWs1 n, reLit "कुमार", reWs1 n,
     .grp (.rep 3 80 true reDot), reTermB n],
   reCat [reLit "यांचा", reWs1 n, reLit "मुलगा", reWs1 n,
     .grp (.rep 3 100 true reDot), reWs1 n, reLit "यांना"],
   reCat [reLit "यांची", reWs1 n, reLit "मुलगी", reWs1 n,
     .grp (.rep 3 100 true reDot), reWs1 n, reLit "यांना"],
   reCat [reLit "मुलगा", reWs1 n, .grp (.rep 3 100 true reDot), reWs1 n,
     reLit "यांना"],
   reCat [reLit "मुलगी", reWs1 n, .grp (.rep 3 100 true reDot), reWs1 n,
     reLit "यांना"]]

/-- The recovery loop body: first pattern whose match survives the cleanup
and validity checks supplies the student name. -/
def extract_student_name_recovery (raw : List Char) : Option String :=
  (recoveryPatterns raw.length).findSome? fun pat =>
    match reSearch pat raw with
    | some (_, _, (gs, ge) :: _) =>
      let nm := stripL (sliceL raw gs ge)
      let nm := stripNamePre ["कुमारी", "कुमार"] nm
      let nm := subTrailRel nm
      let nm := (String.intercalate " " (pySplit ⟨nm⟩)).data
      if 2 ≤ nm.length && !hasLongDigitRun nm then some ⟨nm⟩ else none
    | _ => none

/-- `re.search(r'२०२[३४५].*?२०२[४५६]?[^\n]{0,100}', raw_text)`. -/
def yearLinePattern (n : Nat) : RE :=
  reCat [reLit "२०२", .cls (fun c => c == '३' || c == '४' || c == '५'),
    .rep 0 n true reDot, reLit "२०२",
    reOpt (.cls (fun c => c == '४' || c == '५' || c == '६')),
    .rep 0 100 false reDot]

/-- Characters of the number-token class `[०-९0-9,.-]`. -/
def numTokChar (c : Char) : Bool :=
  ('०' ≤ c && c ≤ '९') || c.isDigit || c == ',' || c == '.' || c == '-'

/-- One iteration of the year-line fuzzy comparison. -/
def incomeFuzzyNum (inc num : List Char) : Bool :=
  let nn := stripSeps (num.map dev2eng)
  3 < nn.length &&
    (inc == nn || occursSub inc nn || occursSub nn inc || inc.take 5 == nn.take 5)

/-- `'o'`/`'O'` substitution followed by the digit translation, as applied
to the raw text before the income comparison. -/
def rawDigitNorm (cs : List Char) : List Char :=
  cs.map (fun c => if c == 'o' || c == 'O' then '0' else dev2eng c)

/-- The three income acceptance checks in source order: normalized
substring of the raw text, substring of the normalized year line, fuzzy
match against a year-line number.  Returns the (possibly nulled) record
and the `found_in_text` flag. -/
def incomeValueScan (data : Record) (raw_text : String) (inc : List Char) :
    Record × Bool :=
  if occursSub inc (stripSeps (rawDigitNorm raw_text.data)) then (data, true)
  else
    match reSearch (yearLinePattern raw_text.data.length) raw_text.data with
    | some (s, e, _) =>
      if occursSub inc (stripSeps ((sliceL raw_text.data s e).map dev2eng)) then
        (data, true)
      else if (splitRuns numTokChar (sliceL raw_text.data s e)).isEmpty then
        (data, false)
      else if (splitRuns numTokChar (sliceL raw_text.data s e)).any
          (incomeFuzzyNum inc) then
        (data, true)
      else (setR data "income_value" .null, false)
    | none => (data, false)

/-- The closing guard of the income-value block: a value that no check
confirmed is nulled. -/
def incomeValueFinish (res : Record × Bool) : Record :=
  if !res.2 && pyTruthy (getR res.1 "income_value") then
    setR res.1 "income_value" .null
  else res.1

/-- The income-value verification block of `_cleanup_income_certificate`:
keep the value only when one of the acceptance checks succeeds; otherwise
null it. -/
def incomeValueStep (data : Record) (raw_text : String) : Record :=
  if raw_text.data ≠ [] && pyTruthy (getR data "income_value") then
    incomeValueFinish (incomeValueScan data raw_text
      (stripSeps ((pyStr (getR data "income_value")).data.map dev2eng)))
  else data

/-- The `parent_name` affix-stripping block of
`_cleanup_income_certificate`. -/
def parentAffixStep (data : Record) : Record :=
  if pyTruthy (getR data "parent_name") then
    let name := (pyStr (getR data "parent_name")).data
    let name := stripNamePre ["श्री॰", "श्री"] name
    let name := stripNameSuf ["यांना", "यांची", "यांचा", "राहणार"] name
    setR data "parent_name"
      (if stripL name ≠ [] then .str ⟨stripL name⟩ else .null)
  else data

/-- The `student_name` affix-stripping block. -/
def studentAffixStep (data : Record) : Record :=
  if pyTruthy (getR data "student_name") then
    let name := (pyStr (getR data "student_name")).data
    let name := stripNamePre ["कुमारी", "कुमार"] name
    let name := stripNameSuf ["यांना", "याना"] name
    setR data "student_name"
      (if stripL name ≠ [] then .str ⟨stripL name⟩ else .null)
  else data

/-- The null-student-name recovery block. -/
def studentRecoveryStep (data : Record) (raw_text : String) : Record :=
  if raw_text.data ≠ [] && !pyTruthy (getR data "student_name") then
    if (["मुलगा कुमार", "मुलगी कुमारी", "मुलगा", "मुलगी",
         "यांचा मुलगा", "यांची मुलगी"] : List String).any
        (fun ind => pyIn ind raw_text) then
      match extract_student_name_recovery raw_text.data with
      | some nm => setR data "student_name" (.str nm)
      | none => data
    else data
  else data

/-- The strict `income_in_word` verification block (≥ 70% of its words
must occur in the raw text; a second year-line regex there only feeds a
diagnostic print and both failing arms null the field). -/
def incomeWordStrictStep (data : Record) (raw_text : String) : Record :=
  if raw_text.data ≠ [] && pyTruthy (getR data "income_in_word") then
    if 10 * ((pySplit (pyStr (getR data "income_in_word"))).filter
          (fun w => 2 < w.length && pyIn w raw_text)).length
        ≥ 7 * (pySplit (pyStr (getR data "income_in_word"))).length then data
    else setR data "income_in_word" .null
  else data

/-- The final `income_in_word` leading digit/punctuation strip. -/
def incomeWordStripStep (data : Record) : Record :=
  if pyTruthy (getR data "income_in_word") then
    let words := (pyStr (getR data "income_in_word")).data
    let words := words.dropWhile
      (fun c => ('०' ≤ c && c ≤ '९') || c.isDigit || c == ',' || c == '.' || pyWs c)
    setR data "income_in_word"
      (if stripL words ≠ [] then .str ⟨stripL words⟩ else .null)
  else data

/-- `_cleanup_income_certificate`: the blocks above in source order. -/
def cleanup_income_certificate (data : Record) (raw_text : String) : Record :=
  incomeWordStripStep
    (incomeWordStrictStep
      (incomeValueStep
        (studentRecoveryStep (studentAffixStep (parentAffixStep data)) raw_text)
        raw_text)
      raw_text)

/-! ## `extraction/llama_json_extractor.py` — passbook parent-name check
and the validation dispatcher -/

def LOCATION_KEYWORDS : List String :=
  ["NAGAR", "COLONY", "STREET", "ROAD", "MARG",
   "CHAWL", "TOWNSHIP", "AREA", "SOCIETY", "COMPLEX",
   "FLOOR", "BUILDING", "APARTMENT", "CHS", "COMPOUND"]

/-- The pass-book `parent_name` rejection block of
`_validate_and_fix_extraction` (a non-string `address` value would raise
in the source; it is rendered through `pyStr` here). -/
def passbookParentCheck (data : Record) : Record :=
  if hasKey data "parent_name" && pyTruthy (getR data "parent_name") then
    let v := pyStrip (pyStr (getR data "parent_name"))
    if v.data = [] then setR data "parent_name" .null
    else
      let vU := pyUpper v
      let has_location := LOCATION_KEYWORDS.any (fun kw => pyIn kw vU)
      let addressV := (List.lookup "address" data).getD (.str "")
      let in_address := pyTruthy addressV && 10 < v.data.length &&
        pyIn vU (pyUpper (pyStr addressV))
      let special := (v.data.filter (fun c => !(c.isAlpha || pyWs c))).length
      let is_too_short := v.data.length < 4
      let many_special := 10 * special > 3 * max v.data.length 1
      let has_garbage :=
        (splitRuns Char.isDigit v.data).any (fun r => 5 ≤ r.length) ||
        (splitRuns (fun c => !(c.isAlpha || pyWs c)) v.data).any (fun r => 3 ≤ r.length)
      if has_location || in_address || (is_too_short || many_special || has_garbage)
      then setR data "parent_name" .null
      else data
  else data

/-- `_validate_and_fix_extraction`: the validation dispatcher.  Runs the
income-certificate cleanup for `document_type = income_certificate`, the
parent-name check for pass books, and returns every other record — the
marksheet records included — unchanged. -/
def validate_and_fix_extraction (data : Record) (raw_text : String) : Record :=
  let data :=
    if isStrV (getR data "document_type") "income_certificate" then
      cleanup_income_certificate data raw_text
    else data
  if !(isStrV (getR data "document_type") "pass_book"
       || isStrV (getR data "document_type") "passbook") then data
  else passbookParentCheck data

/-! ## `extraction/llama_json_extractor.py` — `_parse_json_response` -/

/-- The terminal error envelope: error message, document type, and the raw
response truncated to its first 1000 characters. -/
def errorEnvelope (msg doc_type response : String) : Record :=
  [("error", .str msg), ("document_type", .str doc_type),
   ("raw_response", .str ⟨response.data.take 1000⟩)]

/-- Markdown code-fence stripping plus the surrounding `strip()` calls. -/
def cleanResponse (response : String) : List Char :=
  let cleaned := stripL response.data
  let cleaned :=
    if "```json".data.isPrefixOf cleaned then cleaned.drop 7
    else if "```".data.isPrefixOf cleaned then cleaned.drop 3
    else cleaned
  let cleaned :=
    if "```".data.isSuffixOf cleaned then cleaned.take (cleaned.length - 3)
    else cleaned
  stripL cleaned

/-- `str.find(c)`. -/
def findChar (cs : List Char) (c : Char) : Option Nat := cs.findIdx? (· == c)

/-- `str.rfind(c)`. -/
def rfindChar (cs : List Char) (c : Char) : Option Nat :=
  match cs.reverse.findIdx? (· == c) with
  | some j => some (cs.length - 1 - j)
  | none => none

/-- Array-to-object conversion: schema key `i` receives array element `i`,
keys beyond the array length receive null. -/
def arrayToRecord (keys : List String) (xs : List Value) : Record :=
  keys.enum.foldl (fun r ik => setR r ik.2 (xs.getD ik.1 .null)) []

/-- Backfill a missing `document_type` from the caller-supplied hint. -/
def ensureDocType (r : Record) (dt : String) : Record :=
  if hasKey r "document_type" then r else setR r "document_type" (.str dt)

/-- `_parse_json_response`, parameterized by the external JSON parser.
The two `.ok` shapes marked unreachable cannot arise from a JSON parser on
brace- resp. bracket-delimited text; they stand in for the exceptions the
source would recover into the same envelope shape. -/
def parse_json_response (jsonLoads : String → Except String Value)
    (response doc_type raw_text : String) : Record :=
  let cleaned := cleanResponse response
  match findChar cleaned '{', rfindChar cleaned '}' with
  | some s, some e =>
    match jsonLoads ⟨sliceL cleaned s (e + 1)⟩ with
    | .error _ => errorEnvelope "JSON parsing failed" doc_type response
    | .ok (.obj fields) =>
      validate_and_fix_extraction (ensureDocType fields doc_type) raw_text
    | .ok _ => errorEnvelope "unreachable: non-object from a JSON parser" doc_type response
  | _, _ =>
    match findChar cleaned '[', rfindChar cleaned ']' with
    | some s, some e =>
      match jsonLoads ⟨sliceL cleaned s (e + 1)⟩ with
      | .error _ => errorEnvelope "JSON parsing failed" doc_type response
      | .ok (.arr xs) =>
        let keys := (get_schema_for_doc_type doc_type).map Prod.fst
        validate_and_fix_extraction
          (ensureDocType (arrayToRecord keys xs) doc_type) raw_text
      | .ok _ => errorEnvelope "unreachable: non-array from a JSON parser" doc_type response
    | _, _ =>
      errorEnvelope "No JSON object or array found in response" doc_type response

/-! ## Record lemmas -/

theorem lookup_setR_self (r : Record) (k : String) (v : Value) :
    List.lookup k (setR r k v) = some v := by
  induction r with
  | nil => simp [setR, List.lookup]
  | cons kv r ih =>
    obtain ⟨k', v'⟩ := kv
    by_cases h : k' = k
    · subst h; simp [setR, List.lookup]
    · simp only [setR, if_neg h, List.lookup]
      rw [show (k == k') = false by simp [Ne.symm h]]
      exact ih

theorem lookup_setR_ne (r : Record) (key q : String) (v : Value) (h : q ≠ key) :
    List.lookup q (setR r key v) = List.lookup q r := by
  induction r with
  | nil =>
    simp only [setR, List.lookup]
    rw [show (q == key) = false by simp [h]]
  | cons kv r ih =>
    obtain ⟨k0, v0⟩ := kv
    by_cases h0 : k0 = key
    · subst h0
      simp only [setR, if_pos rfl, List.lookup]
      rw [show (q == k0) = false by simp [h]]
    · simp only [setR, if_neg h0, List.lookup]
      cases hb : (q == k0) <;> simp [ih]

theorem getR_setR_ne (r : Record) (k k' : String) (v : Value) (h : k' ≠ k) :
    getR (setR r k v) k' = getR r k' := by
  simp [getR, lookup_setR_ne r k k' v h]

theorem getR_setR_self (r : Record) (k : String) (v : Value) :
    getR (setR r k v) k = v := by
  simp [getR, lookup_setR_self]

/-- Each cleanup block only writes the keys it owns. -/
theorem parentAffixStep_preserves (data : Record) (k : String)
    (h : k ≠ "parent_name") :
    List.lookup k (parentAffixStep data) = List.lookup k data := by
  unfold parentAffixStep
  split
  · exact lookup_setR_ne _ _ _ _ h
  · rfl

theorem studentAffixStep_preserves (data : Record) (k : String)
    (h : k ≠ "student_name") :
    List.lookup k (studentAffixStep data) = List.lookup k data := by
  unfold studentAffixStep
  split
  · exact lookup_setR_ne _ _ _ _ h
  · rfl

theorem studentRecoveryStep_preserves (data : Record) (raw : String) (k : String)
    (h : k ≠ "student_name") :
    List.lookup k (studentRecoveryStep data raw) = List.lookup k data := by
  unfold studentRecoveryStep
  split
  · split
    · split
      · exact lookup_setR_ne _ _ _ _ h
      · rfl
    · rfl
  · rfl

theorem incomeValueScan_fst (data : Record) (raw : String) (inc : List Char) :
    (incomeValueScan data raw inc).1 = data ∨
    (incomeValueScan data raw inc).1 = setR data "income_value" Value.null := by
  unfold incomeValueScan
  split
  · exact Or.inl rfl
  · split
    · split
      · exact Or.inl rfl
      · split
        · exact Or.inl rfl
        · split
          · exact Or.inl rfl
          · exact Or.inr rfl
    · exact Or.inl rfl

theorem incomeValueStep_preserves (data : Record) (raw : String) (k : String)
    (h : k ≠ "income_value") :
    List.lookup k (incomeValueStep data raw) = List.lookup k data := by
  unfold incomeValueStep
  split
  · unfold incomeValueFinish
    rcases incomeValueScan_fst data raw
        (stripSeps ((pyStr (getR data "income_value")).data.map dev2eng)) with hs | hs <;>
      rw [hs] <;> split <;>
        simp [lookup_setR_ne _ _ _ _ h]
  · rfl

theorem incomeWordStrictStep_preserves (data : Record) (raw : String) (k : String)
    (h : k ≠ "income_in_word") :
    List.lookup k (incomeWordStrictStep data raw) = List.lookup k data := by
  unfold incomeWordStrictStep
  split
  · split
    · rfl
    · exact lookup_setR_ne _ _ _ _ h
  · rfl

theorem incomeWordStripStep_preserves (data : Record) (k : String)
    (h : k ≠ "income_in_word") :
    List.lookup k (incomeWordStripStep data) = List.lookup k data := by
  unfold incomeWordStripStep
  split
  · exact lookup_setR_ne _ _ _ _ h
  · rfl

/-- The income-certificate cleanup never touches keys outside its four
field names. -/
theorem cleanup_preserves_key (data : Record) (raw : String) (k : String)
    (h1 : k ≠ "parent_name") (h2 : k ≠ "student_name")
    (h3 : k ≠ "income_value") (h4 : k ≠ "income_in_word") :
    List.lookup k (cleanup_income_certificate data raw) = List.lookup k data := by
  unfold cleanup_income_certificate
  rw [incomeWordStripStep_preserves _ _ h4, incomeWordStrictStep_preserves _ _ _ h4,
    incomeValueStep_preserves _ _ _ h3, studentRecoveryStep_preserves _ _ _ h2,
    studentAffixStep_preserves _ _ h2, parentAffixStep_preserves _ _ h1]

theorem lookup_of_getR_str (data : Record) (k s : String)
    (h : getR data k = .str s) : List.lookup k data = some (.str s) := by
  unfold getR at h
  cases hl : List.lookup k data with
  | none => rw [hl] at h; exact absurd h (by simp [Option.getD])
  | some v => rw [hl] at h; simp only [Option.getD] at h; rw [h]

theorem data_ne_of_string_ne (s : String) (h : s ≠ "") : s.data ≠ [] := by
  intro hd
  exact h (by cases s with | mk d => cases hd; rfl)

/-! ### Claim C1 -/

/-- C1: `_validate_and_fix_extraction` returns a marksheet record — here
one carrying an impossible `total_max_marks` and CBSE raw text —
completely unchanged: no board detector runs and neither marksheet
validator is invoked, although the CBSE validator's own module docstring
says it is called from exactly this dispatcher. -/
theorem C1_marksheet_record_not_dispatched :
    validate_and_fix_extraction
      [("document_type", .str "marksheet"), ("student_name", .str "RAHUL KUMAR SINGH EXTRA"),
       ("total_max_marks", .int 9999)]
      "CENTRAL BOARD OF SECONDARY EDUCATION Result PASS" =
    [("document_type", .str "marksheet"), ("student_name", .str "RAHUL KUMAR SINGH EXTRA"),
     ("total_max_marks", .int 9999)] := rfl

/-! ### Claim C4 -/

/-- C4: whenever the extracted JSON substring fails to parse — in the
object branch or, with no object present, in the array branch — the
response parser returns the `{error, document_type, raw_response[:1000]}`
envelope instead of propagating the failure. -/
theorem C4_parse_failure_returns_error_envelope
    (jsonLoads : String → Except String Value)
    (response doc_type raw_text err : String)
    (h :
      (∃ s e, findChar (cleanResponse response) '{' = some s ∧
        rfindChar (cleanResponse response) '}' = some e ∧
        jsonLoads ⟨sliceL (cleanResponse response) s (e + 1)⟩ = .error err) ∨
      ((findChar (cleanResponse response) '{' = none ∨
        rfindChar (cleanResponse response) '}' = none) ∧
       ∃ s e, findChar (cleanResponse response) '[' = some s ∧
        rfindChar (cleanResponse response) ']' = some e ∧
        jsonLoads ⟨sliceL (cleanResponse response) s (e + 1)⟩ = .error err)) :
    parse_json_response jsonLoads response doc_type raw_text =
      [("error", .str "JSON parsing failed"), ("document_type", .str doc_type),
       ("raw_response", .str ⟨response.data.take 1000⟩)] := by
  unfold parse_json_response
  rcases h with ⟨s, e, h1, h2, h3⟩ | ⟨hno, s, e, h1, h2, h3⟩
  · simp only [h1, h2, h3]
    rfl
  · rcases hno with hno | hno
    · simp only [hno, h1, h2, h3]
      rfl
    · cases hf : findChar (cleanResponse response) '{' with
      | none => simp only [hf, h1, h2, h3]; rfl
      | some s0 => simp only [hf, hno, h1, h2, h3]; rfl

/-- Witness for C4: a brace-delimited completion whose substring the JSON
parser rejects. -/
theorem C4_parse_failure_witness :
    parse_json_response (fun _ => .error "boom") "\x7bbad json\x7d" "pan" "" =
      [("error", .str "JSON parsing failed"), ("document_type", .str "pan"),
       ("raw_response", .str "\x7bbad json\x7d")] :=
  C4_parse_failure_returns_error_envelope (fun _ => .error "boom")
    "\x7bbad json\x7d" "pan" "" "boom" (Or.inl ⟨0, 9, rfl, rfl, rfl⟩)

/-! ### Schema/array lemmas for C8 -/

theorem lookup_append_none {k : String} {l1 l2 : Record}
    (h : List.lookup k l1 = none) :
    List.lookup k (l1 ++ l2) = List.lookup k l2 := by
  induction l1 with
  | nil => simp
  | cons kv r ih =>
    obtain ⟨k0, v0⟩ := kv
    by_cases hb : k = k0
    · subst hb; simp [List.lookup] at h
    · have hb' : (k == k0) = false := by simp [hb]
      simp only [List.lookup, List.cons_append, hb'] at h ⊢
      exact ih h

theorem setR_eq_append (r : Record) (k : String) (v : Value)
    (h : List.lookup k r = none) : setR r k v = r ++ [(k, v)] := by
  induction r with
  | nil => simp [setR]
  | cons kv r ih =>
    obtain ⟨k0, v0⟩ := kv
    by_cases hb : k = k0
    · subst hb; simp [List.lookup] at h
    · have hb' : (k == k0) = false := by simp [hb]
      simp only [List.lookup, hb'] at h
      simp [setR, Ne.symm hb, ih h]

theorem arrayToRecord_go (xs : List Value) :
    ∀ (keys : List String) (j : Nat) (acc : Record),
      keys.Nodup → (∀ q, q ∈ keys → List.lookup q acc = none) →
      (List.enumFrom j keys).foldl
          (fun r ik => setR r ik.2 (xs.getD ik.1 .null)) acc
        = acc ++ (List.enumFrom j keys).map (fun ik => (ik.2, xs.getD ik.1 .null))
  | [], j, acc, _, _ => by simp [List.enumFrom]
  | key :: keys, j, acc, hnd, hacc => by
    simp only [List.enumFrom, List.foldl_cons, List.map_cons]
    rw [setR_eq_append acc key _ (hacc key (by simp))]
    rw [arrayToRecord_go xs keys (j + 1) _ (List.Nodup.of_cons hnd)
      (fun q hq => by
        rw [lookup_append_none (hacc q (by simp [hq]))]
        have hqk : (q == key) = false := by
          simp only [List.nodup_cons] at hnd
          simp only [beq_eq_false_iff_ne, ne_eq]
          intro he; subst he; exact hnd.1 hq
        simp [List.lookup, hqk])]
    simp

theorem arrayToRecord_eq (keys : List String) (xs : List Value)
    (h : keys.Nodup) :
    arrayToRecord keys xs
      = (List.enumFrom 0 keys).map (fun ik => (ik.2, xs.getD ik.1 .null)) := by
  unfold arrayToRecord
  have := arrayToRecord_go xs keys 0 [] h (fun q _ => by simp [List.lookup])
  simp only [List.enum] at this ⊢
  simpa using this

theorem lookup_enumFrom_map (xs : List Value) (keys : List String) :
    ∀ (j : Nat), keys.Nodup →
      ∀ i : Fin keys.length,
        List.lookup (keys.get i)
            ((List.enumFrom j keys).map (fun ik => (ik.2, xs.getD ik.1 .null)))
          = some (xs.getD (j + i.val) .null) := by
  induction keys with
  | nil => intro j _ i; exact absurd i.isLt (by simp)
  | cons key keys ih =>
    intro j hnd i
    rcases i with ⟨iv, hi⟩
    cases iv with
    | zero => simp [List.enumFrom, List.lookup, List.get]
    | succ i' =>
      have hi' : i' < keys.length := by
        simp only [List.length_cons] at hi; omega
      have hmem : keys.get ⟨i', hi'⟩ ∈ keys := List.get_mem keys i' hi'
      have hne : (keys.get ⟨i', hi'⟩ == key) = false := by
        simp only [beq_eq_false_iff_ne, ne_eq]
        intro he
        simp only [List.nodup_cons] at hnd
        exact hnd.1 (he ▸ hmem)
      simp only [List.enumFrom, List.map_cons, List.lookup, List.get]
      rw [hne]
      have hih := ih (j + 1) (List.Nodup.of_cons hnd) ⟨i', hi'⟩
      simp only [List.get] at hih
      have harith : j + 1 + i' = j + (i' + 1) := by omega
      rw [harith] at hih
      exact hih

theorem lookup_enumFrom_map_not_mem (xs : List Value) (q : String)
    (keys : List String) :
    ∀ (j : Nat), q ∉ keys →
      List.lookup q
          ((List.enumFrom j keys).map (fun ik => (ik.2, xs.getD ik.1 .null)))
        = none := by
  induction keys with
  | nil => intro j _; simp [List.enumFrom]
  | cons key keys ih =>
    intro j h
    simp only [List.enumFrom, List.map_cons, List.lookup]
    have hne : (q == key) = false := by
      simp only [beq_eq_false_iff_ne, ne_eq]
      intro he; exact h (by simp [he])
    rw [hne]
    exact ih (j + 1) (fun hq => h (by simp [hq]))

theorem schema_keys_nodup (doc_type : String) :
    ((get_schema_for_doc_type doc_type).map Prod.fst).Nodup := by
  unfold get_schema_for_doc_type
  split_ifs <;> · simp only [List.map_cons, List.map_nil]; decide

/-! ### Claim C8 -/

/-- C8: a completion with no JSON object but a parsable JSON array is
mapped positionally onto the document type's schema keys in declared
order, with null for schema fields beyond the array length and the
caller's hint backfilled for a `document_type` key the schema lacks; the
result is handed to the validation dispatcher. -/
theorem C8_array_response_mapped_by_schema
    (jsonLoads : String → Except String Value)
    (response doc_type raw_text : String) (xs : List Value) (s e : Nat)
    (hobj : findChar (cleanResponse response) '{' = none ∨
            rfindChar (cleanResponse response) '}' = none)
    (h1 : findChar (cleanResponse response) '[' = some s)
    (h2 : rfindChar (cleanResponse response) ']' = some e)
    (h3 : jsonLoads ⟨sliceL (cleanResponse response) s (e + 1)⟩ = .ok (.arr xs)) :
    parse_json_response jsonLoads response doc_type raw_text =
      validate_and_fix_extraction
        (ensureDocType
          (arrayToRecord ((get_schema_for_doc_type doc_type).map Prod.fst) xs)
          doc_type) raw_text ∧
    (∀ i : Fin ((get_schema_for_doc_type doc_type).map Prod.fst).length,
      List.lookup (((get_schema_for_doc_type doc_type).map Prod.fst).get i)
          (ensureDocType
            (arrayToRecord ((get_schema_for_doc_type doc_type).map Prod.fst) xs)
            doc_type)
        = some (xs.getD i.val .null)) ∧
    ("document_type" ∉ (get_schema_for_doc_type doc_type).map Prod.fst →
      List.lookup "document_type"
          (ensureDocType
            (arrayToRecord ((get_schema_for_doc_type doc_type).map Prod.fst) xs)
            doc_type)
        = some (.str doc_type)) := by
  have hnd := schema_keys_nodup doc_type
  refine ⟨?_, ?_, ?_⟩
  · unfold parse_json_response
    rcases hobj with hno | hno
    · simp only [hno, h1, h2, h3]
    · cases hf : findChar (cleanResponse response) '{' with
      | none => simp only [hf, h1, h2, h3]
      | some s0 => simp only [hf, hno, h1, h2, h3]
  · intro i
    have hlk := lookup_enumFrom_map xs _ 0 hnd i
    rw [← arrayToRecord_eq _ _ hnd] at hlk
    simp only [Nat.zero_add] at hlk
    by_cases hmem : "document_type" ∈ (get_schema_for_doc_type doc_type).map Prod.fst
    · have : hasKey (arrayToRecord ((get_schema_for_doc_type doc_type).map Prod.fst) xs)
          "document_type" = true := by
        obtain ⟨im, him⟩ := List.get_of_mem hmem
        have := lookup_enumFrom_map xs _ 0 hnd im
        rw [← arrayToRecord_eq _ _ hnd, him] at this
        simp [hasKey, this]
      simpa [ensureDocType, this] using hlk
    · have hnone : List.lookup "document_type"
          (arrayToRecord ((get_schema_for_doc_type doc_type).map Prod.fst) xs) = none := by
        rw [arrayToRecord_eq _ _ hnd]
        exact lookup_enumFrom_map_not_mem xs _ _ 0 hmem
      have hget : ((get_schema_for_doc_type doc_type).map Prod.fst).get i ≠
          "document_type" := by
        intro he; exact hmem (he ▸ List.get_mem _ i.1 i.2)
      rw [ensureDocType, if_neg (by simp [hasKey, hnone]),
        lookup_setR_ne _ _ _ _ hget]
      exact hlk
  · intro hmem
    have hnone : List.lookup "document_type"
        (arrayToRecord ((get_schema_for_doc_type doc_type).map Prod.fst) xs) = none := by
      rw [arrayToRecord_eq _ _ hnd]
      exact lookup_enumFrom_map_not_mem xs _ _ 0 hmem
    rw [ensureDocType, if_neg (by simp [hasKey, hnone]), lookup_setR_self]

/-- Witness for C8: an array-only completion for the pass-book schema
(whose key list lacks `document_type`, so the hint is backfilled). -/
theorem C8_array_response_witness :
    parse_json_response
        (fun str => if str = "[1]" then .ok (.arr [.int 1]) else .error "x")
        "[1]" "pass_book" "" =
      validate_and_fix_extraction
        (ensureDocType
          (arrayToRecord ((get_schema_for_doc_type "pass_book").map Prod.fst)
            [.int 1]) "pass_book") "" ∧
    (∀ i : Fin ((get_schema_for_doc_type "pass_book").map Prod.fst).length,
      List.lookup (((get_schema_for_doc_type "pass_book").map Prod.fst).get i)
          (ensureDocType
            (arrayToRecord ((get_schema_for_doc_type "pass_book").map Prod.fst)
              [.int 1]) "pass_book")
        = some (([Value.int 1]).getD i.val .null)) ∧
    ("document_type" ∉ (get_schema_for_doc_type "pass_book").map Prod.fst →
      List.lookup "document_type"
          (ensureDocType
            (arrayToRecord ((get_schema_for_doc_type "pass_book").map Prod.fst)
              [.int 1]) "pass_book")
        = some (.str "pass_book")) :=
  C8_array_response_mapped_by_schema
    (fun str => if str = "[1]" then .ok (.arr [.int 1]) else .error "x")
    "[1]" "pass_book" "" [.int 1] 0 2 (Or.inl rfl) rfl rfl rfl

/-! ### Claim C5 -/

/-- The full income acceptance condition actually implemented: normalized
substring of the raw text, or — via the year-line window — a direct
normalized substring of that window or a fuzzy match against one of its
number tokens. -/
def incomeAccepted (v raw_text : String) : Bool :=
  occursSub (stripSeps (v.data.map dev2eng)) (stripSeps (rawDigitNorm raw_text.data)) ||
  (match reSearch (yearLinePattern raw_text.data.length) raw_text.data with
   | some (s, e, _) =>
     occursSub (stripSeps (v.data.map dev2eng))
       (stripSeps ((sliceL raw_text.data s e).map dev2eng)) ||
     (splitRuns numTokChar (sliceL raw_text.data s e)).any
       (incomeFuzzyNum (stripSeps (v.data.map dev2eng)))
   | none => false)

theorem incomeValueScan_flag (data : Record) (raw v : String) :
    (incomeValueScan data raw (stripSeps (v.data.map dev2eng))).2
      = incomeAccepted v raw := by
  unfold incomeValueScan incomeAccepted
  split
  · rename_i hc1; simp [hc1]
  · rename_i hc1
    have hc1' : occursSub (stripSeps (List.map dev2eng v.data))
        (stripSeps (rawDigitNorm raw.data)) = false := by
      simpa using hc1
    cases hs : reSearch (yearLinePattern raw.data.length) raw.data with
    | none => simp [hs, hc1']
    | some r =>
      obtain ⟨s, e, g⟩ := r
      simp only [hs, hc1', Bool.false_or]
      split
      · rename_i hc2; simp [hc2]
      · rename_i hc2
        have hc2' : occursSub (stripSeps (List.map dev2eng v.data))
            (stripSeps (List.map dev2eng (sliceL raw.data s e))) = false := by
          simpa using hc2
        split
        · rename_i hemp
          have hany : (splitRuns numTokChar (sliceL raw.data s e)).any
              (incomeFuzzyNum (stripSeps (List.map dev2eng v.data))) = false := by
            rw [List.isEmpty_iff] at hemp
            simp [hemp]
          simp [hc2', hany]
        · split
          · rename_i hfz; simp [hc2', hfz]
          · rename_i hfz
            simp only [hc2', Bool.false_or]
            exact (Bool.eq_false_iff.mpr hfz).symm

theorem incomeValueScan_snd_or_fst (data : Record) (raw : String)
    (inc : List Char) :
    (incomeValueScan data raw inc).2 = false ∨
    (incomeValueScan data raw inc).1 = data := by
  unfold incomeValueScan
  split
  · exact Or.inr rfl
  · split
    · split
      · exact Or.inr rfl
      · split
        · exact Or.inl rfl
        · split
          · exact Or.inr rfl
          · exact Or.inl rfl
    · exact Or.inl rfl

/-- C5 (amended): the income value survives the income-certificate
validator exactly when the implemented acceptance condition — normalized
substring of the raw text, or the year-line window/fuzzy fallback —
holds; otherwise it is nulled. -/
theorem C5_income_value_kept_iff_accepted
    (data : Record) (raw_text v : String)
    (hdt : getR data "document_type" = .str "income_certificate")
    (hv : getR data "income_value" = .str v)
    (hvne : v ≠ "") (hraw : raw_text ≠ "") :
    getR (validate_and_fix_extraction data raw_text) "income_value"
      = (if incomeAccepted v raw_text then .str v else .null) := by
  unfold validate_and_fix_extraction
  rw [if_pos (show isStrV (getR data "document_type") "income_certificate" = true
    by rw [hdt]; decide)]
  have hdt' : List.lookup "document_type"
      (cleanup_income_certificate data raw_text) = some (.str "income_certificate") := by
    rw [cleanup_preserves_key data raw_text _ (by decide) (by decide) (by decide) (by decide)]
    exact lookup_of_getR_str _ _ _ hdt
  have hdt'' : getR (cleanup_income_certificate data raw_text) "document_type"
      = .str "income_certificate" := by simp [getR, hdt']
  rw [if_pos (by rw [hdt'']; decide)]
  -- unpack the cleanup chain around the income-value step
  unfold cleanup_income_certificate
  simp only [getR]
  rw [incomeWordStripStep_preserves _ _ (by decide),
    incomeWordStrictStep_preserves _ _ _ (by decide)]
  have hvX : List.lookup "income_value"
      (studentRecoveryStep (studentAffixStep (parentAffixStep data)) raw_text)
      = some (.str v) := by
    rw [studentRecoveryStep_preserves _ _ _ (by decide),
      studentAffixStep_preserves _ _ (by decide),
      parentAffixStep_preserves _ _ (by decide)]
    exact lookup_of_getR_str _ _ _ hv
  have hvX' : getR
      (studentRecoveryStep (studentAffixStep (parentAffixStep data)) raw_text)
      "income_value" = .str v := by
    simp [getR, hvX]
  unfold incomeValueStep
  rw [if_pos (by
    simp only [Bool.and_eq_true, decide_eq_true_eq]
    exact ⟨data_ne_of_string_ne _ hraw, by simp [hvX', pyTruthy, hvne]⟩)]
  rw [show (pyStr (getR (studentRecoveryStep (studentAffixStep (parentAffixStep data))
      raw_text) "income_value")) = v by rw [hvX']; rfl]
  unfold incomeValueFinish
  have hflageq := incomeValueScan_flag
    (studentRecoveryStep (studentAffixStep (parentAffixStep data)) raw_text) raw_text v
  cases hflag : (incomeValueScan
      (studentRecoveryStep (studentAffixStep (parentAffixStep data)) raw_text)
      raw_text (stripSeps (v.data.map dev2eng))).2 with
  | true =>
    have hacc : incomeAccepted v raw_text = true := hflageq.symm.trans hflag
    rw [if_neg (by simp), if_pos hacc]
    rcases incomeValueScan_snd_or_fst
        (studentRecoveryStep (studentAffixStep (parentAffixStep data)) raw_text)
        raw_text (stripSeps (v.data.map dev2eng)) with hq | hq
    · rw [hflag] at hq; cases hq
    · rw [hq, hvX]
      rfl
  | false =>
    have hacc : incomeAccepted v raw_text = false := hflageq.symm.trans hflag
    rcases incomeValueScan_fst
        (studentRecoveryStep (studentAffixStep (parentAffixStep data)) raw_text)
        raw_text (stripSeps (v.data.map dev2eng)) with hfst | hfst
    · rw [hfst]
      rw [if_pos (by simp [hvX', pyTruthy, hvne]),
        if_neg (by simp [hacc])]
      simp [lookup_setR_self]
    · rw [hfst]
      rw [if_neg (by simp [getR, lookup_setR_self, pyTruthy]),
        if_neg (by simp [hacc])]
      simp [lookup_setR_self]

/-- Counterexample to C5 as stated: `income_value = "150000"` is kept
although its normalized form occurs nowhere in the normalized raw text —
the year-line fuzzy fallback accepts the shorter number `15000`. -/
theorem C5_counterexample_fuzzy_keeps_absent_value :
    getR (validate_and_fix_extraction
        [("document_type", .str "income_certificate"),
         ("student_name", .str "अ"), ("income_value", .str "150000")]
        "२०२३ ते २०२४ उत्पन्न 15000") "income_value" = .str "150000" ∧
    occursSub (stripSeps ("150000".data.map dev2eng))
      (stripSeps (rawDigitNorm ("२०२३ ते २०२४ उत्पन्न 15000").data)) = false := by
  exact ⟨rfl, rfl⟩

/-- Witness for C5 (amended) at the same concrete record. -/
theorem C5_income_value_witness :
    getR (validate_and_fix_extraction
        [("document_type", .str "income_certificate"),
         ("student_name", .str "अ"), ("income_value", .str "150000")]
        "२०२३ ते २०२४ उत्पन्न 15000") "income_value"
      = (if incomeAccepted "150000" "२०२३ ते २०२४ उत्पन्न 15000"
         then .str "150000" else .null) :=
  C5_income_value_kept_iff_accepted
    [("document_type", .str "income_certificate"),
     ("student_name", .str "अ"), ("income_value", .str "150000")]
    "२०२३ ते २०२४ उत्पन्न 15000" "150000" rfl rfl (by decide) (by decide)

/-! ## `extraction/validators/ssc_validator.py` -/

/-- A subject row of the SSC marksheet record (the schema's shape; the
source's `int(float(str(x)))` coercion is the identity here). -/
structure SscSubject where
  subject_name : String
  marks_obtained : Option Int
  max_marks : Option Int
  grade : Option String
deriving DecidableEq

/-- The marksheet record as the SSC validator reads and writes it
(`Option (Option _)` where the source distinguishes a missing key from an
explicit null; underscore-prefixed bookkeeping keys lose the prefix). -/
structure SscRecord where
  mother_name : Option String
  student_name : Option String
  father_name : Option (Option String)
  fathers_name : Option (Option String)
  subjects : List SscSubject
  total_max_marks : Option Int
  total_marks_obtained : Option Int
  percentage : Option ℚ
  extraction_method : Option String
  extraction_warnings : Option (List String)
  needs_manual_review : Option Bool
deriving DecidableEq

/-- `_SSC_RULES_V1["code_map"]`, in declaration (dict) order. -/
def SSC_CODE_MAP_V1 : List (String × String) :=
  [("01", "Marathi (1st Lang)"), ("02", "Hindi (1st Lang)"),
   ("03", "English (1st Lang)"), ("71", "Mathematics"),
   ("72", "Science & Technology"), ("73", "Social Sciences"),
   ("15", "Hindi (2/3 Lang)"), ("16", "Marathi (2/3 Lang)"),
   ("17", "English (2/3 Lang)"), ("27", "Sanskrit (2/3 Lang)"),
   ("72:", "Science & Technology"), ("725", "Science & Technology"),
   ("73:", "Social Sciences"), ("151", "Hindi (2/3 Lang)"),
   ("P1", "Health & Physical Education"), ("P2", "Scouting/Guiding"),
   ("P4", "Defence Studies"), ("P41", "Defence Studies"),
   ("PA", "Defence Studies"), ("R8", "Water Security"),
   ("RB", "Water Security")]

/-- The two rule sets (`_SSC_RULES_V1` / `_SSC_RULES_V2`; v2's code map is
a literal copy of v1's). -/
inductive SscRulesV where
  | v1 : SscRulesV
  | v2 : SscRulesV
deriving DecidableEq

def ssc_code_map : SscRulesV → List (String × String)
  | .v1 => SSC_CODE_MAP_V1
  | .v2 => SSC_CODE_MAP_V1

def SSC_GRADE_ONLY_NAMES : List String :=
  ["health & physical education", "scouting/guiding", "water security",
   "defence studies"]

def SSC_VALID_GRADE_LETTERS : List String := ["A", "B", "C", "D", "E"]

def SSC_TOTALS_MARKERS : List String :=
  ["WATER SECURITY", "SCOUTING", "HEALTH & PHYSICAL", "SOCIAL SCIENCES",
   "DEFENCE STUDIES"]

def SSC_GRADE_ONLY_INJECTION : List (String × String) :=
  [("P1", "Health & Physical Education"),
   ("HEALTH & PHYSICAL", "Health & Physical Education"),
   ("P2", "Scouting/Guiding"), ("SCOUTING", "Scouting/Guiding"),
   ("R8", "Water Security"), ("WATER SECURITY", "Water Security"),
   ("RB", "Water Security"), ("P4", "Defence Studies"),
   ("PA", "Defence Studies"), ("P41", "Defence Studies"),
   ("DEFENCE STUDIES", "Defence Studies")]

/-- `detect_ssc_format_version`: v2 on any v2 indicator; otherwise v1
(the v1-indicator count only selects between two identical returns). -/
def detect_ssc_format_version (raw_text : String) : SscRulesV :=
  if (["ACADEMIC YEAR 2025", "REVISED MARKSHEET", "FORMAT VERSION 2",
       "NEW PATTERN"] : List String).any (fun ind => pyIn ind (pyUpper raw_text))
  then .v2 else .v1

/-- Ordered alternation of a pattern list. -/
def reAltList (rs : List RE) : RE := rs.foldr .alt (.cls (fun _ => false))

/-- Digit count parse (`int` on a digit-only capture). -/
def parseNatL (cs : List Char) : Nat :=
  cs.foldl (fun a c => 10 * a + (c.toNat - '0'.toNat)) 0

/-- `float` on a `\d+\.\d+`-shaped capture, as an exact rational. -/
def parseDecQ (cs : List Char) : ℚ :=
  let ip := cs.takeWhile (fun c => c != '.')
  let fp := (cs.dropWhile (fun c => c != '.')).drop 1
  (parseNatL ip : ℚ) + (parseNatL fp : ℚ) / ((10 : ℚ) ^ fp.length)

/-- The per-version subject-code pattern: v1 `\b({codes})\s+`,
v2 `(?:Code|CODE):\s*({codes})`. -/
def sscCodePattern (v : SscRulesV) (n : Nat) : RE :=
  match v with
  | .v1 => .seq .bnd (.seq (.grp (reAltList ((ssc_code_map .v1).map (fun p => reLit p.1))))
      (reWs1 n))
  | .v2 => reCat [.alt (reLit "Code") (reLit "CODE"), reLit ":", reWs0 n,
      .grp (reAltList ((ssc_code_map .v2).map (fun p => reLit p.1)))]

/-- The per-version marks pattern: v1 `100\s+0?(\d{2,3})\s+([A-Z]+)`,
v2 `Marks:\s*(\d{2,3})/100`. -/
def sscMarksPattern (v : SscRulesV) (n : Nat) : RE :=
  match v with
  | .v1 => reCat [reLit "100", reWs1 n, reOpt (.cls (fun c => c == '0')),
      .grp (.rep 2 3 false (.cls Char.isDigit)), reWs1 n,
      .grp (.rep 1 n false (.cls (fun c => 'A' ≤ c && c ≤ 'Z')))]
  | .v2 => reCat [reLit "Marks:", reWs0 n,
      .grp (.rep 2 3 false (.cls Char.isDigit)), reLit "/100"]

/-- The per-version grade pattern: v1 `([A-E])(?:\s|$|[^A-Z])`,
v2 `Grade:\s*([A-E])`. -/
def sscGradePattern (v : SscRulesV) (n : Nat) : RE :=
  match v with
  | .v1 => .seq (.grp (.cls (fun c => 'A' ≤ c && c ≤ 'E')))
      (.alt (.cls pyWs) (.alt .eos (.cls (fun c => !('A' ≤ c && c ≤ 'Z')))))
  | .v2 => reCat [reLit "Grade:", reWs0 n, .grp (.cls (fun c => 'A' ≤ c && c ≤ 'E'))]

/-- All subject-code matches: (captured code, match start, match end). -/
def sscCodeFinds (v : SscRulesV) (cs : List Char) : List (String × Nat × Nat) :=
  (reFindIter (sscCodePattern v cs.length) cs).filterMap fun m =>
    match m.2.2 with
    | (gs, ge) :: _ => some (⟨sliceL cs gs ge⟩, m.1, m.2.1)
    | [] => none

def lookupStr (m : List (String × String)) (k : String) : Option String :=
  (m.find? (fun p => p.1 == k)).map (fun p => p.2)

/-- Parse one code segment into a subject row (`None` mirrors `continue`). -/
def sscSegmentSubject (v : SscRulesV) (code : String) (segment : List Char) :
    Option SscSubject :=
  let code_clean : String :=
    ⟨(code.data.filter (fun c => c != ':')).filter (fun c => c != '5')⟩
  let subject_name :=
    ((lookupStr (ssc_code_map v) code).orElse
      (fun _ => lookupStr (ssc_code_map v) code_clean)).getD "Unknown"
  if subject_name = "Unknown" then none
  else if occursSub "100".data segment then
    match reSearch (sscMarksPattern v segment.length) segment with
    | some (_, _, (gs, ge) :: _) =>
      some ⟨subject_name, some (parseNatL (sliceL segment gs ge) : Int),
        some 100, none⟩
    | _ => none
  else
    match reSearch (sscGradePattern v segment.length) segment with
    | some (_, _, (gs, ge) :: _) =>
      some ⟨subject_name, none, none, some ⟨sliceL segment gs ge⟩⟩
    | _ => none

/-- `_extract_by_code_position`. -/
def extract_by_code_position (raw_text : String) (v : SscRulesV) :
    List SscSubject :=
  let cs := raw_text.data
  let positions := sscCodeFinds v cs
  let subjects := positions.enum.filterMap fun ip =>
    let stop := match positions.get? (ip.1 + 1) with
      | some p2 => p2.2.1
      | none => cs.length
    sscSegmentSubject v ip.2.1 (stripL (sliceL cs ip.2.2.2 stop))
  if 4 ≤ subjects.length then subjects else []

/-- `_fuzzy_match_subject_name`. -/
def fuzzy_match_subject_name (text : String) : Option String :=
  let text_clean : String :=
    ⟨(pyUpper (pyStrip text)).data.filter
      (fun c => ('A' ≤ c && c ≤ 'Z') || c.isDigit || pyWs c || c == '&'
        || c == '(' || c == ')')⟩
  if pyIn "MATH" text_clean then some "Mathematics"
  else if pyIn "SCIENCE" text_clean || pyIn "SCI" text_clean
      || pyIn "TECH" text_clean then some "Science & Technology"
  else if pyIn "SOCIAL" text_clean then some "Social Sciences"
  else if pyIn "MARATHI" text_clean then
    some (if pyIn "1ST" text_clean || pyIn "FIRST" text_clean
        || pyIn "1 LANG" text_clean then "Marathi (1st Lang)"
      else "Marathi (2/3 Lang)")
  else if pyIn "HINDI" text_clean then
    some (if pyIn "1ST" text_clean || pyIn "FIRST" text_clean
        || pyIn "1 LANG" text_clean then "Hindi (1st Lang)"
      else "Hindi (2/3 Lang)")
  else if pyIn "ENGLISH" text_clean then
    some (if pyIn "1ST" text_clean || pyIn "FIRST" text_clean
        || pyIn "1 LANG" text_clean then "English (1st Lang)"
      else "English (2/3 Lang)")
  else if pyIn "SANSKRIT" text_clean then some "Sanskrit (2/3 Lang)"
  else if pyIn "HEALTH" text_clean || pyIn "PHYSICAL" text_clean then
    some "Health & Physical Education"
  else if pyIn "SCOUT" text_clean || pyIn "GUID" text_clean then
    some "Scouting/Guiding"
  else if pyIn "WATER" text_clean || pyIn "SECURITY" text_clean then
    some "Water Security"
  else if pyIn "DEFENCE" text_clean || pyIn "DEFENSE" text_clean then
    some "Defence Studies"
  else none

/-- `(.{10,50}?)\s+100\s+0?(\d{2,3})(?:\s+([A-Z]))?` (the optional third
group is never read by the source, so it is encoded non-capturing). -/
def sscTablePattern (n : Nat) : RE :=
  reCat [.grp (.rep 10 50 true reDot), reWs1 n, reLit "100", reWs1 n,
    reOpt (.cls (fun c => c == '0')), .grp (.rep 2 3 false (.cls Char.isDigit)),
    reOpt (reCat [reWs1 n, .cls (fun c => 'A' ≤ c && c ≤ 'Z')])]

/-- `(HEALTH.*?PHYSICAL|SCOUT.*?GUID|WATER.*?SECURITY|DEFENCE.*?STUD)\s+([A-E])(?:\s|$)`
with IGNORECASE. -/
def sscGradeOnlyPattern (n : Nat) : RE :=
  reCat [.grp (reAltList
      [reCat [reLitCI "HEALTH", .rep 0 n true reDot, reLitCI "PHYSICAL"],
       reCat [reLitCI "SCOUT", .rep 0 n true reDot, reLitCI "GUID"],
       reCat [reLitCI "WATER", .rep 0 n true reDot, reLitCI "SECURITY"],
       reCat [reLitCI "DEFENCE", .rep 0 n true reDot, reLitCI "STUD"]]),
    reWs1 n,
    .grp (.cls (fun c => ('A' ≤ c && c ≤ 'E') || ('a' ≤ c && c ≤ 'e'))),
    .alt (.cls pyWs) .eos]

/-- `_extract_by_table_structure`. -/
def extract_by_table_structure (raw_text : String) : List SscSubject :=
  let cs := raw_text.data
  let numeric := (reFindIter (sscTablePattern cs.length) cs).filterMap fun m =>
    match m.2.2 with
    | (g1s, g1e) :: (g2s, g2e) :: _ =>
      let marks := parseNatL (sliceL cs g2s g2e)
      if 100 < marks then none
      else
        match fuzzy_match_subject_name ⟨stripL (sliceL cs g1s g1e)⟩ with
        | some canonical =>
          if SSC_GRADE_ONLY_NAMES.contains (pyLower canonical) then none
          else some ⟨canonical, some (marks : Int), some 100, none⟩
        | none => none
    | _ => none
  let gradeOnly := (reFindIter (sscGradeOnlyPattern cs.length) cs).filterMap fun m =>
    match m.2.2 with
    | (g1s, g1e) :: (g2s, g2e) :: _ =>
      match fuzzy_match_subject_name ⟨stripL (sliceL cs g1s g1e)⟩ with
      | some canonical =>
        some ⟨canonical, none, none, some (pyUpper ⟨sliceL cs g2s g2e⟩)⟩
      | none => none
    | _ => none
  numeric ++ gradeOnly

/-- `word.title()` for the single-word subject keywords. -/
def pyTitle (s : String) : String :=
  match s.data with
  | [] => ""
  | c :: cs => ⟨c.toUpper :: cs.map Char.toLower⟩

/-- `100\s+0?(\d{2,3})` searched inside a 100-character window. -/
def sscSegMarksPattern (n : Nat) : RE :=
  reCat [reLit "100", reWs1 n, reOpt (.cls (fun c => c == '0')),
    .grp (.rep 2 3 false (.cls Char.isDigit))]

def SSC_FUZZY_KEYWORDS : List (String × Option String) :=
  [("MATHEMATICS", some "Mathematics"), ("SCIENCE", some "Science & Technology"),
   ("SOCIAL", some "Social Sciences"), ("MARATHI", none), ("HINDI", none),
   ("ENGLISH", none), ("SANSKRIT", some "Sanskrit (2/3 Lang)")]

/-- One keyword-occurrence step of `_extract_by_fuzzy_matching`. -/
def sscFuzzyOccStep (cs : List Char) (kw : String × Option String)
    (st : List SscSubject × List String) (m : Nat × Nat × List (Nat × Nat)) :
    List SscSubject × List String :=
  let segment := sliceL cs m.1 (m.1 + 100)
  match reSearch (sscSegMarksPattern segment.length) segment with
  | some (_, _, (gs, ge) :: _) =>
    let marks := parseNatL (sliceL segment gs ge)
    if 100 < marks then st
    else
      let canonical := match kw.2 with
        | none =>
          if pyIn "1ST" (pyUpper ⟨segment⟩) || pyIn "FIRST" (pyUpper ⟨segment⟩)
          then pyTitle kw.1 ++ " (1st Lang)"
          else pyTitle kw.1 ++ " (2/3 Lang)"
        | some c => c
      if st.2.contains (pyLower canonical) then st
      else (st.1 ++ [⟨canonical, some (marks : Int), some 100, none⟩],
        st.2 ++ [pyLower canonical])
  | _ => st

/-- `_extract_by_fuzzy_matching`. -/
def extract_by_fuzzy_matching (raw_text : String) : List SscSubject :=
  let cs := raw_text.data
  (SSC_FUZZY_KEYWORDS.foldl (fun st kw =>
    (reFindIter (reCat [.bnd, reLitCI kw.1, .bnd]) cs).foldl
      (sscFuzzyOccStep cs kw) st) ([], [])).1

/-- `extract_subjects_from_raw_text` (SSC): the three-strategy fallback
chain, each strategy accepted only with at least 4 rows. -/
def ssc_extract_subjects_from_raw_text (raw_text : String) : List SscSubject :=
  let rules := detect_ssc_format_version raw_text
  let s1 := extract_by_code_position raw_text rules
  if 4 ≤ s1.length then s1
  else
    let s2 := extract_by_table_structure raw_text
    if 4 ≤ s2.length then s2
    else
      let s3 := extract_by_fuzzy_matching raw_text
      if 4 ≤ s3.length then s3
      else []

/-- `_detect_potential_format_change`. -/
def detect_potential_format_change (raw_text : String) : Bool :=
  let ru := (pyUpper raw_text).data
  let n := ru.length
  let suspicious : List RE :=
    [reCat [reLit "FORMAT", reWs1 n, reLit "VERSION", reWs1 n,
       .cls (fun c => '2' ≤ c && c ≤ '9')],
     reCat [reLit "REVISED", reWs1 n, reLit "MARK"],
     reCat [reLit "NEW", reWs1 n, reLit "PATTERN"],
     reCat [reLit "UPDATED", reWs1 n, reLit "FORMAT"],
     reCat [.bnd, reLit "20",
       .alt (reCat [.cls (fun c => c == '2'), .cls (fun c => '5' ≤ c && c ≤ '9')])
         (reCat [.cls (fun c => '3' ≤ c && c ≤ '9'), .cls Char.isDigit]),
       .bnd]]
  if suspicious.any (fun pat => (reSearch pat ru).isSome) then true
  else if ((["SOCIAL SCIENCES", "MATHEMATICS", "SEAT NO", "SEAT NUMBER"] :
      List String).filter (fun mk => occursSub mk.data ru)).length < 2 then true
  else if (sscCodeFinds (detect_ssc_format_version raw_text) raw_text.data).length < 3
  then true
  else false

/-- Last occurrence of `needle` in `hay` (`str.rfind`). -/
def rfindSub (needle hay : List Char) : Option Nat :=
  (List.range (hay.length + 1)).foldl
    (fun acc j => if needle.isPrefixOf (hay.drop j) then some j else acc) none

/-- `_totals_area`. -/
def ssc_totals_area (raw_text : String) : List Char :=
  let ru := (pyUpper raw_text).data
  let start := SSC_TOTALS_MARKERS.foldl
    (fun start marker =>
      match rfindSub marker.data ru with
      | some idx => if start < idx then idx else start
      | none => start) 0
  if 0 < start then raw_text.data.drop start else raw_text.data

/-- `(?<!\d)(\d{2}\.\d{1,2})(?!\d)`. -/
def sscPctPattern : RE :=
  reCat [.nlb Char.isDigit,
    .grp (reCat [.cls Char.isDigit, .cls Char.isDigit, .cls (fun c => c == '.'),
      .rep 1 2 false (.cls Char.isDigit)]),
    .nla Char.isDigit]

/-- `\b([1-9]\d)(?:\s|$|%)`. -/
def sscPct2Pattern : RE :=
  reCat [.bnd, .grp (reCat [.cls (fun c => '1' ≤ c && c ≤ '9'), .cls Char.isDigit]),
    .alt (.cls pyWs) (.alt .eos (.cls (fun c => c == '%')))]

/-- `extract_percentage_from_text`. -/
def extract_percentage_from_text (raw_text : String) : Option ℚ :=
  match (reFindIter sscPctPattern (ssc_totals_area raw_text)).findSome? (fun m =>
      match m.2.2 with
      | (gs, ge) :: _ =>
        if 0 ≤ parseDecQ (sliceL (ssc_totals_area raw_text) gs ge) ∧
            parseDecQ (sliceL (ssc_totals_area raw_text) gs ge) ≤ 100 then
          some (parseDecQ (sliceL (ssc_totals_area raw_text) gs ge))
        else none
      | [] => none) with
  | some q => some q
  | none =>
    (reFindIter sscPct2Pattern (ssc_totals_area raw_text)).findSome? (fun m =>
      match m.2.2 with
      | (gs, ge) :: _ =>
        if 30 ≤ (parseNatL (sliceL (ssc_totals_area raw_text) gs ge) : ℚ) ∧
            (parseNatL (sliceL (ssc_totals_area raw_text) gs ge) : ℚ) ≤ 100 then
          some ((parseNatL (sliceL (ssc_totals_area raw_text) gs ge) : ℚ))
        else none
      | [] => none)

/-- One explicit-total pattern attempt (`None` both on no match and on an
out-of-set candidate, after which the caller tries the next pattern). -/
def sscTryTotalPat (area : List Char) (pat : RE) : Option Int :=
  match reSearch pat area with
  | some (_, _, (gs, ge) :: _) =>
    if (parseNatL (sliceL area gs ge) : Int) = 400 ∨
        (parseNatL (sliceL area gs ge) : Int) = 500 ∨
        (parseNatL (sliceL area gs ge) : Int) = 600 then
      some ((parseNatL (sliceL area gs ge) : Int))
    else none
  | _ => none

/-- `\b(\d{3})\b`. -/
def ssc3dPattern : RE :=
  reCat [.bnd, .grp (.rep 3 3 false (.cls Char.isDigit)), .bnd]

/-- `extract_total_max_marks_from_text`. -/
def sscTotalsFallbackScan (area : List Char) : Option Int :=
  (reFindIter ssc3dPattern area).findSome? (fun m =>
    match m.2.2 with
    | (gs, ge) :: _ =>
      if (parseNatL (sliceL area gs ge) : Int) = 400 ∨
          (parseNatL (sliceL area gs ge) : Int) = 500 ∨
          (parseNatL (sliceL area gs ge) : Int) = 600 then
        some ((parseNatL (sliceL area gs ge) : Int))
      else none
    | [] => none)

def extract_total_max_marks_from_text (raw_text : String) : Option Int :=
  match sscTryTotalPat (ssc_totals_area raw_text)
      (reCat [reLitCI "TOTAL", .rep 0 (ssc_totals_area raw_text).length true reDot,
        .grp (.rep 3 3 false (.cls Char.isDigit))]) with
  | some c => some c
  | none =>
    match sscTryTotalPat (ssc_totals_area raw_text)
        (reCat [reLitCI "GRAND", .rep 0 (ssc_totals_area raw_text).length true reDot,
          .grp (.rep 3 3 false (.cls Char.isDigit))]) with
    | some c => some c
    | none =>
      match sscTryTotalPat (ssc_totals_area raw_text)
          (reCat [reLitCI "MAX", .rep 0 (ssc_totals_area raw_text).length true reDot,
            reLitCI "MARKS", .rep 0 (ssc_totals_area raw_text).length true reDot,
            .grp (.rep 3 3 false (.cls Char.isDigit))]) with
      | some c => some c
      | none => sscTotalsFallbackScan (ssc_totals_area raw_text)

/-- `\b([1-9]\d{2})\b`. -/
def ssc3dNZPattern : RE :=
  reCat [.bnd, .grp (reCat [.cls (fun c => '1' ≤ c && c ≤ '9'),
    .cls Char.isDigit, .cls Char.isDigit]), .bnd]

/-- `len(re.findall(rf"\b{candidate}\b", area))`. -/
def countWordOcc (c : Int) (area : List Char) : Nat :=
  (reFindIter (reCat [.bnd, reLit (toString c), .bnd]) area).length

/-- `extract_total_marks_obtained_from_text`. -/
def sscTmoCandidates (area : List Char) (total_max_marks : Int) : List Int :=
  (reFindIter ssc3dNZPattern area).filterMap (fun m =>
    match m.2.2 with
    | (gs, ge) :: _ =>
      if (parseNatL (sliceL area gs ge) : Int) < total_max_marks ∧
          total_max_marks ≤ 2 * (parseNatL (sliceL area gs ge) : Int) then
        some ((parseNatL (sliceL area gs ge) : Int))
      else none
    | [] => none)

def extract_total_marks_obtained_from_text (raw_text : String)
    (total_max_marks : Int) : Option Int :=
  match (sscTmoCandidates (ssc_totals_area raw_text) total_max_marks).max? with
  | some best => some best
  | none =>
    -- the unique-occurrence pass and the first-in-range pass re-filter with
    -- the same range condition, so they can only fire when no candidate exists
    match (reFindIter ssc3dNZPattern (ssc_totals_area raw_text)).findSome? (fun m =>
        match m.2.2 with
        | (gs, ge) :: _ =>
          if countWordOcc (parseNatL (sliceL (ssc_totals_area raw_text) gs ge) : Int)
                (ssc_totals_area raw_text) = 1 ∧
              (parseNatL (sliceL (ssc_totals_area raw_text) gs ge) : Int) < total_max_marks ∧
              total_max_marks ≤ 2 * (parseNatL (sliceL (ssc_totals_area raw_text) gs ge) : Int) then
            some ((parseNatL (sliceL (ssc_totals_area raw_text) gs ge) : Int))
          else none
        | [] => none) with
    | some c => some c
    | none =>
      (reFindIter ssc3dNZPattern (ssc_totals_area raw_text)).findSome? (fun m =>
        match m.2.2 with
        | (gs, ge) :: _ =>
          if (parseNatL (sliceL (ssc_totals_area raw_text) gs ge) : Int) < total_max_marks ∧
              total_max_marks ≤ 2 * (parseNatL (sliceL (ssc_totals_area raw_text) gs ge) : Int) then
            some ((parseNatL (sliceL (ssc_totals_area raw_text) gs ge) : Int))
          else none
        | [] => none)

/-- `" ".join(...)`. -/
def pyJoinSpace : List String → String
  | [] => ""
  | [t] => t
  | t :: ts => t ++ " " ++ pyJoinSpace ts

/-- The mother-name fix: more than one word collapses to the first word. -/
def sscMotherFix (m : Option String) : Option String :=
  match m with
  | some s =>
    if s ≠ "" then
      if 1 < (pySplit (pyStrip s)).length then some ((pySplit (pyStrip s)).headD "")
      else some s
    else some s
  | none => none

/-- The student-name fix: more than three words collapses to the first three. -/
def sscStudentFix (m : Option String) : Option String :=
  match m with
  | some s =>
    if s ≠ "" then
      if 3 < (pySplit (pyStrip s)).length then
        some (pyJoinSpace ((pySplit (pyStrip s)).take 3))
      else some s
    else some s
  | none => none

/-- The father-name fixes: the `fathers_name` key moves onto `father_name`
when the latter is missing, then a null-ish string value becomes null. -/
def sscFatherFix (f f2 : Option (Option String)) :
    Option (Option String) × Option (Option String) :=
  let p := if f2.isSome && f.isNone then (f2, none) else (f, f2)
  match p.1 with
  | some (some s) =>
    if s = "null" ∨ s = "None" ∨ s = "" then (some none, p.2) else p
  | _ => p

/-- Step 1 of `validate_and_fix_ssc_marksheet`: the scalar name fixes (each
source block reads and writes exactly the field it fixes). -/
def sscNamesStep (data : SscRecord) : SscRecord :=
  { data with mother_name := sscMotherFix data.mother_name, student_name := sscStudentFix data.student_name, father_name := (sscFatherFix data.father_name data.fathers_name).1, fathers_name := (sscFatherFix data.father_name data.fathers_name).2 }

/-- The grade normalization of step 3's grade-only branch: a valid letter
is upper-cased and kept, anything else becomes `"A"`. -/
def fixSscSubjectGrade (g : Option String) : String :=
  match g with
  | some s =>
    if SSC_VALID_GRADE_LETTERS.contains (pyUpper (pyStrip s)) then
      pyUpper (pyStrip s)
    else "A"
  | none => "A"

/-- Step 3's per-subject rules: grade-only rows get null marks and a valid
grade letter (defaulting to `"A"`); all other rows get a null grade and
`max_marks = 100` (the marks coercion is the identity at this type). -/
def fixSscSubject (subj : SscSubject) : SscSubject :=
  if SSC_GRADE_ONLY_NAMES.contains (pyStrip (pyLower subj.subject_name)) then
    { subj with marks_obtained := none, max_marks := none, grade := some (fixSscSubjectGrade subj.grade) }
  else
    { subj with grade := none, max_marks := some 100 }

def sscNl (s : SscSubject) : String := pyStrip (pyLower s.subject_name)

def sscGo (s : SscSubject) : Bool := SSC_GRADE_ONLY_NAMES.contains (sscNl s)

def setAssoc {β : Type} : List (String × β) → String → β → List (String × β)
  | [], k, v => [(k, v)]
  | (k', v') :: r, k, v =>
    if k' = k then (k, v) :: r else (k', v') :: setAssoc r k v

def lookupAssoc {β : Type} (m : List (String × β)) (k : String) : Option β :=
  (m.find? (fun p => p.1 == k)).map (fun p => p.2)

/-- One step of the LLM-fallback deduplication: grade-only rows always
pass; a repeated non-grade-only name keeps the higher marks. -/
def sscDedupStep (st : List SscSubject × List (String × SscSubject))
    (subj : SscSubject) : List SscSubject × List (String × SscSubject) :=
  let nl := pyStrip (pyLower subj.subject_name)
  let is_grade_only := SSC_GRADE_ONLY_NAMES.contains nl
  match lookupAssoc st.2 nl with
  | some existing =>
    if is_grade_only then
      (st.1 ++ [subj], st.2)
    else if existing.marks_obtained.getD 0 < subj.marks_obtained.getD 0 then
      (st.1.filter (fun s => pyStrip (pyLower s.subject_name) ≠ nl) ++ [subj],
       setAssoc st.2 nl subj)
    else st
  | none =>
    (st.1 ++ [subj], if is_grade_only then st.2 else setAssoc st.2 nl subj)

/-- The LLM-fallback deduplication of step 2. -/
def sscDedup (subjects : List SscSubject) : List SscSubject :=
  (subjects.foldl sscDedupStep ([], [])).1

/-- Step 2: replace the model's subjects with the text-derived rows, or
deduplicate the model's rows when extraction fails. -/
def sscSubjectsStep (data : SscRecord) (raw_text : String) : SscRecord :=
  let actual := ssc_extract_subjects_from_raw_text raw_text
  if !actual.isEmpty then
    { data with subjects := actual, extraction_method := some "regex" }
  else
    { data with subjects := sscDedup data.subjects, extraction_method := some "llm_fallback" }

/-- Step 3 applied across the subject list. -/
def sscFixStep (data : SscRecord) : SscRecord :=
  { data with subjects := data.subjects.map fixSscSubject }

/-- One step of the grade-only injection: inject the canonical subject
when its marker occurs word-bounded in the uppercased raw text and the
name is not yet present (the source's `already_injected` set is a subset
of `existing_names`, so one name list captures both checks). -/
def sscInjectStep (raw_upper : List Char)
    (st : List SscSubject × List String) (p : String × String) :
    List SscSubject × List String :=
  if st.2.contains (pyLower p.2) then st
  else if (reSearch (reCat [.bnd, reLit p.1, .bnd]) raw_upper).isSome then
    (st.1 ++ [⟨p.2, none, none, some "A"⟩], st.2 ++ [pyLower p.2])
  else st

/-- Step 4: inject any grade-only subjects the model dropped. -/
def sscInjectAll (raw_text : String) (subjects : List SscSubject) :
    List SscSubject :=
  (SSC_GRADE_ONLY_INJECTION.foldl (sscInjectStep (pyUpper raw_text).data)
    (subjects, subjects.map (fun s => pyStrip (pyLower s.subject_name)))).1

def sscInjectStepR (data : SscRecord) (raw_text : String) : SscRecord :=
  { data with subjects := sscInjectAll raw_text data.subjects }

/-- `round(x, 2)` over the exact rationals. -/
def round2Q (q : ℚ) : ℚ := ((round (q * 100) : ℤ) : ℚ) / 100

/-- `f"{p:.2f}"` for the in-range percentages this is applied to. -/
def formatQ2 (q : ℚ) : String :=
  let n : ℤ := round (q * 100)
  let frac := n % 100
  toString (n / 100) ++ "." ++
    (if frac < 10 then "0" ++ toString frac else toString frac)

/-- `re.search(re.escape(f"{pct:.2f}") + r"(?!\d)(?!\.)", raw_text)`. -/
def pctStrFound (p : ℚ) (raw_text : String) : Bool :=
  (reSearch (reCat [reLit (formatQ2 p), .nla Char.isDigit,
    .nla (fun c => c == '.')]) raw_text.data).isSome

/-- The final `total_max_marks`: kept when it already equals the
text-derived value, otherwise replaced by it. -/
def sscTmmFinal (data : SscRecord) (raw_text : String) : Option Int :=
  if data.total_max_marks ≠ extract_total_max_marks_from_text raw_text then
    extract_total_max_marks_from_text raw_text
  else data.total_max_marks

/-- The final `total_marks_obtained`, given the final `total_max_marks`. -/
def sscTmoFinal (tmm tmo0 : Option Int) (raw_text : String) : Option Int :=
  match tmm with
  | some m =>
    match (if tmo0 ≠ extract_total_marks_obtained_from_text raw_text m then
        extract_total_marks_obtained_from_text raw_text m
      else tmo0) with
    | some t => if m < t then none else some t
    | none => none
  | none => tmo0

/-- The percentage verification pass: an in-range model value survives only
if its 2-decimal rendering occurs in the raw text. -/
def sscPctA (pct0 : Option ℚ) (raw_text : String) : Option ℚ :=
  match pct0 with
  | some p =>
    if 0 ≤ p ∧ p ≤ 100 then
      if pctStrFound p raw_text then some p else none
    else some p
  | none => none

/-- The percentage re-extraction pass. -/
def sscPctB (pctA : Option ℚ) (raw_text : String) : Option ℚ :=
  match pctA with
  | some p =>
    if 0 ≤ p ∧ p ≤ 100 then some p else extract_percentage_from_text raw_text
  | none => extract_percentage_from_text raw_text

/-- Step 5: totals and percentage, always re-verified against raw text. -/
def sscTotalsStep (data : SscRecord) (raw_text : String) : SscRecord :=
  { data with total_max_marks := sscTmmFinal data raw_text, total_marks_obtained := sscTmoFinal (sscTmmFinal data raw_text) data.total_marks_obtained raw_text, percentage := (sscPctB (sscPctA data.percentage raw_text) raw_text).map round2Q }

/-- Step 6: anomaly accumulation, in the order the source appends them
(the subject-extraction flag is recomputed; extraction is a pure function
of the raw text). -/
def sscAnomalies (data : SscRecord) (raw_text : String) : List String :=
  (if (ssc_extract_subjects_from_raw_text raw_text).isEmpty then
    ["subject_extraction_failed"] else []) ++
  (if detect_potential_format_change raw_text then
    ["possible_format_change"] else []) ++
  (if data.student_name.getD "" = "" then ["missing_student_name"] else []) ++
  (if data.subjects.isEmpty || data.subjects.length < 5 then
    ["insufficient_subjects"] else []) ++
  (if data.percentage.isNone then ["missing_percentage"] else [])

def sscAnomaliesStep (data : SscRecord) (raw_text : String) : SscRecord :=
  if sscAnomalies data raw_text ≠ [] then
    { data with extraction_warnings := some (sscAnomalies data raw_text), needs_manual_review := some true }
  else data

/-- `validate_and_fix_ssc_marksheet`: the six steps in source order. -/
def validate_and_fix_ssc_marksheet (data : SscRecord) (raw_text : String) :
    SscRecord :=
  sscAnomaliesStep
    (sscTotalsStep
      (sscInjectStepR (sscFixStep (sscSubjectsStep (sscNamesStep data) raw_text))
        raw_text)
      raw_text)
    raw_text

/-! ### Claims C6 and C3 (SSC side) -/

theorem findSome?_spec {α β} (P : β → Prop) (f : α → Option β) :
    ∀ (l : List α), (∀ a b, f a = some b → P b) →
      ∀ b, l.findSome? f = some b → P b := by
  intro l
  induction l with
  | nil => intro _ b h; simp [List.findSome?] at h
  | cons a l ih =>
    intro hf b h
    rw [List.findSome?] at h
    cases hfa : f a with
    | some b' => rw [hfa] at h; cases h; exact hf a b hfa
    | none => rw [hfa] at h; exact ih hf b h

theorem sscTryTotalPat_valid (area : List Char) (pat : RE) (c : Int)
    (h : sscTryTotalPat area pat = some c) :
    c = 400 ∨ c = 500 ∨ c = 600 := by
  unfold sscTryTotalPat at h
  split at h
  · split at h
    · rename_i hv
      cases h
      exact hv
    · cases h
  · cases h

theorem extract_total_max_marks_valid (raw_text : String) (c : Int)
    (h : extract_total_max_marks_from_text raw_text = some c) :
    c = 400 ∨ c = 500 ∨ c = 600 := by
  unfold extract_total_max_marks_from_text at h
  split at h
  · rename_i heq; cases h; exact sscTryTotalPat_valid _ _ _ heq
  · split at h
    · rename_i heq; cases h; exact sscTryTotalPat_valid _ _ _ heq
    · split at h
      · rename_i heq; cases h; exact sscTryTotalPat_valid _ _ _ heq
      · unfold sscTotalsFallbackScan at h
        refine findSome?_spec (fun c => c = 400 ∨ c = 500 ∨ c = 600) _ _ ?_ c h
        intro m b hm
        split at hm
        · split at hm
          · rename_i hv
            cases hm
            exact hv
          · cases hm
        · cases hm

theorem sscAnomaliesStep_tmm (data : SscRecord) (raw_text : String) :
    (sscAnomaliesStep data raw_text).total_max_marks = data.total_max_marks := by
  unfold sscAnomaliesStep
  split <;> rfl

theorem sscTmmFinal_eq (data : SscRecord) (raw_text : String) :
    sscTmmFinal data raw_text = extract_total_max_marks_from_text raw_text := by
  unfold sscTmmFinal
  by_cases h : data.total_max_marks = extract_total_max_marks_from_text raw_text
  · rw [if_neg (by simp [h]), h]
  · rw [if_pos (by simp [h])]

theorem sscTotalsStep_tmm (data : SscRecord) (raw_text : String) :
    (sscTotalsStep data raw_text).total_max_marks
      = extract_total_max_marks_from_text raw_text := sscTmmFinal_eq data raw_text

/-- C6 (confirmed): the SSC validator's output `total_max_marks` is always
400, 500, 600 or null, whatever the model supplied. -/
theorem C6_ssc_total_max_marks_domain (data : SscRecord) (raw_text : String) :
    (validate_and_fix_ssc_marksheet data raw_text).total_max_marks = none ∨
    (validate_and_fix_ssc_marksheet data raw_text).total_max_marks = some 400 ∨
    (validate_and_fix_ssc_marksheet data raw_text).total_max_marks = some 500 ∨
    (validate_and_fix_ssc_marksheet data raw_text).total_max_marks = some 600 := by
  unfold validate_and_fix_ssc_marksheet
  rw [sscAnomaliesStep_tmm, sscTotalsStep_tmm]
  cases h : extract_total_max_marks_from_text raw_text with
  | none => exact Or.inl rfl
  | some c =>
    rcases extract_total_max_marks_valid raw_text c h with h4 | h5 | h6
    · exact Or.inr (Or.inl (by rw [h4]))
    · exact Or.inr (Or.inr (Or.inl (by rw [h5])))
    · exact Or.inr (Or.inr (Or.inr (by rw [h6])))

/-- The row invariant the SSC validator actually enforces: a graded row
carries a valid letter and null marks; any other row carries
`max_marks = 100` and a null grade. -/
def sscRowOk (s : SscSubject) : Bool :=
  match s.grade with
  | none => s.max_marks == some 100
  | some g => SSC_VALID_GRADE_LETTERS.contains g
      && s.marks_obtained == none && s.max_marks == none

theorem fixSscSubjectGrade_valid (g : Option String) :
    SSC_VALID_GRADE_LETTERS.contains (fixSscSubjectGrade g) = true := by
  cases g with
  | none => decide
  | some s =>
    simp only [fixSscSubjectGrade]
    split
    · rename_i h; exact h
    · decide

theorem fixSscSubject_ok (s : SscSubject) :
    sscRowOk (fixSscSubject s) = true := by
  unfold fixSscSubject
  split
  · simp [sscRowOk]
    simpa using fixSscSubjectGrade_valid s.grade
  · simp [sscRowOk]

theorem sscInjectStep_ok (ru : List Char)
    (st : List SscSubject × List String) (p : String × String)
    (hst : ∀ s ∈ st.1, sscRowOk s = true) :
    ∀ s ∈ (sscInjectStep ru st p).1, sscRowOk s = true := by
  unfold sscInjectStep
  split
  · exact hst
  · split
    · intro s hs
      rcases List.mem_append.mp hs with hs | hs
      · exact hst s hs
      · simp only [List.mem_singleton] at hs
        subst hs
        rfl
    · exact hst

theorem sscInjectFold_ok (ru : List Char) :
    ∀ (pairs : List (String × String)) (st : List SscSubject × List String),
      (∀ s ∈ st.1, sscRowOk s = true) →
      ∀ s ∈ (pairs.foldl (sscInjectStep ru) st).1, sscRowOk s = true := by
  intro pairs
  induction pairs with
  | nil => intro st hst; exact hst
  | cons p pairs ih =>
    intro st hst
    exact ih _ (sscInjectStep_ok ru st p hst)

theorem sscAnomaliesStep_subjects (data : SscRecord) (raw_text : String) :
    (sscAnomaliesStep data raw_text).subjects = data.subjects := by
  unfold sscAnomaliesStep
  split <;> rfl

theorem sscTotalsStep_subjects (data : SscRecord) (raw_text : String) :
    (sscTotalsStep data raw_text).subjects = data.subjects := by
  simp only [sscTotalsStep]

theorem sscInjectStepR_subjects (data : SscRecord) (raw_text : String) :
    (sscInjectStepR data raw_text).subjects = sscInjectAll raw_text data.subjects := by
  simp only [sscInjectStepR]

theorem sscFixStep_subjects (data : SscRecord) :
    (sscFixStep data).subjects = data.subjects.map fixSscSubject := by
  simp only [sscFixStep]

/-- C3 (amended, SSC side): every subject row the SSC validator returns
either carries a valid grade letter with null `marks_obtained` and
`max_marks`, or carries `max_marks = 100` with a null grade — never a
grade and marks together; but `marks_obtained` may itself be null in the
numeric branch, so the original claim's "never neither" does not hold
(see the counterexample, which also refutes "never both" for CBSE). -/
theorem C3_ssc_subject_rows_dichotomy (data : SscRecord) (raw_text : String) :
    ((validate_and_fix_ssc_marksheet data raw_text).subjects.all sscRowOk)
      = true := by
  have hsub : (validate_and_fix_ssc_marksheet data raw_text).subjects
      = sscInjectAll raw_text
          ((sscSubjectsStep (sscNamesStep data) raw_text).subjects.map fixSscSubject) := by
    unfold validate_and_fix_ssc_marksheet
    rw [sscAnomaliesStep_subjects, sscTotalsStep_subjects, sscInjectStepR_subjects,
      sscFixStep_subjects]
  rw [List.all_eq_true, hsub]
  intro s hs
  unfold sscInjectAll at hs
  refine sscInjectFold_ok _ _ _ ?_ s hs
  intro t ht
  rcases List.mem_map.mp ht with ⟨u, _, hu⟩
  rw [← hu]
  exact fixSscSubject_ok u

/-! ## `extraction/validators/cbse_validator.py` -/

/-- A CBSE subject row (`is_additional = none` models an absent
`_is_additional` key). -/
structure CbseSubject where
  subject_code : Option String
  subject_name : String
  theory_marks : Option Int
  ia_pr_marks : Option Int
  marks_obtained : Option Int
  max_marks : Option Int
  grade : Option String
  is_additional : Option Bool
deriving DecidableEq

/-- The record as the CBSE validator reads and writes it. -/
structure CbseRecord where
  student_name : Option String
  mother_name : Option String
  father_name : Option (Option String)
  fathers_name : Option (Option String)
  roll_number : Option String
  exam_year : Option String
  result : Option String
  board : Option String
  document_type : Option String
  date_of_birth : Option Value
  total_marks_obtained : Option Value
  total_max_marks : Option Value
  percentage : Option Value
  subjects : List CbseSubject
  additional_subjects : List CbseSubject

def CBSE_CODE_TO_NAME : List (String × String) :=
  [("001", "Hindi Course-A"), ("002", "Hindi Course-B"),
   ("003", "Urdu Course-A"), ("004", "Punjabi"),
   ("005", "Bengali"), ("006", "Tamil"),
   ("007", "Telugu"), ("008", "Sindhi"),
   ("009", "Marathi"), ("010", "Gujarati"),
   ("011", "Manipuri"), ("012", "Malayalam"),
   ("013", "Odia"), ("014", "Assamese"),
   ("015", "Kannada"), ("018", "French"),
   ("019", "German"), ("020", "Russian"),
   ("022", "Nepali"), ("031", "English Communicative"),
   ("041", "Mathematics Standard"), ("241", "Mathematics Basic"),
   ("042", "Science"), ("049", "Painting"),
   ("054", "Elements of Book Keeping & Accountancy"),
   ("064", "Home Science"), ("065", "Computer Applications"),
   ("066", "Elements of Business"), ("067", "Sanskrit"),
   ("084", "English Language & Literature"),
   ("085", "Hindi Course-B"), ("086", "Science"),
   ("087", "Social Science"), ("119", "Sanskrit (Communicative)"),
   ("122", "Sanskrit"), ("165", "Hindi Course-A"),
   ("184", "English Language & Literature"),
   ("402", "Information Technology"),
   ("404", "Artificial Intelligence"),
   ("417", "Artificial Intelligence"),
   ("436", "National Cadet Corps")]

/-- `[-\s]*`. -/
def reDashWs0 (n : Nat) : RE := .rep 0 n false (.cls (fun c => c == '-' || pyWs c))

/-- `_NAME_ALIASES`: ordered (pattern, canonical name) pairs; the patterns
take the subject text's length as repetition bound. -/
def CBSE_NAME_ALIASES : List ((Nat → RE) × String) :=
  [(fun n => reCat [reLitCI "ENGLISH", reWs1 n, reLitCI "L",
      .alt (reLitCI "NG") (.seq (reLitCI "ANG") (reOpt (reLitCI "UAGE"))),
      reWs0 n, reLit "&", reWs0 n, reLitCI "LIT", reOpt (reLit ".")],
    "English Language & Literature"),
   (fun n => reCat [reLitCI "ENGLISH", reWs1 n, reLitCI "COMMUNICATIVE"],
    "English Communicative"),
   (fun _ => reLitCI "ENGLISH", "English Language & Literature"),
   (fun n => reCat [reLitCI "HINDI", reWs1 n, reLitCI "COURSE", reDashWs0 n,
      reLitCI "A"], "Hindi Course-A"),
   (fun n => reCat [reLitCI "HINDI", reWs1 n, reLitCI "COURSE", reDashWs0 n,
      reLitCI "B"], "Hindi Course-B"),
   (fun _ => reLitCI "HINDI", "Hindi Course-A"),
   (fun n => reCat [reLitCI "SANSKRIT", reWs0 n, reOpt (reLit "("),
      reLitCI "COMMUNICATIVE", reOpt (reLit ")")], "Sanskrit (Communicative)"),
   (fun _ => reLitCI "SANSKRIT", "Sanskrit"),
   (fun n => reCat [reLitCI "MATHEMATIC", reOpt (reLitCI "S"), reWs1 n,
      reLitCI "STANDARD"], "Mathematics Standard"),
   (fun n => reCat [reLitCI "MATHEMATIC", reOpt (reLitCI "S"), reWs1 n,
      reLitCI "BASIC"], "Mathematics Basic"),
   (fun _ => .seq (reLitCI "MATH") (reOpt (.seq (reLitCI "EMATIC") (reOpt (reLitCI "S")))),
    "Mathematics Standard"),
   (fun n => reCat [reLitCI "SCIENCE", reWs0 n, reOpt (reLit "&"), reWs0 n,
      reLitCI "TECHNOLOGY"], "Science"),
   (fun _ => reLitCI "SCIENCE", "Science"),
   (fun n => reCat [reLitCI "SOCIAL", reWs1 n, reLitCI "SCIENCE"], "Social Science"),
   (fun _ => .seq (reLitCI "SST") .bnd, "Social Science"),
   (fun n => reCat [reLitCI "INFORMATION", reWs1 n, reLitCI "TECHNOLOGY"],
    "Information Technology"),
   (fun _ => .seq (reLitCI "IT") .bnd, "Information Technology"),
   (fun n => reCat [reLitCI "ARTIFICIAL", reWs1 n, reLitCI "INTELLIGENCE"],
    "Artificial Intelligence"),
   (fun n => reCat [reLitCI "COMPUTER", reWs1 n, reLitCI "APPLICATION",
      reOpt (reLitCI "S")], "Computer Applications"),
   (fun n => reCat [reLitCI "HOME", reWs1 n, reLitCI "SCIENCE"], "Home Science"),
   (fun _ => reLitCI "PAINTING", "Painting"),
   (fun _ => reLitCI "FRENCH", "French"),
   (fun _ => reLitCI "GERMAN", "German"),
   (fun _ => reLitCI "URDU", "Urdu Course-A"),
   (fun _ => reLitCI "PUNJABI", "Punjabi"),
   (fun _ => reLitCI "BENGALI", "Bengali"),
   (fun _ => reLitCI "MARATHI", "Marathi"),
   (fun _ => reLitCI "GUJARATI", "Gujarati"),
   (fun _ => reLitCI "KANNADA", "Kannada"),
   (fun _ => reLitCI "TAMIL", "Tamil"),
   (fun _ => reLitCI "TELUGU", "Telugu"),
   (fun _ => reLitCI "MALAYALAM", "Malayalam"),
   (fun n => reCat [reLitCI "ELEMENT", reOpt (reLitCI "S"), reWs1 n, reLitCI "OF",
      reWs1 n, reLitCI "BOOK", reWs0 n, reLitCI "KEEPING"],
    "Elements of Book Keeping & Accountancy"),
   (fun n => reCat [reLitCI "ELEMENT", reOpt (reLitCI "S"), reWs1 n, reLitCI "OF",
      reWs1 n, reLitCI "BUSINESS"], "Elements of Business"),
   (fun n => .alt (reLitCI "NCC")
      (reCat [reLitCI "NATIONAL", reWs1 n, reLitCI "CADET", reWs1 n,
        reLitCI "CORPS"]), "National Cadet Corps")]

def CBSE_GRADE_ONLY_SUBJECTS : List String :=
  ["national cadet corps", "work experience", "art education",
   "health & physical education", "health and physical education"]

def CBSE_ADDITIONAL_CODES : List String :=
  ["402", "404", "417", "049", "064", "065", "066", "054", "436"]

/-- `_GRADE_BANDS` (lo, hi, grade). -/
def CBSE_GRADE_BANDS : List (Int × Int × String) :=
  [(91, 100, "A1"), (81, 90, "A2"), (71, 80, "B1"), (61, 70, "B2"),
   (51, 60, "C1"), (41, 50, "C2"), (33, 40, "D"), (21, 32, "E1"),
   (0, 20, "E2")]

def CBSE_VALID_GRADES : List String :=
  ["A1", "A2", "B1", "B2", "C1", "C2", "D", "E1", "E2", "E"]

/-- `marks_to_grade`. -/
def marks_to_grade (marks : Int) : String :=
  ((CBSE_GRADE_BANDS.find? (fun b => b.1 ≤ marks && marks ≤ b.2.1)).map
    (fun b => b.2.2)).getD "E2"

/-- `grade_to_marks_range`. -/
def grade_to_marks_range (grade : String) : Option (Int × Int) :=
  (CBSE_GRADE_BANDS.find? (fun b => b.2.2 == grade)).map (fun b => (b.1, b.2.1))

/-- `word.title()`-style casing over alphabetic word boundaries. -/
def pyTitleGo : Bool → List Char → List Char
  | _, [] => []
  | prevAlpha, c :: cs =>
    if c.isAlpha then
      (if prevAlpha then c.toLower else c.toUpper) :: pyTitleGo true cs
    else c :: pyTitleGo false cs

def pyTitleStr (s : String) : String := ⟨pyTitleGo false s.data⟩

/-- `canonical_subject_name`: code table, else first full alias match,
else first partial alias match, else title-cased raw text. -/
def canonical_subject_name (code : String) (ocr_name : String) : String :=
  if code ≠ "" ∧ (lookupStr CBSE_CODE_TO_NAME code).isSome then
    (lookupStr CBSE_CODE_TO_NAME code).getD ""
  else
    match CBSE_NAME_ALIASES.find?
        (fun pr => reFullmatch (pr.1 (pyStrip ocr_name).data.length)
          (pyStrip ocr_name).data) with
    | some pr => pr.2
    | none =>
      match CBSE_NAME_ALIASES.find?
          (fun pr => (reSearch (pr.1 (pyStrip ocr_name).data.length)
            (pyStrip ocr_name).data).isSome) with
      | some pr => pr.2
      | none => pyTitleStr (pyStrip ocr_name)

/-- `_DEVANAGARI_RE.sub(" ", ·)`: each maximal Devanagari run becomes one
space (structural worker with an in-run flag). -/
def subRunsGo (p : Char → Bool) : Bool → List Char → List Char
  | _, [] => []
  | inRun, c :: cs =>
    if p c then
      if inRun then subRunsGo p true cs else ' ' :: subRunsGo p true cs
    else c :: subRunsGo p false cs

/-- `_NAME_NOISE_RE` (no MULTILINE: the trailing `.*$` anchors the match at
the end of the subject, so at most one substitution occurs). -/
def cbseNoisePattern (n : Nat) : RE :=
  reCat [reWs1 n,
    .alt (.seq (.cls (fun c => 'a' ≤ c && c ≤ 'z')) (.rep 0 n false (.cls wordChar)))
      (.alt (reCat [.cls (fun c => 'A' ≤ c && c ≤ 'Z'),
          .cls (fun c => 'a' ≤ c && c ≤ 'z'), .rep 0 n false (.cls wordChar)])
        (reCat [.bnd, .alt (reLit "OR") (.alt (reLit "AND") (reLit "THE")), .bnd])),
    .rep 0 n false reDot, .eos]

def cbseNoiseSub (cs : List Char) : List Char :=
  match reSearch (cbseNoisePattern cs.length) cs with
  | some (s, e, _) => cs.take s ++ cs.drop e
  | none => cs

/-- `_clean_name_field`. -/
def cbseCleanNameField (raw_value : String) : String :=
  if raw_value = "" then raw_value
  else
    let cleaned := cbseNoiseSub (subRunsGo isDevanagari false raw_value.data)
    String.intercalate " "
      ((pySplit ⟨cleaned⟩).filter
        (fun w => w.data ≠ [] && w.data.all (fun c => 'A' ≤ c && c ≤ 'Z')))

/-- `[A-Z]` under IGNORECASE. -/
def reAsciiAlpha : RE := .cls Char.isAlpha

/-- `extract_student_name`. -/
def extract_student_name (raw_text : String) : Option String :=
  match reSearch (reCat [reLitCI "certify", reWs1 raw_text.data.length,
      reLitCI "that", reWs1 raw_text.data.length,
      .grp (.seq reAsciiAlpha (.rep 4 80 true
        (.cls (fun c => c.isAlpha || pyWs c)))),
      reWs1 raw_text.data.length, reLitCI "Roll", reWs1 raw_text.data.length,
      reLitCI "No"]) raw_text.data with
  | some (_, _, (gs, ge) :: _) =>
    if cbseCleanNameField ⟨sliceL raw_text.data gs ge⟩ ≠ "" ∧
        3 ≤ (cbseCleanNameField ⟨sliceL raw_text.data gs ge⟩).data.length then
      some (cbseCleanNameField ⟨sliceL raw_text.data gs ge⟩)
    else none
  | _ => none

/-- `['’]?s?` after the parent word. -/
def reApoS : RE :=
  .seq (reOpt (.cls (fun c => c == '\'' || c == '’'))) (reOpt (reLitCI "s"))

/-- The ordered parent-name patterns (`mother = true` selects the mother
variants). -/
def cbseParentPatterns (mother : Bool) (n : Nat) : List RE :=
  if mother then
    [reCat [reLitCI "Mother", reApoS, reWs1 n, reLitCI "Name", reWs1 n,
       .grp (.seq reAsciiAlpha (.rep 1 60 true (.cls (fun c => c.isAlpha || pyWs c)))),
       .alt (.rep 2 n false (.cls pyWs))
         (.alt (.cls (fun c => c == '\n'))
           (.alt (reLitCI "Father") (.alt (reLitCI "Guardian") (reLitCI "Date"))))],
     reCat [reLitCI "Mother", reApoS, reWs1 n, reLitCI "Name", reWs1 n,
       .grp (.seq reAsciiAlpha (.rep 1 50 false (.cls (fun c => c.isAlpha || pyWs c))))]]
  else
    [reCat [.alt (reLitCI "Father") (reLitCI "Guardian"), reApoS, reWs0 n,
       reOpt (reCat [reLit "/", reWs0 n,
         .alt (reLitCI "Guardian") (reLitCI "Father"), reApoS]),
       reWs1 n, reLitCI "Name", reWs1 n,
       .grp (.seq reAsciiAlpha (.rep 1 60 true (.cls (fun c => c.isAlpha || pyWs c)))),
       .alt (.rep 2 n false (.cls pyWs))
         (.alt (.cls (fun c => c == '\n'))
           (.alt (reLitCI "Date") (.alt (reLitCI "School") (reLit "ज"))))],
     reCat [.alt (reLitCI "Father") (reLitCI "Guardian"), reApoS, reWs1 n,
       reLitCI "Name", reWs1 n,
       .grp (.seq reAsciiAlpha (.rep 1 60 false (.cls (fun c => c.isAlpha || pyWs c))))]]

/-- `extract_parent_name`. -/
def extract_parent_name (raw_text : String) (mother : Bool) : Option String :=
  (cbseParentPatterns mother raw_text.data.length).findSome? fun pat =>
    match reSearch pat raw_text.data with
    | some (_, _, (gs, ge) :: _) =>
      if cbseCleanNameField ⟨sliceL raw_text.data gs ge⟩ ≠ "" ∧
          2 ≤ (cbseCleanNameField ⟨sliceL raw_text.data gs ge⟩).data.length then
        (if mother then
          (pySplit (cbseCleanNameField ⟨sliceL raw_text.data gs ge⟩)).head?
        else some (cbseCleanNameField ⟨sliceL raw_text.data gs ge⟩))
      else none
    | _ => none

/-- `extract_roll_number`. -/
def extract_roll_number (raw_text : String) : Option String :=
  match reSearch (reCat [reLitCI "Roll", reWs1 raw_text.data.length, reLitCI "No",
      reOpt (reLit "."), reWs0 raw_text.data.length,
      reOpt (.cls (fun c => c == ':' || c == '-')), reWs0 raw_text.data.length,
      .grp (.rep 7 9 false (.cls Char.isDigit)), .bnd]) raw_text.data with
  | some (_, _, (gs, ge) :: _) => some ⟨sliceL raw_text.data gs ge⟩
  | _ => none

/-- `extract_exam_year`. -/
def extract_exam_year (raw_text : String) : Option String :=
  match reSearch (reCat [reLitCI "SECONDARY", reWs1 raw_text.data.length,
      reLitCI "SCHOOL", reWs1 raw_text.data.length, reLitCI "EXAMINATION",
      .rep 1 raw_text.data.length false (.cls (fun c => c == ',' || pyWs c)),
      .grp (.rep 4 4 false (.cls Char.isDigit))]) raw_text.data with
  | some (_, _, (gs, ge) :: _) => some ⟨sliceL raw_text.data gs ge⟩
  | _ =>
    match reSearch (reCat [reLitCI "EXAMINATION",
        .rep 1 raw_text.data.length false (.cls (fun c => c == ',' || pyWs c)),
        .grp (.rep 4 4 false (.cls Char.isDigit))]) raw_text.data with
    | some (_, _, (gs, ge) :: _) => some ⟨sliceL raw_text.data gs ge⟩
    | _ => none

/-- `\bResult\b\s+(PASS|FAIL|COMPARTMENT|ESSENTIAL\s+REPEAT)\b`. -/
def cbseResultLinePat (n : Nat) : RE :=
  reCat [.bnd, reLitCI "Result", .bnd, reWs1 n,
    .grp (.alt (reLitCI "PASS") (.alt (reLitCI "FAIL")
      (.alt (reLitCI "COMPARTMENT")
        (reCat [reLitCI "ESSENTIAL", reWs1 n, reLitCI "REPEAT"])))),
    .bnd]

/-- `\bPASS\b`. -/
def cbsePassPat : RE := reCat [.bnd, reLitCI "PASS", .bnd]

/-- `\bFAIL\b`. -/
def cbseFailPat : RE := reCat [.bnd, reLitCI "FAIL", .bnd]

/-- `extract_result`: the Result line, else a bare PASS/FAIL, else the
`"PASS"` default. -/
def extract_result (raw_text : String) : String :=
  match reSearch (cbseResultLinePat raw_text.data.length) raw_text.data with
  | some (_, _, (gs, ge) :: _) => pyStrip (pyUpper ⟨sliceL raw_text.data gs ge⟩)
  | _ =>
    if (reSearch cbsePassPat raw_text.data).isSome then
      "PASS"
    else if (reSearch cbseFailPat raw_text.data).isSome then
      "FAIL"
    else "PASS"

/-- `raw_text.split("\n")`. -/
def splitLines : List Char → List (List Char)
  | [] => [[]]
  | c :: cs =>
    if c = '\n' then [] :: splitLines cs
    else
      match splitLines cs with
      | l :: ls => (c :: l) :: ls
      | [] => [[c]]

/-- `[A-Z0-9\s&./:'\(\)\-]` under IGNORECASE. -/
def cbseNameCls (c : Char) : Bool :=
  c.isAlpha || c.isDigit || pyWs c || c == '&' || c == '.' || c == '/' ||
    c == ':' || c == '\'' || c == '(' || c == ')' || c == '-'

/-- `(A1|A2|B1|B2|C1|C2|D|E1|E2|E)` under IGNORECASE. -/
def cbseGradeAlt : RE :=
  .alt (reLitCI "A1") (.alt (reLitCI "A2") (.alt (reLitCI "B1")
    (.alt (reLitCI "B2") (.alt (reLitCI "C1") (.alt (reLitCI "C2")
      (.alt (reLitCI "D") (.alt (reLitCI "E1") (.alt (reLitCI "E2")
        (reLitCI "E")))))))))

/-- `(\d{3})\s+((?:[A-Z][A-Z0-9...]+?)+?)\s+` shared row prefix. -/
def cbseRowPre (n : Nat) : RE :=
  reCat [.grp (.rep 3 3 false (.cls Char.isDigit)), reWs1 n,
    .grp (.rep 1 n true (.seq (.cls Char.isAlpha) (.rep 1 n true (.cls cbseNameCls)))),
    reWs1 n]

/-- `_PAT_A`. -/
def cbsePatA (n : Nat) : RE :=
  reCat [cbseRowPre n,
    .grp (.rep 2 3 false (.cls Char.isDigit)), reWs1 n,
    .grp (.rep 2 3 false (.cls Char.isDigit)), reWs1 n,
    .grp (.rep 2 3 false (.cls Char.isDigit)), reWs1 n,
    .grp (.seq (.cls Char.isAlpha) (.rep 1 n true (.cls (fun c => c.isAlpha || pyWs c)))),
    reWs1 n, .grp cbseGradeAlt, .bnd]

/-- `_PAT_B`. -/
def cbsePatB (n : Nat) : RE :=
  reCat [cbseRowPre n,
    .grp (.rep 2 3 false (.cls Char.isDigit)), reWs1 n,
    .grp (.seq (.cls Char.isAlpha) (.rep 1 n true (.cls (fun c => c.isAlpha || pyWs c)))),
    reWs1 n, .grp cbseGradeAlt, .bnd]

/-- `_PAT_C`. -/
def cbsePatC (n : Nat) : RE :=
  reCat [cbseRowPre n,
    .grp (.alt (.seq (reLitCI "A") (reOpt (reLit "+")))
      (.alt (.seq (reLitCI "B") (reOpt (reLit "+")))
        (.alt (.seq (reLitCI "C") (reOpt (reLit "+")))
          (.cls (fun c => ('A' ≤ c && c ≤ 'E') || ('a' ≤ c && c ≤ 'e')))))),
    .bnd]

/-- One line of the subject-row scan: state is
(subjects so far, seen codes, inside-additional-section flag). -/
def cbseLineStep (st : List CbseSubject × List String × Bool) (line : List Char) :
    List CbseSubject × List String × Bool :=
  let lc := (pyStrip ⟨line⟩).data
  if lc.isEmpty then st
  else if (reSearch (reCat [reLitCI "ADDITIONAL", reWs1 lc.length,
      reLitCI "SUBJECT"]) lc).isSome then (st.1, st.2.1, true)
  else
    match reSearch (cbsePatA lc.length) lc with
    | some (_, _, [c1, c2, c3, c4, c5, _, c7]) =>
      let code : String := ⟨sliceL lc c1.1 c1.2⟩
      if st.2.1.contains code then st
      else
        let grade := pyUpper ⟨sliceL lc c7.1 c7.2⟩
        ({ subject_code := some code,
           subject_name := canonical_subject_name code (pyStrip ⟨sliceL lc c2.1 c2.2⟩),
           theory_marks := some (parseNatL (sliceL lc c3.1 c3.2) : Int),
           ia_pr_marks := some (parseNatL (sliceL lc c4.1 c4.2) : Int),
           marks_obtained := some (parseNatL (sliceL lc c5.1 c5.2) : Int),
           max_marks := some 100,
           grade := some (if CBSE_VALID_GRADES.contains grade then grade
             else marks_to_grade (parseNatL (sliceL lc c5.1 c5.2) : Int)),
           is_additional := some (st.2.2 || CBSE_ADDITIONAL_CODES.contains code) }
          :: st.1, code :: st.2.1, st.2.2)
    | _ =>
      match reSearch (cbsePatB lc.length) lc with
      | some (_, _, [c1, c2, c3, _, c5]) =>
        let code : String := ⟨sliceL lc c1.1 c1.2⟩
        if st.2.1.contains code then st
        else
          let grade := pyUpper ⟨sliceL lc c5.1 c5.2⟩
          ({ subject_code := some code,
             subject_name := canonical_subject_name code (pyStrip ⟨sliceL lc c2.1 c2.2⟩),
             theory_marks := none, ia_pr_marks := none,
             marks_obtained := some (parseNatL (sliceL lc c3.1 c3.2) : Int),
             max_marks := some 100,
             grade := some (if CBSE_VALID_GRADES.contains grade then grade
               else marks_to_grade (parseNatL (sliceL lc c3.1 c3.2) : Int)),
             is_additional := some (st.2.2 || CBSE_ADDITIONAL_CODES.contains code) }
            :: st.1, code :: st.2.1, st.2.2)
      | _ =>
        match reSearch (cbsePatC lc.length) lc with
        | some (_, _, [c1, c2, c3]) =>
          let code : String := ⟨sliceL lc c1.1 c1.2⟩
          let cname := canonical_subject_name code (pyStrip ⟨sliceL lc c2.1 c2.2⟩)
          if !CBSE_GRADE_ONLY_SUBJECTS.contains (pyLower cname) then st
          else if st.2.1.contains code then st
          else
            ({ subject_code := some code, subject_name := cname,
               theory_marks := none, ia_pr_marks := none,
               marks_obtained := none, max_marks := none,
               grade := some (pyUpper ⟨sliceL lc c3.1 c3.2⟩),
               is_additional := some true } :: st.1, code :: st.2.1, st.2.2)
        | _ => st

/-- `extract_subjects_from_raw_text` (subjects are accumulated in reverse
and flipped at the end). -/
def cbse_extract_subjects_from_raw_text (raw_text : String) : List CbseSubject :=
  let st := (splitLines raw_text.data).foldl cbseLineStep ([], [], false)
  if 4 ≤ st.1.length then st.1.reverse else []

/-- `_fix_marks_against_grade`. -/
def fix_marks_against_grade (subj : CbseSubject) : CbseSubject :=
  match subj.marks_obtained, subj.grade with
  | some mo, some g =>
    if CBSE_VALID_GRADES.contains g then
      match grade_to_marks_range g with
      | some (lo, hi) =>
        if lo ≤ mo ∧ mo ≤ hi then subj
        else { subj with marks_obtained := some ((lo + hi) / 2) }
      | none => subj
    else subj
  | _, _ => subj

/-- One subject of the fallback LLM-subject cleanup; state is
(cleaned rows so far, seen lowercase names). -/
def cbseFallbackStep (st : List CbseSubject × List String) (subj : CbseSubject) :
    List CbseSubject × List String :=
  let name := pyStrip subj.subject_name
  let nl := pyLower name
  if st.2.contains nl then st
  else
    let subj1 := { subj with subject_name := canonical_subject_name (subj.subject_code.getD "") name }
    let goGrade : Option String :=
      if (match subj1.grade with
          | some g => CBSE_VALID_GRADES.contains g
          | none => false) then subj1.grade else some "A"
    let numGrade : Option String :=
      if !CBSE_VALID_GRADES.contains (subj1.grade.getD "") then
        match subj1.marks_obtained with
        | some m => some (marks_to_grade m)
        | none => none
      else subj1.grade
    let subj2 :=
      if CBSE_GRADE_ONLY_SUBJECTS.contains nl then
        { subj1 with marks_obtained := none, max_marks := none, grade := goGrade }
      else
        fix_marks_against_grade { subj1 with max_marks := some 100, grade := numGrade }
    let subj4 :=
      if subj2.is_additional.isNone then
        { subj2 with is_additional := some (CBSE_ADDITIONAL_CODES.contains (subj2.subject_code.getD "")) }
      else subj2
    (subj4 :: st.1, nl :: st.2)

/-- `subj.pop("_is_additional", False) or code in _ADDITIONAL_CODES`. -/
def cbseIsAdd (s : CbseSubject) : Bool :=
  s.is_additional.getD false || CBSE_ADDITIONAL_CODES.contains (s.subject_code.getD "")

def cbseDropAdd (s : CbseSubject) : CbseSubject := { s with is_additional := none }

/-- `validate_and_fix_cbse_marksheet`. -/
def validate_and_fix_cbse_marksheet (data : CbseRecord) (raw_text : String) :
    CbseRecord :=
  let sName : Option String :=
    match extract_student_name raw_text with
    | some nm => some nm
    | none =>
      if cbseCleanNameField (data.student_name.getD "") ≠ "" then
        some (cbseCleanNameField (data.student_name.getD "")) else none
  let d1 := { data with student_name := sName }
  let mName : Option String :=
    match extract_parent_name raw_text true with
    | some nm => some nm
    | none =>
      if cbseCleanNameField (d1.mother_name.getD "") ≠ "" then
        (pySplit (cbseCleanNameField (d1.mother_name.getD ""))).head? else none
  let d2 := { d1 with mother_name := mName }
  let fName : Option String :=
    match extract_parent_name raw_text false with
    | some nm => some nm
    | none =>
      if cbseCleanNameField ((d2.father_name.getD none).getD "") ≠ "" then
        some (cbseCleanNameField ((d2.father_name.getD none).getD "")) else none
  let d3 := { d2 with father_name := some fName }
  let d4 :=
    if d3.fathers_name.isSome ∧ d3.father_name.isNone then
      { d3 with father_name := d3.fathers_name, fathers_name := none }
    else d3
  let d5 :=
    match extract_roll_number raw_text with
    | some r => { d4 with roll_number := some r }
    | none =>
      if (d4.roll_number.getD "") = "" then { d4 with roll_number := none } else d4
  let d6 :=
    match extract_exam_year raw_text with
    | some y => { d5 with exam_year := some y }
    | none => d5
  let d7 := { d6 with result := some (extract_result raw_text), board := some "CBSE", document_type := some "marksheet", date_of_birth := none, total_marks_obtained := none, total_max_marks := none, percentage := none }
  let parsed := cbse_extract_subjects_from_raw_text raw_text
  let rows :=
    if !parsed.isEmpty then parsed
    else (d7.subjects.foldl cbseFallbackStep ([], [])).1.reverse
  { d7 with
    subjects := (rows.filter (fun s => !cbseIsAdd s)).map cbseDropAdd,
    additional_subjects := (rows.filter cbseIsAdd).map cbseDropAdd }

def cbseEmptyRecord : CbseRecord :=
  ⟨none, none, none, none, none, none, none, none, none, none, none, none, none, [], []⟩

/-- C10: every record returned by the CBSE validator is stamped
`board = "CBSE"`, `document_type = "marksheet"`, and carries none of
`date_of_birth`, `total_marks_obtained`, `total_max_marks`, `percentage`,
whatever the input supplied for them. -/
theorem C10_cbse_output_shape (data : CbseRecord) (raw_text : String) :
    (validate_and_fix_cbse_marksheet data raw_text).board = some "CBSE" ∧
    (validate_and_fix_cbse_marksheet data raw_text).document_type = some "marksheet" ∧
    (validate_and_fix_cbse_marksheet data raw_text).date_of_birth = none ∧
    (validate_and_fix_cbse_marksheet data raw_text).total_marks_obtained = none ∧
    (validate_and_fix_cbse_marksheet data raw_text).total_max_marks = none ∧
    (validate_and_fix_cbse_marksheet data raw_text).percentage = none :=
  ⟨rfl, rfl, rfl, rfl, rfl, rfl⟩

/-- C2 (amended): the validators are not verified-or-null — they introduce
defaults and estimates: (a) the CBSE validator always overwrites `result`
with `extract_result`, and (b) `extract_result` falls back to the guessed
default `"PASS"` when neither a Result line nor a standalone PASS or FAIL
token matches the raw text; (c) the CBSE marks cross-check keeps
`marks_obtained` unchanged unless a valid grade's band excludes it, in
which case it substitutes the band midpoint — an estimate; (d) the SSC
grade-only branch nulls the marks and overwrites `grade` with the
normalized (stripped, upper-cased) input letter when that is valid, and
with the default `"A"` otherwise. -/
theorem C2_corrections_use_defaults_and_estimates :
    (∀ (data : CbseRecord) (raw_text : String),
      (validate_and_fix_cbse_marksheet data raw_text).result
        = some (extract_result raw_text)) ∧
    (∀ raw_text : String,
      reSearch (cbseResultLinePat raw_text.data.length) raw_text.data = none →
      reSearch cbsePassPat raw_text.data = none →
      reSearch cbseFailPat raw_text.data = none →
      extract_result raw_text = "PASS") ∧
    (∀ subj : CbseSubject,
      (fix_marks_against_grade subj).marks_obtained = subj.marks_obtained ∨
      ∃ g lo hi mo, subj.grade = some g ∧ subj.marks_obtained = some mo ∧
        grade_to_marks_range g = some (lo, hi) ∧ ¬(lo ≤ mo ∧ mo ≤ hi) ∧
        (fix_marks_against_grade subj).marks_obtained = some ((lo + hi) / 2)) ∧
    (∀ s : SscSubject, sscGo s = true →
      (fixSscSubject s).marks_obtained = none ∧
      (fixSscSubject s).max_marks = none ∧
      ((∃ g, s.grade = some g ∧
          SSC_VALID_GRADE_LETTERS.contains (pyUpper (pyStrip g)) = true ∧
          (fixSscSubject s).grade = some (pyUpper (pyStrip g))) ∨
        (fixSscSubject s).grade = some "A")) := by
  refine ⟨fun data raw_text => rfl, fun raw_text h1 h2 h3 => ?_,
    fun subj => ?_, fun s hgo => ?_⟩
  · unfold extract_result
    rw [h1]
    dsimp only
    rw [h2, h3]
    rfl
  · unfold fix_marks_against_grade
    cases hmo : subj.marks_obtained with
    | none =>
      cases hg : subj.grade with
      | none => exact Or.inl hmo
      | some g => exact Or.inl hmo
    | some mo =>
      cases hg : subj.grade with
      | none => exact Or.inl hmo
      | some g =>
        dsimp only
        by_cases hv : CBSE_VALID_GRADES.contains g = true
        · rw [if_pos hv]
          cases hr : grade_to_marks_range g with
          | none => exact Or.inl hmo
          | some band =>
            obtain ⟨lo, hi⟩ := band
            dsimp only
            by_cases hb : lo ≤ mo ∧ mo ≤ hi
            · rw [if_pos hb]; exact Or.inl hmo
            · rw [if_neg hb]
              exact Or.inr ⟨g, lo, hi, mo, rfl, rfl, hr, hb, rfl⟩
        · rw [if_neg hv]; exact Or.inl hmo
  · have hgo' : SSC_GRADE_ONLY_NAMES.contains (pyStrip (pyLower s.subject_name))
        = true := hgo
    unfold fixSscSubject
    rw [if_pos hgo']
    refine ⟨rfl, rfl, ?_⟩
    cases hg : s.grade with
    | none => exact Or.inr rfl
    | some g =>
      unfold fixSscSubjectGrade
      dsimp only
      by_cases hv : SSC_VALID_GRADE_LETTERS.contains (pyUpper (pyStrip g)) = true
      · rw [if_pos hv]
        exact Or.inl ⟨g, rfl, hv, rfl⟩
      · rw [if_neg hv]
        exact Or.inr rfl

/-- Witness for the hypothesis-bearing parts of the C2 theorem: the
`"PASS"` default fires on a raw text with no result tokens, and the SSC
grade-only default `"A"` fires on a grade-only row with a null grade. -/
theorem C2_corrections_witness :
    extract_result "certificate" = "PASS" ∧
    ((fixSscSubject ⟨"Water Security", some 80, some 100, none⟩).marks_obtained = none ∧
      (fixSscSubject ⟨"Water Security", some 80, some 100, none⟩).max_marks = none ∧
      ((∃ g, (⟨"Water Security", some 80, some 100, none⟩ : SscSubject).grade = some g ∧
          SSC_VALID_GRADE_LETTERS.contains (pyUpper (pyStrip g)) = true ∧
          (fixSscSubject ⟨"Water Security", some 80, some 100, none⟩).grade
            = some (pyUpper (pyStrip g))) ∨
        (fixSscSubject ⟨"Water Security", some 80, some 100, none⟩).grade = some "A")) :=
  ⟨C2_corrections_use_defaults_and_estimates.2.1 "certificate" rfl rfl rfl,
   C2_corrections_use_defaults_and_estimates.2.2.2
     ⟨"Water Security", some 80, some 100, none⟩ (by decide)⟩

/-- The CBSE validator fabricates `result = "PASS"` for a record with no
result and a raw text that does not contain "PASS" at all. -/
theorem C2_counterexample_result_defaulted_to_pass :
    (validate_and_fix_cbse_marksheet cbseEmptyRecord "").result = some "PASS" ∧
    cbseEmptyRecord.result = none ∧ pyIn "PASS" "" = false :=
  ⟨rfl, rfl, rfl⟩

def sscEmptyRecord : SscRecord :=
  ⟨none, none, none, none, [], none, none, none, none, none, none⟩

/-- Both halves of the claimed dichotomy fail: the CBSE LLM-subject
fallback emits a row with marks, max marks and a grade all populated at
once ("never both" fails), and the SSC validator's numeric branch emits a
row with null `marks_obtained`, `max_marks = 100` and a null grade — the
marks pair is only half populated and the grade is null ("never neither"
fails). -/
theorem C3_counterexample_dichotomy_violations :
    ((validate_and_fix_cbse_marksheet
        { cbseEmptyRecord with subjects := [⟨none, "SCIENCE", none, none, some 95, none, some "A1", none⟩] } "").subjects.map
      (fun s => (s.marks_obtained, s.max_marks, s.grade)))
      = [(some 95, some 100, some "A1")] ∧
    ((validate_and_fix_ssc_marksheet
        { sscEmptyRecord with subjects := [⟨"Mathematics", none, none, none⟩] } "").subjects.map
      (fun s => (s.marks_obtained, s.max_marks, s.grade)))
      = [(none, some 100, none)] := ⟨rfl, rfl⟩

/-- Re-running the CBSE validator is not idempotent: the second run
re-splits only the main `subjects` list, so the `additional_subjects`
found by the first run (here Information Technology, code 402) are lost. -/
theorem C7_counterexample_cbse_revalidation_drops_additional :
    validate_and_fix_cbse_marksheet
        (validate_and_fix_cbse_marksheet
          { cbseEmptyRecord with subjects := [⟨some "402", "IT", none, none, some 90, none, none, none⟩] } "") ""
      ≠ validate_and_fix_cbse_marksheet
          { cbseEmptyRecord with subjects := [⟨some "402", "IT", none, none, some 90, none, none, none⟩] } "" :=
  fun h => absurd (congrArg CbseRecord.additional_subjects h) (by decide)

/-! ### Claim C7: SSC idempotence — split/join token lemmas -/

theorem splitRunsGo_nil (p : Char → Bool) (acc : List Char) :
    splitRunsGo p [] acc = if acc.isEmpty then [] else [acc.reverse] := rfl

theorem splitRunsGo_cons (p : Char → Bool) (c : Char) (cs acc : List Char) :
    splitRunsGo p (c :: cs) acc =
      if p c then splitRunsGo p cs (c :: acc)
      else if acc.isEmpty then splitRunsGo p cs []
      else acc.reverse :: splitRunsGo p cs [] := rfl

theorem splitRunsGo_mem_ok (p : Char → Bool) :
    ∀ (cs acc : List Char), acc.all p = true →
      ∀ l ∈ splitRunsGo p cs acc, l ≠ [] ∧ l.all p = true := by
  intro cs
  induction cs with
  | nil =>
    intro acc hacc l hl
    rw [splitRunsGo_nil] at hl
    by_cases he : acc.isEmpty = true
    · rw [if_pos he] at hl; simp at hl
    · rw [if_neg he] at hl
      simp only [List.mem_singleton] at hl
      subst hl
      refine ⟨?_, by simpa using hacc⟩
      simp only [List.isEmpty_iff] at he
      simpa using he
  | cons c cs ih =>
    intro acc hacc l hl
    rw [splitRunsGo_cons] at hl
    by_cases hp : p c = true
    · rw [if_pos hp] at hl
      exact ih (c :: acc) (by simp [List.all_cons, hp, hacc]) l hl
    · rw [if_neg hp] at hl
      by_cases he : acc.isEmpty = true
      · rw [if_pos he] at hl
        exact ih [] rfl l hl
      · rw [if_neg he] at hl
        rcases List.mem_cons.mp hl with h | h
        · subst h
          refine ⟨?_, by simpa using hacc⟩
          simp only [List.isEmpty_iff] at he
          simpa using he
        · exact ih [] rfl l h

/-- Every `str.split()` token is nonempty and whitespace-free. -/
theorem pySplit_tokens (s : String) :
    ∀ w ∈ pySplit s, w.data ≠ [] ∧ w.data.all (fun c => !pyWs c) = true := by
  intro w hw
  unfold pySplit splitRuns at hw
  rcases List.mem_map.mp hw with ⟨l, hl, rfl⟩
  exact splitRunsGo_mem_ok _ s.data [] rfl l hl

theorem splitRunsGo_all_run (p : Char → Bool) :
    ∀ (cs acc : List Char), cs.all p = true →
      splitRunsGo p cs acc =
        if acc.isEmpty && cs.isEmpty then [] else [acc.reverse ++ cs] := by
  intro cs
  induction cs with
  | nil =>
    intro acc _
    rw [splitRunsGo_nil]
    by_cases he : acc.isEmpty = true <;> simp [he]
  | cons c cs ih =>
    intro acc h
    simp only [List.all_cons, Bool.and_eq_true] at h
    rw [splitRunsGo_cons, if_pos h.1, ih (c :: acc) h.2]
    simp [List.reverse_cons]

theorem pySplit_single (w : String) (h1 : w.data ≠ [])
    (h2 : w.data.all (fun c => !pyWs c) = true) : pySplit w = [w] := by
  unfold pySplit splitRuns
  rw [splitRunsGo_all_run _ _ _ h2]
  have hne : w.data.isEmpty = false := by
    cases hd : w.data with
    | nil => exact absurd hd h1
    | cons => rfl
  simp [hne]

theorem stripL_of_all (cs : List Char)
    (h : cs.all (fun c => !pyWs c) = true) : stripL cs = cs := by
  have h1 : ∀ (l : List Char), l.all (fun c => !pyWs c) = true →
      l.dropWhile pyWs = l := by
    intro l hl
    cases l with
    | nil => rfl
    | cons c cs =>
      simp only [List.all_cons, Bool.and_eq_true, Bool.not_eq_true'] at hl
      rw [List.dropWhile_cons, hl.1]
      simp
  unfold stripL
  rw [h1 _ h, h1 _ (by simpa using h)]
  simp

theorem pyStrip_of_token (w : String) (h : w.data.all (fun c => !pyWs c) = true) :
    pyStrip w = w := by
  unfold pyStrip
  rw [stripL_of_all _ h]

theorem pyJoin_data_cons (t u : String) (us : List String) :
    (pyJoinSpace (t :: u :: us)).data
      = t.data ++ ' ' :: (pyJoinSpace (u :: us)).data := by
  show (t ++ " " ++ pyJoinSpace (u :: us)).data = _
  rw [String.data_append, String.data_append]
  simp

theorem splitRunsGo_append_run (p : Char → Bool) :
    ∀ (t cs acc : List Char), t.all p = true →
      splitRunsGo p (t ++ cs) acc = splitRunsGo p cs (t.reverse ++ acc) := by
  intro t
  induction t with
  | nil => intro cs acc _; rfl
  | cons c t ih =>
    intro cs acc h
    simp only [List.all_cons, Bool.and_eq_true] at h
    rw [List.cons_append, splitRunsGo_cons, if_pos h.1, ih cs (c :: acc) h.2]
    congr 1
    simp

theorem pySplitRuns_join :
    ∀ (ts : List String),
      (∀ t ∈ ts, t.data ≠ [] ∧ t.data.all (fun c => !pyWs c) = true) →
      splitRuns (fun c => !pyWs c) (pyJoinSpace ts).data = ts.map String.data := by
  intro ts
  induction ts with
  | nil => intro _; rfl
  | cons t ts ih =>
    intro h
    cases ts with
    | nil =>
      have ht := h t (by simp)
      show splitRuns _ t.data = [t.data]
      unfold splitRuns
      rw [splitRunsGo_all_run _ _ _ ht.2]
      have hne : t.data.isEmpty = false := by
        cases hd : t.data with
        | nil => exact absurd hd ht.1
        | cons => rfl
      simp [hne]
    | cons u us =>
      have ht := h t (by simp)
      unfold splitRuns
      rw [pyJoin_data_cons, splitRunsGo_append_run _ _ _ _ ht.2, splitRunsGo_cons]
      rw [if_neg (by decide : ¬((fun c => !pyWs c) ' ' = true))]
      rw [if_neg (by simpa using ht.1 :
        ¬((t.data.reverse ++ ([] : List Char)).isEmpty = true))]
      have ihr := ih (fun x hx => h x (List.mem_cons_of_mem t hx))
      unfold splitRuns at ihr
      rw [ihr]
      simp

theorem mk_data_map (ts : List String) : (ts.map String.data).map String.mk = ts := by
  induction ts with
  | nil => rfl
  | cons t ts ih => simpa using ih

theorem pySplit_join (ts : List String)
    (h : ∀ t ∈ ts, t.data ≠ [] ∧ t.data.all (fun c => !pyWs c) = true) :
    pySplit (pyJoinSpace ts) = ts := by
  unfold pySplit
  rw [pySplitRuns_join ts h, mk_data_map]

theorem splitRunsGo_dropWhile_ws :
    ∀ cs : List Char, splitRunsGo (fun c => !pyWs c) cs []
      = splitRunsGo (fun c => !pyWs c) (cs.dropWhile pyWs) [] := by
  intro cs
  induction cs with
  | nil => rfl
  | cons c cs ih =>
    by_cases hc : pyWs c = true
    · rw [splitRunsGo_cons, List.dropWhile_cons, hc]
      rw [if_neg (show ¬((!true : Bool) = true) by simp)]
      rw [if_pos (show (([] : List Char).isEmpty) = true from rfl)]
      rw [if_pos (show true = true from rfl)]
      exact ih
    · rw [List.dropWhile_cons, if_neg hc]

theorem splitRunsGo_ws_tail :
    ∀ (ws acc : List Char), ws.all pyWs = true →
      splitRunsGo (fun c => !pyWs c) ws acc
        = if acc.isEmpty then [] else [acc.reverse] := by
  intro ws
  induction ws with
  | nil => intro acc _; rfl
  | cons c ws ih =>
    intro acc h
    simp only [List.all_cons, Bool.and_eq_true] at h
    rw [splitRunsGo_cons, if_neg (by simp [h.1]), ih [] h.2]
    by_cases he : acc.isEmpty = true
    · simp [he]
    · simp [he]

theorem splitRunsGo_append_ws :
    ∀ (cs ws acc : List Char), ws.all pyWs = true →
      splitRunsGo (fun c => !pyWs c) (cs ++ ws) acc
        = splitRunsGo (fun c => !pyWs c) cs acc := by
  intro cs
  induction cs with
  | nil =>
    intro ws acc h
    rw [List.nil_append, splitRunsGo_ws_tail ws acc h, splitRunsGo_nil]
  | cons c cs ih =>
    intro ws acc h
    rw [List.cons_append, splitRunsGo_cons, splitRunsGo_cons]
    by_cases hp : (!pyWs c) = true
    · rw [if_pos hp, if_pos hp, ih ws (c :: acc) h]
    · rw [if_neg hp, if_neg hp]
      by_cases he : acc.isEmpty = true
      · rw [if_pos he, if_pos he, ih ws [] h]
      · rw [if_neg he, if_neg he, ih ws [] h]

theorem all_takeWhile_ws (l : List Char) : (l.takeWhile pyWs).all pyWs = true := by
  induction l with
  | nil => rfl
  | cons c cs ih =>
    rw [List.takeWhile_cons]
    by_cases hc : pyWs c = true
    · rw [hc]
      simpa [List.all_cons, hc] using ih
    · simp [hc] at *

theorem splitRuns_stripL (cs : List Char) :
    splitRuns (fun c => !pyWs c) (stripL cs) = splitRuns (fun c => !pyWs c) cs := by
  unfold splitRuns stripL
  have hdecomp : cs.dropWhile pyWs
      = ((cs.dropWhile pyWs).reverse.dropWhile pyWs).reverse
        ++ ((cs.dropWhile pyWs).reverse.takeWhile pyWs).reverse := by
    rw [← List.reverse_append, List.takeWhile_append_dropWhile, List.reverse_reverse]
  conv_rhs => rw [splitRunsGo_dropWhile_ws cs, hdecomp,
    splitRunsGo_append_ws _ _ _ (by simpa using all_takeWhile_ws (cs.dropWhile pyWs).reverse)]

theorem pySplit_strip (s : String) : pySplit (pyStrip s) = pySplit s := by
  unfold pySplit pyStrip
  show ((splitRuns _ (stripL s.data)).map String.mk) = _
  rw [splitRuns_stripL]

/-! ### C7: per-field idempotence of the names step -/

theorem sscMotherFix_idem (m : Option String) :
    sscMotherFix (sscMotherFix m) = sscMotherFix m := by
  cases m with
  | none => rfl
  | some s =>
    by_cases hs : s = ""
    · subst hs; rfl
    · by_cases hl : 1 < (pySplit (pyStrip s)).length
      · rcases hw : pySplit (pyStrip s) with _ | ⟨w, ws⟩
        · rw [hw] at hl; simp at hl
        · have hmem : w ∈ pySplit (pyStrip s) := by
            rw [hw]; exact List.mem_cons_self _ _
          have htok := pySplit_tokens (pyStrip s) w hmem
          have h1 : sscMotherFix (some s) = some w := by
            simp only [sscMotherFix]
            rw [if_pos hs, if_pos hl, hw]
            rfl
          rw [h1]
          simp only [sscMotherFix]
          by_cases hwe : w = ""
          · rw [if_neg (by simp [hwe])]
          · rw [if_pos hwe, pyStrip_of_token w htok.2,
              pySplit_single w htok.1 htok.2]
            rw [if_neg (by simp)]
      · have h1 : sscMotherFix (some s) = some s := by
          simp only [sscMotherFix]
          rw [if_pos hs, if_neg hl]
        rw [h1]
        simp only [sscMotherFix]
        rw [if_pos hs, if_neg hl]

theorem sscStudentFix_idem (m : Option String) :
    sscStudentFix (sscStudentFix m) = sscStudentFix m := by
  cases m with
  | none => rfl
  | some s =>
    by_cases hs : s = ""
    · subst hs; rfl
    · by_cases hl : 3 < (pySplit (pyStrip s)).length
      · have htoks : ∀ t ∈ (pySplit (pyStrip s)).take 3,
            t.data ≠ [] ∧ t.data.all (fun c => !pyWs c) = true := by
          intro t ht
          exact pySplit_tokens (pyStrip s) t (List.take_subset 3 _ ht)
        have hsplit : pySplit (pyJoinSpace ((pySplit (pyStrip s)).take 3))
            = (pySplit (pyStrip s)).take 3 := pySplit_join _ htoks
        have h1 : sscStudentFix (some s)
            = some (pyJoinSpace ((pySplit (pyStrip s)).take 3)) := by
          simp only [sscStudentFix]
          rw [if_pos hs, if_pos hl]
        rw [h1]
        simp only [sscStudentFix]
        by_cases hje : pyJoinSpace ((pySplit (pyStrip s)).take 3) = ""
        · rw [if_neg (by simp [hje])]
        · rw [if_pos hje, pySplit_strip, hsplit]
          rw [if_neg (by rw [List.length_take]; omega)]
      · have h1 : sscStudentFix (some s) = some s := by
          simp only [sscStudentFix]
          rw [if_pos hs, if_neg hl]
        rw [h1]
        simp only [sscStudentFix]
        rw [if_pos hs, if_neg hl]

theorem sscFatherFix_idem (f f2 : Option (Option String)) :
    sscFatherFix (sscFatherFix f f2).1 (sscFatherFix f f2).2 = sscFatherFix f f2 := by
  rcases f with _ | (_ | fs)
  · rcases f2 with _ | (_ | gs)
    · rfl
    · rfl
    · have h1 : sscFatherFix none (some (some gs))
          = if gs = "null" ∨ gs = "None" ∨ gs = "" then (some none, none)
            else (some (some gs), none) := rfl
      rw [h1]
      by_cases hn : gs = "null" ∨ gs = "None" ∨ gs = ""
      · rw [if_pos hn]; rfl
      · rw [if_neg hn]
        have h2 : sscFatherFix (some (some gs)) none
            = if gs = "null" ∨ gs = "None" ∨ gs = "" then (some none, none)
              else (some (some gs), none) := rfl
        rw [h2, if_neg hn]
  · rcases f2 with _ | g2 <;> rfl
  · rcases f2 with _ | g2
    · have h1 : sscFatherFix (some (some fs)) none
          = if fs = "null" ∨ fs = "None" ∨ fs = "" then (some none, none)
            else (some (some fs), none) := rfl
      rw [h1]
      by_cases hn : fs = "null" ∨ fs = "None" ∨ fs = ""
      · rw [if_pos hn]; rfl
      · rw [if_neg hn, h1, if_neg hn]
    · have h1 : sscFatherFix (some (some fs)) (some g2)
          = if fs = "null" ∨ fs = "None" ∨ fs = "" then (some none, some g2)
            else (some (some fs), some g2) := rfl
      rw [h1]
      by_cases hn : fs = "null" ∨ fs = "None" ∨ fs = ""
      · rw [if_pos hn]; rfl
      · rw [if_neg hn, h1, if_neg hn]

/-! ### C7: deduplication lemmas -/

/-- The (lower-stripped) names of the non-grade-only rows, in order. -/
def nonGoNames (l : List SscSubject) : List String :=
  (l.filter (fun s => !sscGo s)).map sscNl

@[simp] theorem nonGoNames_nil : nonGoNames [] = [] := rfl

theorem nonGoNames_append (a b : List SscSubject) :
    nonGoNames (a ++ b) = nonGoNames a ++ nonGoNames b := by
  simp [nonGoNames]

theorem nonGoNames_cons_go (s : SscSubject) (l : List SscSubject)
    (h : sscGo s = true) : nonGoNames (s :: l) = nonGoNames l := by
  simp [nonGoNames, List.filter_cons, h]

theorem nonGoNames_cons_ngo (s : SscSubject) (l : List SscSubject)
    (h : sscGo s = false) : nonGoNames (s :: l) = sscNl s :: nonGoNames l := by
  simp [nonGoNames, List.filter_cons, h]

theorem lookupAssoc_nil {β : Type} (k : String) :
    lookupAssoc ([] : List (String × β)) k = none := rfl

theorem lookupAssoc_setAssoc_self {β : Type} (m : List (String × β)) (k : String)
    (v : β) : lookupAssoc (setAssoc m k v) k = some v := by
  induction m with
  | nil => simp [setAssoc, lookupAssoc]
  | cons p m ih =>
    obtain ⟨k', v'⟩ := p
    by_cases h : k' = k
    · subst h; simp [setAssoc, lookupAssoc]
    · rw [show setAssoc ((k', v') :: m) k v = (k', v') :: setAssoc m k v by
        simp [setAssoc, h]]
      unfold lookupAssoc at *
      rw [List.find?_cons_of_neg _ (by simpa using h)]
      exact ih

theorem lookupAssoc_setAssoc_ne {β : Type} (m : List (String × β)) (k k' : String)
    (v : β) (h : k' ≠ k) :
    lookupAssoc (setAssoc m k v) k' = lookupAssoc m k' := by
  induction m with
  | nil =>
    show lookupAssoc [(k, v)] k' = lookupAssoc [] k'
    unfold lookupAssoc
    rw [List.find?_cons_of_neg _ (by simpa using h.symm)]
  | cons p m ih =>
    obtain ⟨k0, v0⟩ := p
    by_cases h0 : k0 = k
    · subst h0
      rw [show setAssoc ((k0, v0) :: m) k0 v = (k0, v) :: m by simp [setAssoc]]
      unfold lookupAssoc
      rw [List.find?_cons_of_neg _ (by simpa using h.symm),
        List.find?_cons_of_neg _ (by simpa using h.symm)]
    · rw [show setAssoc ((k0, v0) :: m) k v = (k0, v0) :: setAssoc m k v by
        simp [setAssoc, h0]]
      unfold lookupAssoc at *
      by_cases hk0 : k0 = k'
      · subst hk0
        rw [List.find?_cons_of_pos _ (by simp), List.find?_cons_of_pos _ (by simp)]
      · rw [List.find?_cons_of_neg _ (by simpa using hk0),
          List.find?_cons_of_neg _ (by simpa using hk0)]
        exact ih

theorem lookupAssoc_setAssoc_isSome {β : Type} (m : List (String × β))
    (k x : String) (v : β) :
    (lookupAssoc (setAssoc m k v) x).isSome = true
      ↔ (x = k ∨ (lookupAssoc m x).isSome = true) := by
  by_cases hx : x = k
  · subst hx
    rw [lookupAssoc_setAssoc_self]
    simp
  · rw [lookupAssoc_setAssoc_ne _ _ _ _ hx]
    simp [hx]

theorem sscDedupStep_go (st : List SscSubject × List (String × SscSubject))
    (s : SscSubject) (h : sscGo s = true) :
    sscDedupStep st s = (st.1 ++ [s], st.2) := by
  obtain ⟨a, m⟩ := st
  have hgo : SSC_GRADE_ONLY_NAMES.contains (pyStrip (pyLower s.subject_name))
      = true := h
  simp only [sscDedupStep]
  cases hlkp : lookupAssoc m (pyStrip (pyLower s.subject_name)) with
  | some e => dsimp only; rw [if_pos hgo]
  | none => dsimp only; rw [if_pos hgo]

theorem sscDedupStep_new (st : List SscSubject × List (String × SscSubject))
    (s : SscSubject) (hgo : sscGo s = false)
    (hlk : lookupAssoc st.2 (sscNl s) = none) :
    sscDedupStep st s = (st.1 ++ [s], setAssoc st.2 (sscNl s) s) := by
  obtain ⟨a, m⟩ := st
  have hlk' : lookupAssoc m (pyStrip (pyLower s.subject_name)) = none := hlk
  have hgo' : SSC_GRADE_ONLY_NAMES.contains (pyStrip (pyLower s.subject_name))
      = false := hgo
  simp only [sscDedupStep]
  rw [hlk']
  dsimp only
  rw [if_neg (show ¬(SSC_GRADE_ONLY_NAMES.contains (pyStrip (pyLower s.subject_name)) = true) by rw [hgo']; simp)]
  rfl

theorem sscDedup_fold_append :
    ∀ (l acc : List SscSubject) (m : List (String × SscSubject)),
      (nonGoNames l).Nodup →
      (∀ x ∈ nonGoNames l, lookupAssoc m x = none) →
      ∃ m2, l.foldl sscDedupStep (acc, m) = (acc ++ l, m2) := by
  intro l
  induction l with
  | nil => intro acc m _ _; exact ⟨m, by simp⟩
  | cons s l ih =>
    intro acc m hnd hlk
    rw [List.foldl_cons]
    by_cases hgo : sscGo s = true
    · have hng : nonGoNames (s :: l) = nonGoNames l := nonGoNames_cons_go s l hgo
      rw [hng] at hnd hlk
      rw [sscDedupStep_go (acc, m) s hgo]
      obtain ⟨m2, hm2⟩ := ih (acc ++ [s]) m hnd hlk
      exact ⟨m2, by rw [hm2]; simp⟩
    · replace hgo : sscGo s = false := by simpa using hgo
      have hng : nonGoNames (s :: l) = sscNl s :: nonGoNames l :=
        nonGoNames_cons_ngo s l hgo
      rw [hng] at hnd hlk
      have hlks : lookupAssoc m (sscNl s) = none :=
        hlk (sscNl s) (List.mem_cons_self _ _)
      rw [sscDedupStep_new (acc, m) s hgo hlks]
      obtain ⟨m2, hm2⟩ := ih (acc ++ [s]) (setAssoc m (sscNl s) s)
        (List.Nodup.of_cons hnd)
        (by
          intro x hx
          have hne : x ≠ sscNl s := by
            intro he
            subst he
            exact (List.nodup_cons.mp hnd).1 hx
          rw [lookupAssoc_setAssoc_ne _ _ _ _ hne]
          exact hlk x (List.mem_cons_of_mem _ hx))
      exact ⟨m2, by rw [hm2]; simp⟩

/-- Deduplication is the identity on lists whose non-grade-only names are
already distinct. -/
theorem sscDedup_id (l : List SscSubject) (h : (nonGoNames l).Nodup) :
    sscDedup l = l := by
  unfold sscDedup
  obtain ⟨m2, hm⟩ := sscDedup_fold_append l [] []
    h (fun x _ => rfl)
  rw [hm]
  simp

theorem sscDedupStep_dup_replace (st : List SscSubject × List (String × SscSubject))
    (s e : SscSubject) (hgo : sscGo s = false)
    (hlk : lookupAssoc st.2 (sscNl s) = some e)
    (hcmp : e.marks_obtained.getD 0 < s.marks_obtained.getD 0) :
    sscDedupStep st s
      = (st.1.filter (fun t => pyStrip (pyLower t.subject_name) ≠ sscNl s) ++ [s],
         setAssoc st.2 (sscNl s) s) := by
  obtain ⟨a, m⟩ := st
  have hlk' : lookupAssoc m (pyStrip (pyLower s.subject_name)) = some e := hlk
  have hgo' : SSC_GRADE_ONLY_NAMES.contains (pyStrip (pyLower s.subject_name))
      = false := hgo
  simp only [sscDedupStep]
  rw [hlk']
  dsimp only
  rw [if_neg (show ¬(SSC_GRADE_ONLY_NAMES.contains (pyStrip (pyLower s.subject_name)) = true) by rw [hgo']; simp), if_pos hcmp]
  rfl

theorem sscDedupStep_dup_keep (st : List SscSubject × List (String × SscSubject))
    (s e : SscSubject) (hgo : sscGo s = false)
    (hlk : lookupAssoc st.2 (sscNl s) = some e)
    (hcmp : ¬(e.marks_obtained.getD 0 < s.marks_obtained.getD 0)) :
    sscDedupStep st s = st := by
  obtain ⟨a, m⟩ := st
  have hlk' : lookupAssoc m (pyStrip (pyLower s.subject_name)) = some e := hlk
  have hgo' : SSC_GRADE_ONLY_NAMES.contains (pyStrip (pyLower s.subject_name))
      = false := hgo
  simp only [sscDedupStep]
  rw [hlk']
  dsimp only
  rw [if_neg (show ¬(SSC_GRADE_ONLY_NAMES.contains (pyStrip (pyLower s.subject_name)) = true) by rw [hgo']; simp), if_neg hcmp]

theorem nonGoNames_filter_ne (l : List SscSubject) (k : String) :
    nonGoNames (l.filter (fun t => pyStrip (pyLower t.subject_name) ≠ k))
      = (nonGoNames l).filter (fun x => x ≠ k) := by
  induction l with
  | nil => rfl
  | cons s l ih =>
    rw [List.filter_cons]
    by_cases hk : pyStrip (pyLower s.subject_name) = k
    · rw [if_neg (by simp [hk])]
      by_cases hgo : sscGo s = true
      · rw [nonGoNames_cons_go s l hgo, ih]
      · replace hgo : sscGo s = false := by simpa using hgo
        rw [nonGoNames_cons_ngo s l hgo, List.filter_cons]
        rw [if_neg (by simp [sscNl, hk])]
        exact ih
    · rw [if_pos (by simp [hk])]
      by_cases hgo : sscGo s = true
      · rw [nonGoNames_cons_go s _ hgo, nonGoNames_cons_go s l hgo, ih]
      · replace hgo : sscGo s = false := by simpa using hgo
        rw [nonGoNames_cons_ngo s _ hgo, nonGoNames_cons_ngo s l hgo,
          List.filter_cons, if_pos (by simp [sscNl, hk]), ih]

theorem sscDedup_fold_nodup :
    ∀ (l : List SscSubject) (st : List SscSubject × List (String × SscSubject)),
      (nonGoNames st.1).Nodup →
      (∀ x, x ∈ nonGoNames st.1 ↔ (lookupAssoc st.2 x).isSome = true) →
      (nonGoNames (l.foldl sscDedupStep st).1).Nodup := by
  intro l
  induction l with
  | nil => intro st h _; exact h
  | cons s l ih =>
    intro st hnd hiff
    rw [List.foldl_cons]
    by_cases hgo : sscGo s = true
    · rw [sscDedupStep_go st s hgo]
      apply ih
      · rw [nonGoNames_append, nonGoNames_cons_go s [] hgo]
        simpa using hnd
      · intro x
        rw [nonGoNames_append, nonGoNames_cons_go s [] hgo]
        simpa using hiff x
    · replace hgo : sscGo s = false := by simpa using hgo
      cases hlkp : lookupAssoc st.2 (sscNl s) with
      | none =>
        rw [sscDedupStep_new st s hgo hlkp]
        apply ih
        · rw [nonGoNames_append, nonGoNames_cons_ngo s [] hgo]
          have hnotin : sscNl s ∉ nonGoNames st.1 := by
            intro hx
            have hsome := (hiff _).mp hx
            rw [hlkp] at hsome
            simp at hsome
          simp [List.nodup_append, hnd, hnotin]
        · intro x
          rw [nonGoNames_append, nonGoNames_cons_ngo s [] hgo,
            lookupAssoc_setAssoc_isSome]
          constructor
          · intro hx
            rcases List.mem_append.mp hx with hx | hx
            · exact Or.inr ((hiff x).mp hx)
            · simp at hx
              exact Or.inl hx
          · intro hx
            rcases hx with hx | hx
            · subst hx; simp
            · exact List.mem_append.mpr (Or.inl ((hiff x).mpr hx))
      | some e =>
        by_cases hcmp : e.marks_obtained.getD 0 < s.marks_obtained.getD 0
        · rw [sscDedupStep_dup_replace st s e hgo hlkp hcmp]
          apply ih
          · rw [nonGoNames_append, nonGoNames_filter_ne, nonGoNames_cons_ngo s [] hgo]
            have hni : sscNl s ∉ (nonGoNames st.1).filter (fun x => x ≠ sscNl s) := by
              simp
            simp [List.nodup_append, List.Nodup.filter _ hnd, hni]
          · intro x
            rw [nonGoNames_append, nonGoNames_filter_ne, nonGoNames_cons_ngo s [] hgo,
              lookupAssoc_setAssoc_isSome]
            constructor
            · intro hx
              rcases List.mem_append.mp hx with hx | hx
              · exact Or.inr ((hiff x).mp (List.mem_of_mem_filter hx))
              · simp at hx
                exact Or.inl hx
            · intro hx
              rcases hx with hx | hx
              · subst hx; simp
              · by_cases hxe : x = sscNl s
                · subst hxe; simp
                · refine List.mem_append.mpr (Or.inl ?_)
                  rw [List.mem_filter]
                  exact ⟨(hiff x).mpr hx, by simpa using hxe⟩
        · rw [sscDedupStep_dup_keep st s e hgo hlkp hcmp]
          exact ih st hnd hiff

/-- The deduplicated LLM fallback list has distinct non-grade-only names. -/
theorem sscDedup_nodup (l : List SscSubject) : (nonGoNames (sscDedup l)).Nodup := by
  unfold sscDedup
  exact sscDedup_fold_nodup l ([], []) (by simp [nonGoNames]) (by
    intro x
    simp [nonGoNames, lookupAssoc_nil])

/-! ### C7: per-subject fix lemmas -/

theorem fixSscSubject_name (s : SscSubject) :
    (fixSscSubject s).subject_name = s.subject_name := by
  unfold fixSscSubject
  split <;> rfl

theorem sscNl_fix (s : SscSubject) : sscNl (fixSscSubject s) = sscNl s := by
  unfold sscNl
  rw [fixSscSubject_name]

theorem sscGo_fix (s : SscSubject) : sscGo (fixSscSubject s) = sscGo s := by
  unfold sscGo
  rw [sscNl_fix]

theorem nonGoNames_map_fix (l : List SscSubject) :
    nonGoNames (l.map fixSscSubject) = nonGoNames l := by
  induction l with
  | nil => rfl
  | cons s l ih =>
    rw [List.map_cons]
    by_cases hgo : sscGo s = true
    · rw [nonGoNames_cons_go _ _ (by rw [sscGo_fix]; exact hgo),
        nonGoNames_cons_go s l hgo, ih]
    · replace hgo : sscGo s = false := by simpa using hgo
      rw [nonGoNames_cons_ngo _ _ (by rw [sscGo_fix]; exact hgo),
        nonGoNames_cons_ngo s l hgo, ih, sscNl_fix]

theorem ssc_valid_upper_strip (g : String)
    (h : SSC_VALID_GRADE_LETTERS.contains g = true) : pyUpper (pyStrip g) = g := by
  simp [SSC_VALID_GRADE_LETTERS] at h
  rcases h with rfl | rfl | rfl | rfl | rfl <;> rfl

theorem fixSscSubjectGrade_idem (g : Option String) :
    fixSscSubjectGrade (some (fixSscSubjectGrade g)) = fixSscSubjectGrade g := by
  have hv := fixSscSubjectGrade_valid g
  have hus : pyUpper (pyStrip (fixSscSubjectGrade g)) = fixSscSubjectGrade g :=
    ssc_valid_upper_strip _ hv
  show (if SSC_VALID_GRADE_LETTERS.contains (pyUpper (pyStrip (fixSscSubjectGrade g)))
        = true then pyUpper (pyStrip (fixSscSubjectGrade g)) else "A")
      = fixSscSubjectGrade g
  rw [hus, if_pos hv]

theorem fixSscSubject_idem (s : SscSubject) :
    fixSscSubject (fixSscSubject s) = fixSscSubject s := by
  by_cases hgo : SSC_GRADE_ONLY_NAMES.contains (pyStrip (pyLower s.subject_name)) = true
  · have h1 : fixSscSubject s = { s with marks_obtained := none, max_marks := none, grade := some (fixSscSubjectGrade s.grade) } := by
      unfold fixSscSubject
      rw [if_pos hgo]
    rw [h1]
    unfold fixSscSubject
    rw [if_pos hgo]
    have h2 := fixSscSubjectGrade_idem s.grade
    show ({ s with marks_obtained := none, max_marks := none, grade := some (fixSscSubjectGrade (some (fixSscSubjectGrade s.grade))) } : SscSubject) = _
    rw [h2]
  · have h1 : fixSscSubject s = { s with grade := none, max_marks := some 100 } := by
      unfold fixSscSubject
      rw [if_neg hgo]
    rw [h1]
    unfold fixSscSubject
    rw [if_neg hgo]

theorem ssc_injection_rows_fixed :
    ∀ p ∈ SSC_GRADE_ONLY_INJECTION,
      fixSscSubject ⟨p.2, none, none, some "A"⟩ = ⟨p.2, none, none, some "A"⟩ := by
  decide

theorem ssc_injection_rows_go :
    ∀ p ∈ SSC_GRADE_ONLY_INJECTION, sscGo ⟨p.2, none, none, some "A"⟩ = true := by
  decide

theorem ssc_injection_nl :
    ∀ p ∈ SSC_GRADE_ONLY_INJECTION, pyStrip (pyLower p.2) = pyLower p.2 := by
  decide

theorem map_fix_id (l : List SscSubject) (h : ∀ s ∈ l, fixSscSubject s = s) :
    l.map fixSscSubject = l := by
  induction l with
  | nil => rfl
  | cons s l ih =>
    rw [List.map_cons, h s (List.mem_cons_self _ _),
      ih (fun t ht => h t (List.mem_cons_of_mem _ ht))]

/-! ### C7: injection lemmas -/

theorem sscInjectStep_cases (ru : List Char)
    (st : List SscSubject × List String) (p : String × String) :
    sscInjectStep ru st p = st ∨
    (sscInjectStep ru st p
        = (st.1 ++ [⟨p.2, none, none, some "A"⟩], st.2 ++ [pyLower p.2]) ∧
      st.2.contains (pyLower p.2) = false) := by
  unfold sscInjectStep
  by_cases h1 : st.2.contains (pyLower p.2) = true
  · rw [if_pos h1]
    exact Or.inl rfl
  · rw [if_neg h1]
    by_cases h2 : (reSearch (reCat [.bnd, reLit p.1, .bnd]) ru).isSome = true
    · rw [if_pos h2]
      exact Or.inr ⟨rfl, by simpa using h1⟩
    · rw [if_neg h2]
      exact Or.inl rfl

theorem sscInjectFold_mem2 (ru : List Char) :
    ∀ (ps : List (String × String)) (st : List SscSubject × List String)
      (x : String), x ∈ st.2 → x ∈ (ps.foldl (sscInjectStep ru) st).2 := by
  intro ps
  induction ps with
  | nil => intro st x h; exact h
  | cons p ps ih =>
    intro st x h
    rw [List.foldl_cons]
    rcases sscInjectStep_cases ru st p with hc | ⟨hc, _⟩
    · rw [hc]; exact ih st x h
    · rw [hc]
      exact ih _ x (by simp [h])

theorem sscInjectStep_skip_contains (ru : List Char)
    (st : List SscSubject × List String) (p : String × String)
    (h : st.2.contains (pyLower p.2) = true) : sscInjectStep ru st p = st := by
  unfold sscInjectStep
  rw [if_pos h]

theorem sscInjectStep_skip_nomarker (ru : List Char)
    (st : List SscSubject × List String) (p : String × String)
    (h : (reSearch (reCat [.bnd, reLit p.1, .bnd]) ru).isSome = false) :
    sscInjectStep ru st p = st := by
  unfold sscInjectStep
  by_cases h1 : st.2.contains (pyLower p.2) = true
  · rw [if_pos h1]
  · rw [if_neg h1, if_neg (by simp [h])]

theorem sscInjectFold_step_final (ru : List Char) :
    ∀ (ps : List (String × String)) (st : List SscSubject × List String)
      (p : String × String), p ∈ ps →
      sscInjectStep ru (ps.foldl (sscInjectStep ru) st) p
        = ps.foldl (sscInjectStep ru) st := by
  intro ps
  induction ps with
  | nil => intro st p h; simp at h
  | cons q ps ih =>
    intro st p hp
    rw [List.foldl_cons]
    rcases List.mem_cons.mp hp with rfl | hp'
    · rcases sscInjectStep_cases ru st p with hc | ⟨hc, hnc⟩
      · by_cases h1 : st.2.contains (pyLower p.2) = true
        · have hmem : pyLower p.2 ∈ st.2 := by simpa using h1
          have hmemF : pyLower p.2 ∈ (ps.foldl (sscInjectStep ru) (sscInjectStep ru st p)).2 := by
            rw [hc]
            exact sscInjectFold_mem2 ru ps st _ hmem
          exact sscInjectStep_skip_contains ru _ p (by simpa using hmemF)
        · have h2 : (reSearch (reCat [.bnd, reLit p.1, .bnd]) ru).isSome = false := by
            by_cases h2' : (reSearch (reCat [.bnd, reLit p.1, .bnd]) ru).isSome = true
            · exfalso
              have hc2 : sscInjectStep ru st p
                  = (st.1 ++ [⟨p.2, none, none, some "A"⟩], st.2 ++ [pyLower p.2]) := by
                unfold sscInjectStep
                rw [if_neg h1, if_pos h2']
              rw [hc] at hc2
              have hlen := congrArg (fun q => q.2.length) hc2
              simp at hlen
            · simpa using h2'
          exact sscInjectStep_skip_nomarker ru _ p h2
      · have hmem : pyLower p.2 ∈ (sscInjectStep ru st p).2 := by
          rw [hc]; simp
        have hmemF := sscInjectFold_mem2 ru ps _ _ hmem
        exact sscInjectStep_skip_contains ru _ p (by simpa using hmemF)
    · exact ih (sscInjectStep ru st q) p hp'

theorem sscInjectFold_refold (ru : List Char) :
    ∀ (ps : List (String × String)) (st : List SscSubject × List String),
      (∀ p ∈ ps, sscInjectStep ru st p = st) →
      ps.foldl (sscInjectStep ru) st = st := by
  intro ps
  induction ps with
  | nil => intro st _; rfl
  | cons q ps ih =>
    intro st h
    rw [List.foldl_cons, h q (List.mem_cons_self _ _)]
    exact ih st (fun p hp => h p (List.mem_cons_of_mem _ hp))

theorem sscInjectFold_snd (ru : List Char) :
    ∀ (ps : List (String × String)) (st : List SscSubject × List String),
      (∀ p ∈ ps, pyStrip (pyLower p.2) = pyLower p.2) →
      st.2 = st.1.map sscNl →
      (ps.foldl (sscInjectStep ru) st).2
        = (ps.foldl (sscInjectStep ru) st).1.map sscNl := by
  intro ps
  induction ps with
  | nil => intro st _ h; exact h
  | cons q ps ih =>
    intro st hps hst
    rw [List.foldl_cons]
    rcases sscInjectStep_cases ru st q with hc | ⟨hc, _⟩
    · rw [hc]
      exact ih st (fun p hp => hps p (List.mem_cons_of_mem _ hp)) hst
    · rw [hc]
      refine ih _ (fun p hp => hps p (List.mem_cons_of_mem _ hp)) ?_
      show st.2 ++ [pyLower q.2] = (st.1 ++ ([⟨q.2, none, none, some "A"⟩] : List SscSubject)).map sscNl
      rw [List.map_append, hst]
      have : sscNl ⟨q.2, none, none, some "A"⟩ = pyLower q.2 :=
        hps q (List.mem_cons_self _ _)
      simp [this]

theorem sscInjectFold_mem1 (ru : List Char) :
    ∀ (ps : List (String × String)) (st : List SscSubject × List String)
      (s : SscSubject), s ∈ (ps.foldl (sscInjectStep ru) st).1 →
      s ∈ st.1 ∨ ∃ p ∈ ps, s = ⟨p.2, none, none, some "A"⟩ := by
  intro ps
  induction ps with
  | nil => intro st s h; exact Or.inl h
  | cons q ps ih =>
    intro st s h
    rw [List.foldl_cons] at h
    rcases sscInjectStep_cases ru st q with hc | ⟨hc, _⟩
    · rw [hc] at h
      rcases ih st s h with h' | ⟨p, hp, he⟩
      · exact Or.inl h'
      · exact Or.inr ⟨p, List.mem_cons_of_mem _ hp, he⟩
    · rw [hc] at h
      rcases ih _ s h with h' | ⟨p, hp, he⟩
      · rcases List.mem_append.mp h' with h'' | h''
        · exact Or.inl h''
        · simp only [List.mem_singleton] at h''
          exact Or.inr ⟨q, List.mem_cons_self _ _, h''⟩
      · exact Or.inr ⟨p, List.mem_cons_of_mem _ hp, he⟩

theorem nonGoNames_injectFold (ru : List Char) :
    ∀ (ps : List (String × String)) (st : List SscSubject × List String),
      (∀ p ∈ ps, sscGo ⟨p.2, none, none, some "A"⟩ = true) →
      nonGoNames (ps.foldl (sscInjectStep ru) st).1 = nonGoNames st.1 := by
  intro ps
  induction ps with
  | nil => intro st _; rfl
  | cons q ps ih =>
    intro st hps
    rw [List.foldl_cons]
    rcases sscInjectStep_cases ru st q with hc | ⟨hc, _⟩
    · rw [hc]
      exact ih st (fun p hp => hps p (List.mem_cons_of_mem _ hp))
    · rw [hc, ih _ (fun p hp => hps p (List.mem_cons_of_mem _ hp))]
      show nonGoNames (st.1 ++ [⟨q.2, none, none, some "A"⟩]) = nonGoNames st.1
      rw [nonGoNames_append, nonGoNames_cons_go _ _ (hps q (List.mem_cons_self _ _)),
        nonGoNames_nil]
      simp

theorem sscNl_lambda : (fun s => pyStrip (pyLower s.subject_name)) = sscNl := rfl

set_option maxHeartbeats 1600000 in
theorem sscInjectAll_idem (raw_text : String) (l : List SscSubject) :
    sscInjectAll raw_text (sscInjectAll raw_text l) = sscInjectAll raw_text l := by
  unfold sscInjectAll
  rw [sscNl_lambda]
  set ru := (pyUpper raw_text).data with hru
  set F := SSC_GRADE_ONLY_INJECTION.foldl (sscInjectStep ru) (l, l.map sscNl) with hF
  have hsnd : F.2 = F.1.map sscNl :=
    sscInjectFold_snd ru SSC_GRADE_ONLY_INJECTION (l, l.map sscNl) ssc_injection_nl rfl
  have hpair : (F.1, F.1.map sscNl) = F := by
    rw [← hsnd]
  rw [hpair, sscInjectFold_refold ru SSC_GRADE_ONLY_INJECTION F
    (fun p hp => sscInjectFold_step_final ru SSC_GRADE_ONLY_INJECTION
      (l, l.map sscNl) p hp)]

theorem nonGoNames_injectAll (raw_text : String) (l : List SscSubject) :
    nonGoNames (sscInjectAll raw_text l) = nonGoNames l := by
  unfold sscInjectAll
  rw [sscNl_lambda]
  exact nonGoNames_injectFold (pyUpper raw_text).data SSC_GRADE_ONLY_INJECTION
    (l, l.map sscNl) ssc_injection_rows_go

theorem sscInjectAll_mem (raw_text : String) (l : List SscSubject) (s : SscSubject)
    (h : s ∈ sscInjectAll raw_text l) :
    s ∈ l ∨ ∃ p ∈ SSC_GRADE_ONLY_INJECTION, s = ⟨p.2, none, none, some "A"⟩ := by
  unfold sscInjectAll at h
  rw [sscNl_lambda] at h
  exact sscInjectFold_mem1 (pyUpper raw_text).data SSC_GRADE_ONLY_INJECTION
    (l, l.map sscNl) s h

/-! ### C7: totals and percentage lemmas -/

theorem sscTmoFinal_val (raw_text : String) (m : Int) (t0 : Option Int) :
    sscTmoFinal (some m) t0 raw_text
      = (match extract_total_marks_obtained_from_text raw_text m with
        | some t => if m < t then none else some t
        | none => none) := by
  unfold sscTmoFinal
  dsimp only
  by_cases h : t0 = extract_total_marks_obtained_from_text raw_text m
  · rw [if_neg (by simp [h]), h]
  · rw [if_pos (by simp [h])]

theorem sscTmoFinal_idem (raw_text : String) (E : Option Int) (t : Option Int) :
    sscTmoFinal E (sscTmoFinal E t raw_text) raw_text = sscTmoFinal E t raw_text := by
  cases E with
  | none => rfl
  | some m => rw [sscTmoFinal_val, sscTmoFinal_val]

theorem extract_percentage_range (raw_text : String) (q : ℚ)
    (h : extract_percentage_from_text raw_text = some q) : 0 ≤ q ∧ q ≤ 100 := by
  unfold extract_percentage_from_text at h
  cases hA : (reFindIter sscPctPattern (ssc_totals_area raw_text)).findSome?
      (fun m =>
        match m.2.2 with
        | (gs, ge) :: _ =>
          if 0 ≤ parseDecQ (sliceL (ssc_totals_area raw_text) gs ge) ∧
              parseDecQ (sliceL (ssc_totals_area raw_text) gs ge) ≤ 100 then
            some (parseDecQ (sliceL (ssc_totals_area raw_text) gs ge))
          else none
        | [] => none) with
  | some q0 =>
    rw [hA] at h
    dsimp only at h
    have hinj := Option.some.inj h
    subst hinj
    refine findSome?_spec (fun b => 0 ≤ b ∧ b ≤ 100) _ _ ?_ q0 hA
    intro a b hab
    rcases hm : a.2.2 with _ | ⟨g, rest⟩ <;> rw [hm] at hab
    · simp at hab
    · obtain ⟨gs, ge⟩ := g
      dsimp only at hab
      split at hab
      · rename_i hcond
        cases hab
        exact hcond
      · simp at hab
  | none =>
    rw [hA] at h
    dsimp only at h
    refine findSome?_spec (fun b => 0 ≤ b ∧ b ≤ 100) _ _ ?_ q h
    intro a b hab
    rcases hm : a.2.2 with _ | ⟨g, rest⟩ <;> rw [hm] at hab
    · simp at hab
    · obtain ⟨gs, ge⟩ := g
      dsimp only at hab
      split at hab
      · rename_i hcond
        cases hab
        exact ⟨by linarith [hcond.1], hcond.2⟩
      · simp at hab

theorem round2Q_idem (q : ℚ) : round2Q (round2Q q) = round2Q q := by
  unfold round2Q
  rw [div_mul_cancel₀ _ (by norm_num : (100 : ℚ) ≠ 0), round_intCast]

theorem round2Q_range (q : ℚ) (h0 : 0 ≤ q) (h1 : q ≤ 100) :
    0 ≤ round2Q q ∧ round2Q q ≤ 100 := by
  have hmono : ∀ a b : ℚ, a ≤ b → round a ≤ round b := by
    intro a b hab
    rw [round_eq, round_eq]
    exact Int.floor_mono (by linarith)
  have hlo : (0 : ℤ) ≤ round (q * 100) := by
    have hm := hmono 0 (q * 100) (by linarith)
    simpa using hm
  have hhi : round (q * 100) ≤ 10000 := by
    have hm := hmono (q * 100) 10000 (by linarith)
    have h10 : round ((10000 : ℚ)) = 10000 := by
      rw [show ((10000 : ℚ)) = ((10000 : ℤ) : ℚ) by norm_num, round_intCast]
    rw [h10] at hm
    exact hm
  unfold round2Q
  constructor
  · positivity
  · rw [div_le_iff₀ (by norm_num : (0 : ℚ) < 100)]
    have hc : ((round (q * 100) : ℤ) : ℚ) ≤ (10000 : ℚ) := by exact_mod_cast hhi
    linarith

theorem formatQ2_round2Q (q : ℚ) : formatQ2 (round2Q q) = formatQ2 q := by
  unfold formatQ2 round2Q
  rw [div_mul_cancel₀ _ (by norm_num : (100 : ℚ) ≠ 0), round_intCast]

theorem pctStrFound_round2Q (q : ℚ) (raw_text : String) :
    pctStrFound (round2Q q) raw_text = pctStrFound q raw_text := by
  unfold pctStrFound
  rw [formatQ2_round2Q]

theorem sscPctB_none (x : Option ℚ) (raw_text : String)
    (h : sscPctB x raw_text = none) :
    extract_percentage_from_text raw_text = none := by
  cases x with
  | none => exact h
  | some p =>
    unfold sscPctB at h
    dsimp only at h
    split at h
    · simp at h
    · exact h

theorem sscPctB_some (raw_text : String) (p0 : Option ℚ) (q : ℚ)
    (h : sscPctB (sscPctA p0 raw_text) raw_text = some q) :
    (0 ≤ q ∧ q ≤ 100) ∧
      (pctStrFound q raw_text = true ∨
        extract_percentage_from_text raw_text = some q) := by
  cases hA : sscPctA p0 raw_text with
  | none =>
    rw [hA] at h
    unfold sscPctB at h
    dsimp only at h
    exact ⟨extract_percentage_range _ _ h, Or.inr h⟩
  | some p =>
    rw [hA] at h
    unfold sscPctB at h
    dsimp only at h
    by_cases hr : 0 ≤ p ∧ p ≤ 100
    · rw [if_pos hr] at h
      have hpq := Option.some.inj h
      subst hpq
      refine ⟨hr, ?_⟩
      unfold sscPctA at hA
      cases hp0 : p0 with
      | none => rw [hp0] at hA; simp at hA
      | some pv =>
        rw [hp0] at hA
        dsimp only at hA
        by_cases hrv : 0 ≤ pv ∧ pv ≤ 100
        · rw [if_pos hrv] at hA
          by_cases hfv : pctStrFound pv raw_text = true
          · rw [if_pos hfv] at hA
            have := Option.some.inj hA
            subst this
            exact Or.inl hfv
          · rw [if_neg hfv] at hA
            simp at hA
        · rw [if_neg hrv] at hA
          have := Option.some.inj hA
          subst this
          exact absurd hr hrv
    · rw [if_neg hr] at h
      exact ⟨extract_percentage_range _ _ h, Or.inr h⟩

theorem sscPctStable (raw_text : String) (q : ℚ) (h0 : 0 ≤ q) (h1 : q ≤ 100)
    (hsrc : pctStrFound q raw_text = true ∨
      extract_percentage_from_text raw_text = some q) :
    (sscPctB (sscPctA (some (round2Q q)) raw_text) raw_text).map round2Q
      = some (round2Q q) := by
  have hr := round2Q_range q h0 h1
  unfold sscPctA
  dsimp only
  rw [if_pos hr]
  by_cases hf : pctStrFound (round2Q q) raw_text = true
  · rw [if_pos hf]
    unfold sscPctB
    dsimp only
    rw [if_pos hr]
    simp only [Option.map_some']
    rw [round2Q_idem]
  · rw [if_neg hf]
    rcases hsrc with hs | hs
    · rw [pctStrFound_round2Q] at hf
      exact absurd hs hf
    · show (sscPctB none raw_text).map round2Q = _
      unfold sscPctB
      dsimp only
      rw [hs]
      simp only [Option.map_some']

theorem sscPct_idem (raw_text : String) (p0 : Option ℚ) :
    (sscPctB (sscPctA ((sscPctB (sscPctA p0 raw_text) raw_text).map round2Q)
        raw_text) raw_text).map round2Q
      = (sscPctB (sscPctA p0 raw_text) raw_text).map round2Q := by
  cases hq : sscPctB (sscPctA p0 raw_text) raw_text with
  | none =>
    have hext := sscPctB_none _ _ hq
    simp only [Option.map_none']
    show (sscPctB none raw_text).map round2Q = none
    unfold sscPctB
    dsimp only
    rw [hext]
    rfl
  | some q =>
    obtain ⟨hq1, hq2⟩ := sscPctB_some raw_text p0 q hq
    simp only [Option.map_some']
    exact sscPctStable raw_text q hq1.1 hq1.2 hq2

/-! ### C7: step projections and assembly -/

theorem sscRecordExt (a b : SscRecord)
    (h1 : a.mother_name = b.mother_name) (h2 : a.student_name = b.student_name)
    (h3 : a.father_name = b.father_name) (h4 : a.fathers_name = b.fathers_name)
    (h5 : a.subjects = b.subjects) (h6 : a.total_max_marks = b.total_max_marks)
    (h7 : a.total_marks_obtained = b.total_marks_obtained)
    (h8 : a.percentage = b.percentage)
    (h9 : a.extraction_method = b.extraction_method)
    (h10 : a.extraction_warnings = b.extraction_warnings)
    (h11 : a.needs_manual_review = b.needs_manual_review) : a = b := by
  cases a
  cases b
  simp_all

theorem sscSubjectsStep_pos (d : SscRecord) (raw_text : String)
    (h : (ssc_extract_subjects_from_raw_text raw_text).isEmpty = false) :
    sscSubjectsStep d raw_text = { d with subjects := ssc_extract_subjects_from_raw_text raw_text, extraction_method := some "regex" } := by
  simp only [sscSubjectsStep]
  rw [if_pos (show (!(ssc_extract_subjects_from_raw_text raw_text).isEmpty) = true
    by rw [h]; rfl)]

theorem sscSubjectsStep_neg (d : SscRecord) (raw_text : String)
    (h : (ssc_extract_subjects_from_raw_text raw_text).isEmpty = true) :
    sscSubjectsStep d raw_text = { d with subjects := sscDedup d.subjects, extraction_method := some "llm_fallback" } := by
  simp only [sscSubjectsStep]
  rw [if_neg (show ¬((!(ssc_extract_subjects_from_raw_text raw_text).isEmpty) = true)
    by rw [h]; simp)]

theorem sscAnomaliesStep_mother (d : SscRecord) (raw_text : String) :
    (sscAnomaliesStep d raw_text).mother_name = d.mother_name := by
  unfold sscAnomaliesStep
  split <;> rfl

theorem sscAnomaliesStep_student (d : SscRecord) (raw_text : String) :
    (sscAnomaliesStep d raw_text).student_name = d.student_name := by
  unfold sscAnomaliesStep
  split <;> rfl

theorem sscAnomaliesStep_father (d : SscRecord) (raw_text : String) :
    (sscAnomaliesStep d raw_text).father_name = d.father_name := by
  unfold sscAnomaliesStep
  split <;> rfl

theorem sscAnomaliesStep_fathers (d : SscRecord) (raw_text : String) :
    (sscAnomaliesStep d raw_text).fathers_name = d.fathers_name := by
  unfold sscAnomaliesStep
  split <;> rfl

theorem sscAnomaliesStep_tmo (d : SscRecord) (raw_text : String) :
    (sscAnomaliesStep d raw_text).total_marks_obtained = d.total_marks_obtained := by
  unfold sscAnomaliesStep
  split <;> rfl

theorem sscAnomaliesStep_pct (d : SscRecord) (raw_text : String) :
    (sscAnomaliesStep d raw_text).percentage = d.percentage := by
  unfold sscAnomaliesStep
  split <;> rfl

theorem sscAnomaliesStep_method (d : SscRecord) (raw_text : String) :
    (sscAnomaliesStep d raw_text).extraction_method = d.extraction_method := by
  unfold sscAnomaliesStep
  split <;> rfl

theorem ssc_P_mother (x : SscRecord) (raw_text : String) :
    (sscTotalsStep (sscInjectStepR (sscFixStep (sscSubjectsStep (sscNamesStep x) raw_text)) raw_text) raw_text).mother_name = sscMotherFix x.mother_name := by
  by_cases hE : (ssc_extract_subjects_from_raw_text raw_text).isEmpty = true
  · rw [sscSubjectsStep_neg _ _ hE]; rfl
  · rw [sscSubjectsStep_pos _ _ (by simpa using hE)]; rfl

theorem ssc_P_student (x : SscRecord) (raw_text : String) :
    (sscTotalsStep (sscInjectStepR (sscFixStep (sscSubjectsStep (sscNamesStep x) raw_text)) raw_text) raw_text).student_name = sscStudentFix x.student_name := by
  by_cases hE : (ssc_extract_subjects_from_raw_text raw_text).isEmpty = true
  · rw [sscSubjectsStep_neg _ _ hE]; rfl
  · rw [sscSubjectsStep_pos _ _ (by simpa using hE)]; rfl

theorem ssc_P_father (x : SscRecord) (raw_text : String) :
    (sscTotalsStep (sscInjectStepR (sscFixStep (sscSubjectsStep (sscNamesStep x) raw_text)) raw_text) raw_text).father_name = (sscFatherFix x.father_name x.fathers_name).1 := by
  by_cases hE : (ssc_extract_subjects_from_raw_text raw_text).isEmpty = true
  · rw [sscSubjectsStep_neg _ _ hE]; rfl
  · rw [sscSubjectsStep_pos _ _ (by simpa using hE)]; rfl

theorem ssc_P_fathers (x : SscRecord) (raw_text : String) :
    (sscTotalsStep (sscInjectStepR (sscFixStep (sscSubjectsStep (sscNamesStep x) raw_text)) raw_text) raw_text).fathers_name = (sscFatherFix x.father_name x.fathers_name).2 := by
  by_cases hE : (ssc_extract_subjects_from_raw_text raw_text).isEmpty = true
  · rw [sscSubjectsStep_neg _ _ hE]; rfl
  · rw [sscSubjectsStep_pos _ _ (by simpa using hE)]; rfl

theorem ssc_P_warn (x : SscRecord) (raw_text : String) :
    (sscTotalsStep (sscInjectStepR (sscFixStep (sscSubjectsStep (sscNamesStep x) raw_text)) raw_text) raw_text).extraction_warnings = x.extraction_warnings := by
  by_cases hE : (ssc_extract_subjects_from_raw_text raw_text).isEmpty = true
  · rw [sscSubjectsStep_neg _ _ hE]; rfl
  · rw [sscSubjectsStep_pos _ _ (by simpa using hE)]; rfl

theorem ssc_P_review (x : SscRecord) (raw_text : String) :
    (sscTotalsStep (sscInjectStepR (sscFixStep (sscSubjectsStep (sscNamesStep x) raw_text)) raw_text) raw_text).needs_manual_review = x.needs_manual_review := by
  by_cases hE : (ssc_extract_subjects_from_raw_text raw_text).isEmpty = true
  · rw [sscSubjectsStep_neg _ _ hE]; rfl
  · rw [sscSubjectsStep_pos _ _ (by simpa using hE)]; rfl

theorem ssc_P_pct (x : SscRecord) (raw_text : String) :
    (sscTotalsStep (sscInjectStepR (sscFixStep (sscSubjectsStep (sscNamesStep x) raw_text)) raw_text) raw_text).percentage = (sscPctB (sscPctA x.percentage raw_text) raw_text).map round2Q := by
  by_cases hE : (ssc_extract_subjects_from_raw_text raw_text).isEmpty = true
  · rw [sscSubjectsStep_neg _ _ hE]; rfl
  · rw [sscSubjectsStep_pos _ _ (by simpa using hE)]; rfl

theorem ssc_P_tmo (x : SscRecord) (raw_text : String) :
    (sscTotalsStep (sscInjectStepR (sscFixStep (sscSubjectsStep (sscNamesStep x) raw_text)) raw_text) raw_text).total_marks_obtained = sscTmoFinal (extract_total_max_marks_from_text raw_text) x.total_marks_obtained raw_text := by
  by_cases hE : (ssc_extract_subjects_from_raw_text raw_text).isEmpty = true
  · rw [sscSubjectsStep_neg _ _ hE]
    show sscTmoFinal (sscTmmFinal _ raw_text) _ raw_text = _
    rw [sscTmmFinal_eq]
    rfl
  · rw [sscSubjectsStep_pos _ _ (by simpa using hE)]
    show sscTmoFinal (sscTmmFinal _ raw_text) _ raw_text = _
    rw [sscTmmFinal_eq]
    rfl

theorem ssc_P_method_pos (x : SscRecord) (raw_text : String)
    (h : (ssc_extract_subjects_from_raw_text raw_text).isEmpty = false) :
    (sscTotalsStep (sscInjectStepR (sscFixStep (sscSubjectsStep (sscNamesStep x) raw_text)) raw_text) raw_text).extraction_method = some "regex" := by
  rw [sscSubjectsStep_pos _ _ h]; rfl

theorem ssc_P_method_neg (x : SscRecord) (raw_text : String)
    (h : (ssc_extract_subjects_from_raw_text raw_text).isEmpty = true) :
    (sscTotalsStep (sscInjectStepR (sscFixStep (sscSubjectsStep (sscNamesStep x) raw_text)) raw_text) raw_text).extraction_method = some "llm_fallback" := by
  rw [sscSubjectsStep_neg _ _ h]; rfl

theorem ssc_P_subjects_pos (x : SscRecord) (raw_text : String)
    (h : (ssc_extract_subjects_from_raw_text raw_text).isEmpty = false) :
    (sscTotalsStep (sscInjectStepR (sscFixStep (sscSubjectsStep (sscNamesStep x) raw_text)) raw_text) raw_text).subjects = sscInjectAll raw_text ((ssc_extract_subjects_from_raw_text raw_text).map fixSscSubject) := by
  rw [sscTotalsStep_subjects, sscInjectStepR_subjects, sscFixStep_subjects,
    sscSubjectsStep_pos _ _ h]

theorem ssc_P_subjects_neg (x : SscRecord) (raw_text : String)
    (h : (ssc_extract_subjects_from_raw_text raw_text).isEmpty = true) :
    (sscTotalsStep (sscInjectStepR (sscFixStep (sscSubjectsStep (sscNamesStep x) raw_text)) raw_text) raw_text).subjects = sscInjectAll raw_text ((sscDedup x.subjects).map fixSscSubject) := by
  rw [sscTotalsStep_subjects, sscInjectStepR_subjects, sscFixStep_subjects,
    sscSubjectsStep_neg _ _ h]
  rfl

theorem ssc_V_mother (d : SscRecord) (raw_text : String) :
    (validate_and_fix_ssc_marksheet d raw_text).mother_name
      = sscMotherFix d.mother_name := by
  unfold validate_and_fix_ssc_marksheet
  rw [sscAnomaliesStep_mother]
  exact ssc_P_mother d raw_text

theorem ssc_V_student (d : SscRecord) (raw_text : String) :
    (validate_and_fix_ssc_marksheet d raw_text).student_name
      = sscStudentFix d.student_name := by
  unfold validate_and_fix_ssc_marksheet
  rw [sscAnomaliesStep_student]
  exact ssc_P_student d raw_text

theorem ssc_V_father (d : SscRecord) (raw_text : String) :
    (validate_and_fix_ssc_marksheet d raw_text).father_name
      = (sscFatherFix d.father_name d.fathers_name).1 := by
  unfold validate_and_fix_ssc_marksheet
  rw [sscAnomaliesStep_father]
  exact ssc_P_father d raw_text

theorem ssc_V_fathers (d : SscRecord) (raw_text : String) :
    (validate_and_fix_ssc_marksheet d raw_text).fathers_name
      = (sscFatherFix d.father_name d.fathers_name).2 := by
  unfold validate_and_fix_ssc_marksheet
  rw [sscAnomaliesStep_fathers]
  exact ssc_P_fathers d raw_text

theorem ssc_V_tmo (d : SscRecord) (raw_text : String) :
    (validate_and_fix_ssc_marksheet d raw_text).total_marks_obtained
      = sscTmoFinal (extract_total_max_marks_from_text raw_text)
          d.total_marks_obtained raw_text := by
  unfold validate_and_fix_ssc_marksheet
  rw [sscAnomaliesStep_tmo]
  exact ssc_P_tmo d raw_text

theorem ssc_V_pct (d : SscRecord) (raw_text : String) :
    (validate_and_fix_ssc_marksheet d raw_text).percentage
      = (sscPctB (sscPctA d.percentage raw_text) raw_text).map round2Q := by
  unfold validate_and_fix_ssc_marksheet
  rw [sscAnomaliesStep_pct]
  exact ssc_P_pct d raw_text

theorem ssc_V_subjects_pos (d : SscRecord) (raw_text : String)
    (h : (ssc_extract_subjects_from_raw_text raw_text).isEmpty = false) :
    (validate_and_fix_ssc_marksheet d raw_text).subjects
      = sscInjectAll raw_text
          ((ssc_extract_subjects_from_raw_text raw_text).map fixSscSubject) := by
  unfold validate_and_fix_ssc_marksheet
  rw [sscAnomaliesStep_subjects]
  exact ssc_P_subjects_pos d raw_text h

theorem ssc_V_subjects_neg (d : SscRecord) (raw_text : String)
    (h : (ssc_extract_subjects_from_raw_text raw_text).isEmpty = true) :
    (validate_and_fix_ssc_marksheet d raw_text).subjects
      = sscInjectAll raw_text ((sscDedup d.subjects).map fixSscSubject) := by
  unfold validate_and_fix_ssc_marksheet
  rw [sscAnomaliesStep_subjects]
  exact ssc_P_subjects_neg d raw_text h

theorem ssc_V_method_pos (d : SscRecord) (raw_text : String)
    (h : (ssc_extract_subjects_from_raw_text raw_text).isEmpty = false) :
    (validate_and_fix_ssc_marksheet d raw_text).extraction_method = some "regex" := by
  unfold validate_and_fix_ssc_marksheet
  rw [sscAnomaliesStep_method]
  exact ssc_P_method_pos d raw_text h

theorem ssc_V_method_neg (d : SscRecord) (raw_text : String)
    (h : (ssc_extract_subjects_from_raw_text raw_text).isEmpty = true) :
    (validate_and_fix_ssc_marksheet d raw_text).extraction_method
      = some "llm_fallback" := by
  unfold validate_and_fix_ssc_marksheet
  rw [sscAnomaliesStep_method]
  exact ssc_P_method_neg d raw_text h

theorem sscAnomalies_congr (a b : SscRecord) (raw_text : String)
    (h1 : a.student_name = b.student_name) (h2 : a.subjects = b.subjects)
    (h3 : a.percentage = b.percentage) :
    sscAnomalies a raw_text = sscAnomalies b raw_text := by
  unfold sscAnomalies
  rw [h1, h2, h3]

theorem sscAnomaliesStep_idem (T : SscRecord) (raw_text : String) :
    sscAnomaliesStep (sscAnomaliesStep T raw_text) raw_text
      = sscAnomaliesStep T raw_text := by
  by_cases hA : sscAnomalies T raw_text = []
  · have h1 : sscAnomaliesStep T raw_text = T := by
      unfold sscAnomaliesStep
      rw [if_neg (by simp [hA])]
    rw [h1, h1]
  · have h1 : sscAnomaliesStep T raw_text = { T with extraction_warnings := some (sscAnomalies T raw_text), needs_manual_review := some true } := by
      unfold sscAnomaliesStep
      rw [if_pos hA]
    rw [h1]
    have hcg : sscAnomalies { T with extraction_warnings := some (sscAnomalies T raw_text), needs_manual_review := some true } raw_text = sscAnomalies T raw_text :=
      sscAnomalies_congr _ _ raw_text rfl rfl rfl
    unfold sscAnomaliesStep
    rw [hcg, if_pos hA]

theorem ssc_P_V (d : SscRecord) (raw_text : String) :
    sscTotalsStep (sscInjectStepR (sscFixStep (sscSubjectsStep (sscNamesStep (validate_and_fix_ssc_marksheet d raw_text)) raw_text)) raw_text) raw_text = validate_and_fix_ssc_marksheet d raw_text := by
  apply sscRecordExt
  · rw [ssc_P_mother, ssc_V_mother, sscMotherFix_idem]
  · rw [ssc_P_student, ssc_V_student, sscStudentFix_idem]
  · rw [ssc_P_father, ssc_V_father, ssc_V_fathers, sscFatherFix_idem]
  · rw [ssc_P_fathers, ssc_V_father, ssc_V_fathers, sscFatherFix_idem]
  · by_cases hE : (ssc_extract_subjects_from_raw_text raw_text).isEmpty = true
    · rw [ssc_P_subjects_neg _ _ hE, ssc_V_subjects_neg _ _ hE]
      have hnodup : (nonGoNames (sscInjectAll raw_text
          ((sscDedup d.subjects).map fixSscSubject))).Nodup := by
        rw [nonGoNames_injectAll, nonGoNames_map_fix]
        exact sscDedup_nodup d.subjects
      rw [sscDedup_id _ hnodup]
      have hfix : (sscInjectAll raw_text
            ((sscDedup d.subjects).map fixSscSubject)).map fixSscSubject
          = sscInjectAll raw_text ((sscDedup d.subjects).map fixSscSubject) := by
        apply map_fix_id
        intro s hs
        rcases sscInjectAll_mem raw_text _ s hs with hs' | ⟨p, hp, he⟩
        · rcases List.mem_map.mp hs' with ⟨t, _, rfl⟩
          exact fixSscSubject_idem t
        · rw [he]
          exact ssc_injection_rows_fixed p hp
      rw [hfix, sscInjectAll_idem]
    · replace hE : (ssc_extract_subjects_from_raw_text raw_text).isEmpty = false := by
        simpa using hE
      rw [ssc_P_subjects_pos _ _ hE, ssc_V_subjects_pos _ _ hE]
  · rw [sscTotalsStep_tmm]
    have hV : (validate_and_fix_ssc_marksheet d raw_text).total_max_marks
        = extract_total_max_marks_from_text raw_text := by
      unfold validate_and_fix_ssc_marksheet
      rw [sscAnomaliesStep_tmm, sscTotalsStep_tmm]
    rw [hV]
  · rw [ssc_P_tmo, ssc_V_tmo, sscTmoFinal_idem]
  · rw [ssc_P_pct, ssc_V_pct, sscPct_idem]
  · by_cases hE : (ssc_extract_subjects_from_raw_text raw_text).isEmpty = true
    · rw [ssc_P_method_neg _ _ hE, ssc_V_method_neg _ _ hE]
    · replace hE : (ssc_extract_subjects_from_raw_text raw_text).isEmpty = false := by
        simpa using hE
      rw [ssc_P_method_pos _ _ hE, ssc_V_method_pos _ _ hE]
  · exact ssc_P_warn _ raw_text
  · exact ssc_P_review _ raw_text

/-- C7 (amended, SSC side): the SSC validator is idempotent — re-running
`validate_and_fix_ssc_marksheet` on its own output with the same raw text
returns the record unchanged. (The CBSE validator is not idempotent; see
the counterexample, which loses `additional_subjects` on the second run.) -/
theorem C7_ssc_validator_idempotent (data : SscRecord) (raw_text : String) :
    validate_and_fix_ssc_marksheet (validate_and_fix_ssc_marksheet data raw_text)
        raw_text
      = validate_and_fix_ssc_marksheet data raw_text := by
  show sscAnomaliesStep (sscTotalsStep (sscInjectStepR (sscFixStep (sscSubjectsStep (sscNamesStep (validate_and_fix_ssc_marksheet data raw_text)) raw_text)) raw_text) raw_text) raw_text = _
  rw [ssc_P_V data raw_text]
  exact sscAnomaliesStep_idem (sscTotalsStep (sscInjectStepR (sscFixStep
    (sscSubjectsStep (sscNamesStep data) raw_text)) raw_text) raw_text) raw_text
